import Mathlib

/-!
# speedtest-nRF91: shallow embedding of `main.c` and `upload_client.c`

Bytes are natural numbers (`0 .. 255`), C strings are lists of bytes whose end
stands for the terminating NUL, `size_t` arithmetic is taken modulo `2 ^ 32`
where it can wrap, and `static` locals become fields of an explicit state.
Functions over `double` take the number type as a parameter `D`; the type
`double` of this file, with NaN, signed zeros and infinities, instantiates it
where the comparisons of C decide the outcome.
-/

namespace Speedtest

/-! ## Definitions -/

/-- Bytes of a C string literal. -/
def lit (s : String) : List Nat := s.toList.map Char.toNat

/-- The C library `strncmp`: compares at most `n` bytes, stopping at a NUL. A list
that has run out reads as the terminating NUL. -/
def strncmp (s1 s2 : List Nat) : Nat → Int
  | 0 => 0
  | n + 1 =>
    if s1.headD 0 ≠ s2.headD 0 then (s1.headD 0 : Int) - (s2.headD 0 : Int)
    else if s1.headD 0 = 0 then 0
    else strncmp s1.tail s2.tail n

/-- The text `snprintf(dst, cap, "%.*s", len, src)` leaves in `dst` (without the
NUL): at most `len` bytes of `src`, cut at a NUL, truncated to `cap - 1`. -/
def snprintf_s (cap len : Nat) (src : List Nat) : List Nat :=
  ((src.take len).takeWhile (fun c => decide (c ≠ 0))).take (cap - 1)

/-- Event kinds of the markup reader (`xr_type_t`, as used by the handlers of
`main.c`). -/
inductive xr_type_t
  | xr_type_element_start
  | xr_type_element_end
  | xr_type_attribute
  | xr_type_error
  deriving DecidableEq, Repr

/-- A counted string of the markup reader: `cstr` holds the bytes from the pointer
onward (they run on past `len`, into the rest of the line), `len` the length. -/
structure xr_str_t where
  cstr : List Nat
  len : Nat
  deriving DecidableEq, Repr

/-- The struct `client_data_t` of `main.c`; `D` stands for `double`. -/
structure client_data_t (D : Type) where
  ip : List Nat
  latitude : D
  longitude : D
  isp : List Nat

/-- The struct `server_data_t` of `main.c`; `D` stands for `double`. -/
structure server_data_t (D : Type) where
  url : List Nat
  latitude : D
  longitude : D
  name : List Nat
  country : List Nat
  distance : D

/-- The zero-initialised `server_data_t` (`= {0}`). -/
def server_data_zero (D : Type) [Zero D] : server_data_t D :=
  { url := [], latitude := 0, longitude := 0, name := [], country := [], distance := 0 }

/-- The globals and `static` locals `calculate_distance` reads and writes. -/
structure GeoState (D : Type) where
  client_data : client_data_t D
  closest_server_data : server_data_t D
  first_time : Bool
  server_data_tmp : server_data_t D

/-- State before the first call: `first_time = true`, both records zeroed. -/
def geo_init {D : Type} [Zero D] (c : client_data_t D) : GeoState D :=
  { client_data := c, closest_server_data := server_data_zero D, first_time := true,
    server_data_tmp := server_data_zero D }

/-- The function `calculate_distance` of `main.c`. The library `atof` and
`calc_dist_haversine` are parameters; a null `name` or `val` is `none`. The type
`D` stands for `double` and brings its own comparison `<`, which need not be
total: on the type `double` below it is false as soon as one side is NaN. -/
def calculate_distance {D : Type} [LT D] [DecidableRel (fun a b : D => a < b)]
    (atof : List Nat → D) (calc_dist_haversine : D → D → D → D → D)
    (type : xr_type_t) (name val : Option xr_str_t) (s : GeoState D) : GeoState D :=
  match name, val with
  | some name, some val =>
    if type ≠ xr_type_t.xr_type_attribute then s
    else if strncmp name.cstr (lit "url") name.len = 0 then
      { s with server_data_tmp :=
          { s.server_data_tmp with url := snprintf_s 512 val.len val.cstr } }
    else if strncmp name.cstr (lit "lat") name.len = 0 then
      { s with server_data_tmp := { s.server_data_tmp with latitude := atof val.cstr } }
    else if strncmp name.cstr (lit "lon") name.len = 0 then
      let tmp1 : server_data_t D := { s.server_data_tmp with longitude := atof val.cstr }
      let distance_calculated :=
        calc_dist_haversine s.client_data.latitude s.client_data.longitude
          tmp1.latitude tmp1.longitude
      let tmp : server_data_t D := { tmp1 with distance := distance_calculated }
      if s.first_time then
        { s with server_data_tmp := tmp, closest_server_data := tmp, first_time := false }
      else if s.closest_server_data.distance > tmp.distance then
        { s with server_data_tmp := tmp, closest_server_data := tmp }
      else
        { s with server_data_tmp := tmp }
    else s
  | _, _ => s

/-- One attribute event as the handler receives it. -/
structure AttrEvent where
  type : xr_type_t
  name : Option xr_str_t
  val : Option xr_str_t

/-- Feeding a stream of events to `calculate_distance`, in order. -/
def geo_feed {D : Type} [LT D] [DecidableRel (fun a b : D => a < b)] (atof : List Nat → D)
    (hav : D → D → D → D → D) (evs : List AttrEvent) (s : GeoState D) : GeoState D :=
  evs.foldl (fun st e => calculate_distance atof hav e.type e.name e.val st) s

/-- One complete server record of the list: the three attribute values, and the
bytes that follow each attribute name in the line (the name pointer runs on). -/
structure ServerRecord where
  url : xr_str_t
  lat : xr_str_t
  lon : xr_str_t
  after_url : List Nat
  after_lat : List Nat
  after_lon : List Nat

/-- The attribute events of one record: `url`, `lat`, `lon`, in that order. -/
def record_events (r : ServerRecord) : List AttrEvent :=
  [ { type := xr_type_t.xr_type_attribute,
      name := some { cstr := lit "url" ++ r.after_url, len := 3 }, val := some r.url },
    { type := xr_type_t.xr_type_attribute,
      name := some { cstr := lit "lat" ++ r.after_lat, len := 3 }, val := some r.lat },
    { type := xr_type_t.xr_type_attribute,
      name := some { cstr := lit "lon" ++ r.after_lon, len := 3 }, val := some r.lon } ]

/-- Distance of a record to the client, as `calculate_distance` computes it. -/
def record_distance {D : Type} (atof : List Nat → D) (hav : D → D → D → D → D)
    (c : client_data_t D) (r : ServerRecord) : D :=
  hav c.latitude c.longitude (atof r.lat.cstr) (atof r.lon.cstr)

/-- The `server_data_t` a record becomes once its `lon` has been handled. -/
def record_stored {D : Type} (atof : List Nat → D) (hav : D → D → D → D → D)
    (c : client_data_t D) (r : ServerRecord) : server_data_t D :=
  { url := snprintf_s 512 r.url.len r.url.cstr, latitude := atof r.lat.cstr,
    longitude := atof r.lon.cstr, name := [], country := [],
    distance := record_distance atof hav c r }

/-- Value of a run of ASCII digits, read left to right from `acc`. -/
def digits_value (acc : Nat) : List Nat → Nat
  | [] => acc
  | c :: cs => digits_value (acc * 10 + (c - 48)) cs

/-- The decimal fragment of the library `atof`, into the rationals: an optional
`-`, digits, an optional `.` and digits; conversion stops at the first other
byte. It instantiates the `atof` parameter when records are evaluated. -/
def atof_decimal (s : List Nat) : ℚ :=
  let neg := decide (s.headD 0 = 45)
  let body := if neg then s.tail else s
  let ip := body.takeWhile (fun c => decide (48 ≤ c ∧ c ≤ 57))
  let rest := body.drop ip.length
  let fp := if rest.headD 0 = 46
    then rest.tail.takeWhile (fun c => decide (48 ≤ c ∧ c ≤ 57)) else []
  let v : ℚ := (digits_value 0 ip : ℚ) + (digits_value 0 fp : ℚ) / (10 ^ fp.length : ℚ)
  if neg then -v else v

/-- A rational distance that instantiates the `calc_dist_haversine` parameter
when records are evaluated: the squared planar distance of the two points. -/
def planar_distance (lat1 lon1 lat2 lon2 : ℚ) : ℚ :=
  (lat2 - lat1) * (lat2 - lat1) + (lon2 - lon1) * (lon2 - lon1)

/-- A counted string holding exactly the text `s` followed by a closing quote. -/
def xr_of (s : String) : xr_str_t := { cstr := lit s ++ [34], len := s.length }

/-- The record `url="a" lat="40.1" lon="-75.1"`. -/
def record_a : ServerRecord :=
  { url := xr_of "a", lat := xr_of "40.1", lon := xr_of "-75.1",
    after_url := lit "=", after_lat := lit "=", after_lon := lit "=" }

/-- The record `url="b" lat="41.0" lon="-74.0"`. -/
def record_b : ServerRecord :=
  { url := xr_of "b", lat := xr_of "41.0", lon := xr_of "-74.0",
    after_url := lit "=", after_lat := lit "=", after_lon := lit "=" }

/-- The client at `(40.0, -75.0)`. -/
def client_example : client_data_t ℚ :=
  { ip := lit "203.0.113.5", latitude := 40, longitude := -75, isp := lit "ExampleNet" }

/-! ### The type `double` -/

/-- A value of the C type `double`: NaN, an infinity with its sign, or a finite
value with its sign and its magnitude, so that `+0` and `-0` are two values.
Finite magnitudes are exact rationals: the operations below follow the rules of
IEEE 754 for signs, zeros, infinities and NaN, and do not round. -/
inductive double
  | nan
  | inf (neg : Bool)
  | fin (neg : Bool) (mag : ℚ≥0)
  deriving DecidableEq

/-- The unary minus of C: it flips the sign, also of a zero and of an infinity. -/
def double.neg : double → double
  | double.nan => double.nan
  | double.inf s => double.inf (!s)
  | double.fin s m => double.fin (!s) m

/-- The sum of two `double`: NaN for a NaN operand and for infinities of opposite
signs; a sum of equal magnitudes and opposite signs is `+0`. -/
def double.add : double → double → double
  | double.nan, _ => double.nan
  | _, double.nan => double.nan
  | double.inf s1, double.inf s2 => if s1 = s2 then double.inf s1 else double.nan
  | double.inf s, double.fin _ _ => double.inf s
  | double.fin _ _, double.inf s => double.inf s
  | double.fin s1 m1, double.fin s2 m2 =>
    if s1 = s2 then double.fin s1 (m1 + m2)
    else if m1 = m2 then double.fin false 0
    else if m2 < m1 then double.fin s1 (m1 - m2)
    else double.fin s2 (m2 - m1)

/-- The difference `a - b`, which is `a + (-b)`. -/
def double.sub (a b : double) : double := double.add a (double.neg b)

/-- The product of two `double`: the sign is the exclusive or of the signs, zero
times infinity is NaN. -/
def double.mul : double → double → double
  | double.nan, _ => double.nan
  | _, double.nan => double.nan
  | double.inf s1, double.inf s2 => double.inf (xor s1 s2)
  | double.inf s1, double.fin s2 m => if m = 0 then double.nan else double.inf (xor s1 s2)
  | double.fin s1 m, double.inf s2 => if m = 0 then double.nan else double.inf (xor s1 s2)
  | double.fin s1 m1, double.fin s2 m2 => double.fin (xor s1 s2) (m1 * m2)

/-- The quotient of two `double`: the sign is the exclusive or of the signs; zero
by zero and infinity by infinity are NaN, another value by zero is infinite. -/
def double.div : double → double → double
  | double.nan, _ => double.nan
  | _, double.nan => double.nan
  | double.inf _, double.inf _ => double.nan
  | double.inf s1, double.fin s2 _ => double.inf (xor s1 s2)
  | double.fin s1 _, double.inf s2 => double.fin (xor s1 s2) 0
  | double.fin s1 m1, double.fin s2 m2 =>
    if m2 = 0 then (if m1 = 0 then double.nan else double.inf (xor s1 s2))
    else double.fin (xor s1 s2) (m1 / m2)

/-- The rational a finite `double` stands for; both zeros stand for `0`. -/
def double.value (s : Bool) (m : ℚ≥0) : ℚ := if s then -(m : ℚ) else m

/-- The C comparison `a < b`: false as soon as one side is NaN. -/
def double.lt : double → double → Bool
  | double.nan, _ => false
  | _, double.nan => false
  | double.inf s1, double.inf s2 => s1 && !s2
  | double.inf s, double.fin _ _ => s
  | double.fin _ _, double.inf s => !s
  | double.fin s1 m1, double.fin s2 m2 => decide (double.value s1 m1 < double.value s2 m2)

/-- The C comparison `a <= b`: false as soon as one side is NaN. -/
def double.le : double → double → Bool
  | double.nan, _ => false
  | _, double.nan => false
  | double.inf s1, double.inf s2 => s1 || !s2
  | double.inf s, double.fin _ _ => s
  | double.fin _ _, double.inf s => !s
  | double.fin s1 m1, double.fin s2 m2 => decide (double.value s1 m1 ≤ double.value s2 m2)

/-- The C comparison `a == b`: false as soon as one side is NaN, true on the two
zeros. -/
def double.equal : double → double → Bool
  | double.nan, _ => false
  | _, double.nan => false
  | double.inf s1, double.inf s2 => s1 == s2
  | double.inf _, double.fin _ _ => false
  | double.fin _ _, double.inf _ => false
  | double.fin s1 m1, double.fin s2 m2 => decide (double.value s1 m1 = double.value s2 m2)

/-- The `double` nearest to a rational, which here is the rational itself. -/
def double.ofRat (q : ℚ) : double := double.fin (decide (q < 0)) q.nnabs

instance : Neg double := ⟨double.neg⟩

instance : Add double := ⟨double.add⟩

instance : Sub double := ⟨double.sub⟩

instance : Mul double := ⟨double.mul⟩

instance : Div double := ⟨double.div⟩

instance : NatCast double := ⟨fun n => double.fin false n⟩

instance : Zero double := ⟨double.fin false 0⟩

instance : LT double := ⟨fun a b => double.lt a b = true⟩

instance : LE double := ⟨fun a b => double.le a b = true⟩

instance : DecidableRel (fun a b : double => a < b) :=
  fun a b => inferInstanceAs (Decidable (double.lt a b = true))

instance : DecidableRel (fun a b : double => a ≤ b) :=
  fun a b => inferInstanceAs (Decidable (double.le a b = true))

/-- The fragment of the library `atof` that covers NaN, the infinities and
decimals: after an optional `-`, the letters `nan` in either case give NaN and
the letters `inf` an infinity; otherwise the result is the decimal
`atof_decimal` reads, with the sign the text shows. -/
def atof_double (s : List Nat) : double :=
  let neg := decide (s.headD 0 = 45)
  let body := if neg then s.tail else s
  let word := (body.take 3).map (fun c => if 65 ≤ c ∧ c ≤ 90 then c + 32 else c)
  if word = lit "nan" then double.nan
  else if word = lit "inf" then double.inf neg
  else double.fin neg (atof_decimal s).nnabs

/-- The stand-in distance `planar_distance` in the arithmetic of `double`: it is
NaN as soon as a coordinate is NaN, as `calc_dist_haversine` is. -/
def planar_distance_double (lat1 lon1 lat2 lon2 : double) : double :=
  (lat2 - lat1) * (lat2 - lat1) + (lon2 - lon1) * (lon2 - lon1)

/-- The client at `(40.0, -75.0)`, in `double`. -/
def client_example_double : client_data_t double :=
  { ip := lit "203.0.113.5", latitude := double.fin false 40, longitude := double.fin true 75,
    isp := lit "ExampleNet" }

/-- The record `url="n" lat="nan" lon="0"`. -/
def record_nan : ServerRecord :=
  { url := xr_of "n", lat := xr_of "nan", lon := xr_of "0",
    after_url := lit "=", after_lat := lit "=", after_lon := lit "=" }

/-! ### Line feeder (`process_downloaded_servers_file`, `process_downloaded_config_file`) -/

/-- The size of `scratch_buf`: `CONFIG_DOWNLOAD_CLIENT_BUF_SIZE` of `upload_client.h`. -/
def CONFIG_DOWNLOAD_CLIENT_BUF_SIZE : Nat := 2048

/-- The size of `line_buf`: `sizeof(line_buf)`. -/
def LINE_BUF_SIZE : Nat := 512

/-- Ways a run leaves defined C behaviour, and the exhaustion of a loop budget. -/
inductive Fault
  | read_past_scratch_buf
  | write_past_line_buf
  | out_of_fuel
  deriving DecidableEq, Repr

/-- Outcome of a run: a fault or a value. -/
inductive Run (α : Type)
  | fault : Fault → Run α
  | done : α → Run α
  deriving DecidableEq, Repr

/-- Sequencing of runs: the first fault ends the run. -/
def Run.andThen {α β : Type} (r : Run α) (f : α → Run β) : Run β :=
  match r with
  | Run.fault e => Run.fault e
  | Run.done a => f a

/-- State of the line feeder. `scratch_buf` is the whole source buffer (stale
bytes included), `p` is `p - scratch_buf`, `line` is `line_buf[0 .. lp)` (so
`lp - line_buf = line.length`), and `parsed` lists the contents of `line_buf`,
through the NUL, at each call of `xr_read`. -/
structure Feeder where
  scratch_buf : List Nat
  p : Nat
  line : List Nat
  parsed : List (List Nat)
  deriving DecidableEq, Repr

/-- Reading `*p`. -/
def Feeder.peek (s : Feeder) : Run Nat :=
  if s.p < CONFIG_DOWNLOAD_CLIENT_BUF_SIZE then Run.done (s.scratch_buf.getD s.p 0)
  else Run.fault Fault.read_past_scratch_buf

/-- The statement `*lp++ = *p++;` for the byte `c` read at `p`. -/
def Feeder.copy_byte (s : Feeder) (c : Nat) : Run Feeder :=
  if s.line.length < LINE_BUF_SIZE then
    Run.done { s with line := s.line ++ [c], p := s.p + 1 }
  else Run.fault Fault.write_past_line_buf

/-- The body of `if (*p == '\n')`: terminate the line with a line feed and a NUL,
reset `lp`, step over the line feed, hand `line_buf` to `xr_read`. -/
def Feeder.dispatch (s : Feeder) : Run Feeder :=
  if s.line.length + 1 < LINE_BUF_SIZE then
    Run.done { s with line := [], p := s.p + 1, parsed := s.parsed ++ [s.line ++ [10, 0]] }
  else Run.fault Fault.write_past_line_buf

/-- The copy loop
`while ((*p != '\n') && (i < (sizeof(line_buf) - 2)) && (p < endp))`, with its
tests in source order; returns the final `i`. -/
def copy_loop (endp : Nat) : Nat → Nat → Feeder → Run (Nat × Feeder)
  | 0, _, _ => Run.fault Fault.out_of_fuel
  | fuel + 1, i, s =>
    s.peek.andThen fun c =>
      if c ≠ 10 ∧ i < LINE_BUF_SIZE - 2 ∧ s.p < endp then
        (s.copy_byte c).andThen fun s1 => copy_loop endp fuel (i + 1) s1
      else Run.done (i, s)

/-- The skip loop `while ((p < endp) && (*p++ != '\n'));`. -/
def skip_loop (endp : Nat) : Nat → Feeder → Run Feeder
  | 0, _ => Run.fault Fault.out_of_fuel
  | fuel + 1, s =>
    if s.p < endp then
      s.peek.andThen fun c =>
        if c ≠ 10 then skip_loop endp fuel { s with p := s.p + 1 }
        else Run.done { s with p := s.p + 1 }
    else Run.done s

/-- The loop `while(p < endp)` shared by both line feeders. Leaving through
`if (p == endp)` resets `p` to the start of `scratch_buf`. -/
def feed_loop (endp : Nat) : Nat → Feeder → Run Feeder
  | 0, _ => Run.fault Fault.out_of_fuel
  | fuel + 1, s =>
    if s.p < endp then
      (copy_loop endp (LINE_BUF_SIZE - 1) 0 s).andThen fun (i, s1) =>
      s1.peek.andThen fun c =>
      (if c = 10 then s1.dispatch else Run.done s1).andThen fun s2 =>
      (if i = LINE_BUF_SIZE - 2 then
          (skip_loop endp (endp + 1) s2).andThen fun s3 => Run.done { s3 with line := [] }
        else Run.done s2).andThen fun s3 =>
      if s3.p = endp then Run.done { s3 with p := 0 }
      else feed_loop endp fuel s3
    else Run.done s

/-- The loop `while((rc = fs_read(...)) > 0)`: each element of `reads` is what one
`fs_read` stores at the start of `scratch_buf`; an empty read or the end of the
list is `rc = 0`. -/
def read_loop : List (List Nat) → Feeder → Run Feeder
  | [], s => Run.done s
  | chunk :: rest, s =>
    if chunk.length = 0 then Run.done s
    else
      (feed_loop chunk.length (chunk.length + 1)
        { s with scratch_buf := chunk ++ s.scratch_buf.drop chunk.length }).andThen
        fun s1 => read_loop rest s1

/-- The function `process_downloaded_servers_file`: `server_file` is `none` for a
null pointer and otherwise holds the result of `fs_seek` and the successive
reads; `scratch0` is the content of `scratch_buf` on entry. Returns the C return
value and the final feeder state. -/
def process_downloaded_servers_file (server_file : Option (Int × List (List Nat)))
    (scratch0 : List Nat) : Run (Int × Feeder) :=
  let s0 : Feeder := { scratch_buf := scratch0, p := 0, line := [], parsed := [] }
  match server_file with
  | none => Run.done (-1, s0)
  | some (seek_rc, reads) =>
    if seek_rc < 0 then Run.done (-1, s0)
    else (read_loop reads s0).andThen fun s => Run.done (1, s)

/-- The function `process_downloaded_config_file`: one pass over the whole of
`scratch_buf`. -/
def process_downloaded_config_file (scratch0 : List Nat) : Run (Int × Feeder) :=
  (feed_loop CONFIG_DOWNLOAD_CLIENT_BUF_SIZE (CONFIG_DOWNLOAD_CLIENT_BUF_SIZE + 1)
    { scratch_buf := scratch0, p := 0, line := [], parsed := [] }).andThen
    fun s => Run.done (1, s)

/-- The lines handed to the parser by a run, if it ran to its end. -/
def parsed_lines (r : Run (Int × Feeder)) : Option (List (List Nat)) :=
  match r with
  | Run.fault _ => none
  | Run.done (_, s) => some s.parsed

/-- A zero-filled `scratch_buf`, as the static initialiser leaves it. -/
def scratch_zero : List Nat := List.replicate CONFIG_DOWNLOAD_CLIENT_BUF_SIZE 0

/-! ### Multipart framing of `upload_client.c` -/

/-- The macro `POST_HTTPS_TEMPLATE_MIDAMBLE`. -/
def POST_HTTPS_TEMPLATE_MIDAMBLE : String :=
  "------------------------76a17771c6949e06\r\n" ++
  "Content-Disposition: form-data; name=\"filename\"; filename=\"test5.dat\"\r\n" ++
  "Content-Type: application/octet-stream\r\n\r\n"

/-- The macro `POST_HTTPS_TEMPLATE_POSTAMBLE`. -/
def POST_HTTPS_TEMPLATE_POSTAMBLE : String :=
  "--------------------------76a17771c6949e06--\r\n"

/-- The argument `(client->file_size+208)` of the preamble as `%d` prints it:
the sum is formed in the 32-bit `size_t` and read as a 32-bit `int`. -/
def content_length_arg (file_size : Nat) : Int :=
  let v : Nat := (file_size + 208) % 2 ^ 32
  if v < 2 ^ 31 then (v : Int) else (v : Int) - 2 ^ 32

/-- The macro `POST_HTTPS_TEMPLATE_PREAMBLE` with its three arguments filled in
(`file`, `host`, and the content length). -/
def POST_HTTPS_TEMPLATE_PREAMBLE (file host : String) (content_length : Int) : String :=
  "POST /" ++ file ++ " HTTP/1.1\r\n" ++
  "Host: " ++ host ++ "\r\n" ++
  "User-Agent: nRF91/0.1\r\n" ++
  "Accept: */*\r\n" ++
  "Content-Length: " ++ toString content_length ++ "\r\n" ++
  "Content-Type: multipart/form-data; " ++
  "boundary=------------------------76a17771c6949e06\r\n\r\n"

/-- Bytes that follow the preamble on the wire when the body has `body` bytes:
the midamble, the body, the postamble. -/
def bytes_after_preamble (body : Nat) : Nat :=
  (lit POST_HTTPS_TEMPLATE_MIDAMBLE).length + body + (lit POST_HTTPS_TEMPLATE_POSTAMBLE).length

/-! ### Transfer callbacks of `main.c` -/

/-- The macro `UPLOAD_AND_DOWNLOAD_SIZE`: `(50 * 1024)`. -/
def UPLOAD_AND_DOWNLOAD_SIZE : Nat := 50 * 1024

/-- The macro `UPLOAD_FILE_SIZE`. -/
def UPLOAD_FILE_SIZE : Nat := UPLOAD_AND_DOWNLOAD_SIZE

/-- The macro `DOWNLOAD_LIMIT`. -/
def DOWNLOAD_LIMIT : Nat := UPLOAD_AND_DOWNLOAD_SIZE

/-- The width of `size_t` on the target: `2 ^ 32` values. -/
def SIZE_MAX_PLUS_ONE : Nat := 2 ^ 32

/-- A download client event as `callback_for_speed_test` reads it: the event id
with the fragment length or the error code. -/
inductive download_client_evt
  | DOWNLOAD_CLIENT_EVT_FRAGMENT (len : Nat)
  | DOWNLOAD_CLIENT_EVT_DONE
  | DOWNLOAD_CLIENT_EVT_ERROR (error : Int)
  deriving DecidableEq, Repr

/-- The statics of `callback_for_speed_test` and the globals it writes:
`reported` lists the byte totals it printed with a speed, `sem_given` counts
`k_sem_give(&main_sem)`. -/
structure SpeedTest where
  downloaded : Nat
  file_size : Nat
  file_downloaded : Bool
  reported : List Nat
  sem_given : Nat
  deriving DecidableEq, Repr

/-- State with a zero byte counter. -/
def speed_test_init : SpeedTest :=
  { downloaded := 0, file_size := 0, file_downloaded := false, reported := [], sem_given := 0 }

/-- The function `callback_for_speed_test`; `declared` is the size
`download_client_file_size_get` reports. `STARTING_OFFSET` is `0`. -/
def callback_for_speed_test (declared : Nat) (event : download_client_evt) (s : SpeedTest) :
    Int × SpeedTest :=
  let s0 : SpeedTest :=
    if s.downloaded = 0 then
      { s with file_size := declared, downloaded := (s.downloaded + 0) % SIZE_MAX_PLUS_ONE }
    else s
  match event with
  | download_client_evt.DOWNLOAD_CLIENT_EVT_FRAGMENT len =>
    let s1 : SpeedTest := { s0 with downloaded := (s0.downloaded + len) % SIZE_MAX_PLUS_ONE }
    if s1.downloaded > DOWNLOAD_LIMIT then
      (1, { s1 with reported := s1.reported ++ [s1.downloaded], file_downloaded := true,
                    sem_given := s1.sem_given + 1 })
    else (0, s1)
  | download_client_evt.DOWNLOAD_CLIENT_EVT_DONE =>
    (0, { s0 with file_downloaded := true, sem_given := s0.sem_given + 1 })
  | download_client_evt.DOWNLOAD_CLIENT_EVT_ERROR _ =>
    (-1, { s0 with downloaded := 0, file_downloaded := false, sem_given := s0.sem_given + 1 })

/-- Delivering fragments of the given lengths one after the other: the return
values of the callback, and the state after the last one. -/
def speed_test_fragments (declared : Nat) : List Nat → SpeedTest → List Int × SpeedTest
  | [], s => ([], s)
  | len :: rest, s =>
    let r := callback_for_speed_test declared
      (download_client_evt.DOWNLOAD_CLIENT_EVT_FRAGMENT len) s
    let rs := speed_test_fragments declared rest r.2
    (r.1 :: rs.1, rs.2)

/-! ### Upload client (`upload_client.c`, `upload_client.h`) -/

/-- Error numbers of the C library of the target, as positive values. -/
def ENOMEM : Int := 12

/-- See `ENOMEM`. -/
def EINVAL : Int := 22

/-- See `ENOMEM`. -/
def EAFNOSUPPORT : Int := 106

/-- See `ENOMEM`. -/
def ENETUNREACH : Int := 114

/-- See `ENOMEM`. -/
def EPROTONOSUPPORT : Int := 123

/-- See `ENOMEM`. -/
def ENOTCONN : Int := 128

/-- The macro `HOSTNAME_SIZE` (`CONFIG_DOWNLOAD_CLIENT_MAX_HOSTNAME_SIZE`). -/
def HOSTNAME_SIZE : Nat := 64

/-- The macro `FILENAME_SIZE` (`CONFIG_DOWNLOAD_CLIENT_MAX_FILENAME_SIZE`). -/
def FILENAME_SIZE : Nat := 192

/-- The values `dl->proto` takes. -/
inductive Proto
  | IPPROTO_TCP
  | IPPROTO_UDP
  | IPPROTO_TLS_1_2
  | IPPROTO_DTLS_1_2
  deriving DecidableEq, Repr

/-- The socket types `url_parse_proto` reports. -/
inductive SockType
  | SOCK_STREAM
  | SOCK_DGRAM
  deriving DecidableEq, Repr

/-- The address family `host_lookup` leaves in `sa->sa_family`. -/
inductive Family
  | AF_INET
  | AF_INET6
  | AF_UNSPEC
  deriving DecidableEq, Repr

/-- The enum `upload_client_evt_id`. -/
inductive upload_client_evt_id
  | UPLOAD_CLIENT_EVT_FRAGMENT
  | UPLOAD_CLIENT_EVT_ERROR
  | UPLOAD_CLIENT_EVT_DONE
  deriving DecidableEq, Repr

/-- The struct `upload_client_evt`: `fragment` holds the `fragment.len` bytes at
`fragment.buf` (empty for `buf = 0`, `len = 0`). -/
structure upload_client_evt where
  id : upload_client_evt_id
  error : Int
  fragment : List Nat
  deriving DecidableEq, Repr

/-- The struct `upload_client_cfg`; a null `apn` is `none`. -/
structure upload_client_cfg where
  apn : Option String
  frag_size_override : Nat
  sec_tag_array_sz : Int
  sec_tag_array : List Int
  deriving DecidableEq, Repr

/-- The fields of the struct `upload_client` the code below reads or writes.
The staging buffer `buf` is not a field here: what `snprintf` leaves in it is
computed where it is sent. -/
structure upload_client where
  fd : Int
  offset : Nat
  file_size : Nat
  progress : Nat
  host : String
  file : String
  proto : Proto
  has_header : Bool
  config : upload_client_cfg
  deriving DecidableEq, Repr

/-- The application callback (`upload_client_callback_t`) over an application
state: it returns its `int`, the event as it left it, and the new state. -/
abbrev upload_client_callback_t (σ : Type) :=
  σ → upload_client_evt → Int × upload_client_evt × σ

/-- The socket and the callback as the engine drives them: `wire` holds the bytes
accepted by `send` so far, `events` the events handed to the callback, each
with the number of bytes on the wire at that moment. -/
structure UploadWorld (σ : Type) where
  app : σ
  wire : List Nat
  events : List (upload_client_evt × Nat)

/-- The loop of `socket_send`. The library `send` is the parameter `send`: given
the number of bytes on the wire and the length offered, it returns the count
accepted (at most the length offered is taken) or a value `≤ 0` on failure;
`errno` is the error number it leaves. Returns the C return value and the wire. -/
def socket_send_loop (send : Nat → Nat → Int) (errno : Int) :
    Nat → List Nat → List Nat → Run (Int × List Nat)
  | _, [], wire => Run.done (0, wire)
  | 0, _ :: _, _ => Run.fault Fault.out_of_fuel
  | fuel + 1, b :: bs, wire =>
    let sent := send wire.length (b :: bs).length
    if sent ≤ 0 then Run.done (-errno, wire)
    else socket_send_loop send errno fuel ((b :: bs).drop sent.toNat)
      (wire ++ (b :: bs).take sent.toNat)

/-- The function `socket_send` on the `len` bytes `data` at `buf`. -/
def socket_send (send : Nat → Nat → Int) (errno : Int) (data wire : List Nat) :
    Run (Int × List Nat) :=
  socket_send_loop send errno data.length data wire

/-- What `snprintf(client->buf, CONFIG_DOWNLOAD_CLIENT_BUF_SIZE, text)` leaves at
the start of the buffer: the text cut to the capacity less one, and a NUL. -/
def snprintf_buf (text : String) : List Nat :=
  (lit text).take (CONFIG_DOWNLOAD_CLIENT_BUF_SIZE - 1) ++ [0]

/-- The function `http_post_request_send`. The URL helpers `url_parse_host` and
`url_parse_file` are parameters (an error code, or the text written to the
buffer of the given size). Both branches of the test on `client->proto` format
the same preamble. -/
def http_post_request_send (url_parse_host url_parse_file : String → Nat → Except Int String)
    (send : Nat → Nat → Int) (errno : Int) (client : upload_client) (wire : List Nat) :
    Run (Int × List Nat) :=
  match url_parse_host client.host HOSTNAME_SIZE with
  | Except.error err => Run.done (err, wire)
  | Except.ok host =>
    match url_parse_file client.file FILENAME_SIZE with
    | Except.error err => Run.done (err, wire)
    | Except.ok file =>
      let text := POST_HTTPS_TEMPLATE_PREAMBLE file host (content_length_arg client.file_size)
      let len := text.length
      if len > CONFIG_DOWNLOAD_CLIENT_BUF_SIZE then Run.done (-ENOMEM, wire)
      else
        (socket_send send errno ((snprintf_buf text).take len) wire).andThen fun r =>
        if r.1 ≠ 0 then Run.done (r.1, r.2)
        else
          let len2 := POST_HTTPS_TEMPLATE_MIDAMBLE.length
          if len2 > CONFIG_DOWNLOAD_CLIENT_BUF_SIZE then Run.done (-ENOMEM, r.2)
          else
            (socket_send send errno ((snprintf_buf POST_HTTPS_TEMPLATE_MIDAMBLE).take len2)
              r.2).andThen fun r2 =>
            if r2.1 ≠ 0 then Run.done (r2.1, r2.2) else Run.done (0, r2.2)

/-- The function `request_send`. -/
def request_send (url_parse_host url_parse_file : String → Nat → Except Int String)
    (send : Nat → Nat → Int) (errno : Int) (dl : upload_client) (wire : List Nat) :
    Run (Int × List Nat) :=
  match dl.proto with
  | Proto.IPPROTO_TCP => http_post_request_send url_parse_host url_parse_file send errno dl wire
  | Proto.IPPROTO_TLS_1_2 =>
    http_post_request_send url_parse_host url_parse_file send errno dl wire
  | Proto.IPPROTO_UDP => Run.done (0, wire)
  | Proto.IPPROTO_DTLS_1_2 => Run.done (0, wire)

/-- Outcome of `upload_client_start`: the return value, the client, the wire, and
whether `k_thread_resume` was called. -/
structure StartResult where
  ret : Int
  client : Option upload_client
  wire : List Nat
  resumed : Bool

/-- The function `upload_client_start`; a null `client` is `none`. -/
def upload_client_start (url_parse_host url_parse_file : String → Nat → Except Int String)
    (send : Nat → Nat → Int) (errno : Int) (client : Option upload_client) (file : String)
    (from_ file_size : Nat) (wire : List Nat) : Run StartResult :=
  match client with
  | none => Run.done { ret := -EINVAL, client := none, wire := wire, resumed := false }
  | some c =>
    if c.fd < 0 then
      Run.done { ret := -ENOTCONN, client := some c, wire := wire, resumed := false }
    else
      let c1 : upload_client :=
        { c with file := file, file_size := file_size, progress := from_, offset := 0,
                 has_header := false }
      (request_send url_parse_host url_parse_file send errno c1 wire).andThen fun r =>
      if r.1 ≠ 0 then
        Run.done { ret := r.1, client := some c1, wire := r.2, resumed := false }
      else Run.done { ret := 0, client := some c1, wire := r.2, resumed := true }

/-- The event `fragment_evt_send` hands to the callback: a fragment request with
`buf = 0` and `len = 0`. -/
def fragment_request : upload_client_evt :=
  { id := upload_client_evt_id.UPLOAD_CLIENT_EVT_FRAGMENT, error := 0, fragment := [] }

/-- The local `evt_done` of `upload_thread`. -/
def evt_done : upload_client_evt :=
  { id := upload_client_evt_id.UPLOAD_CLIENT_EVT_DONE, error := 0, fragment := [] }

/-- The local `evt_err` of `upload_thread`. -/
def evt_err : upload_client_evt :=
  { id := upload_client_evt_id.UPLOAD_CLIENT_EVT_ERROR, error := 0, fragment := [] }

/-- Calling `ul->callback(&evt)` with its return value dropped. -/
def UploadWorld.notify {σ : Type} (callback : upload_client_callback_t σ)
    (w : UploadWorld σ) (evt : upload_client_evt) : UploadWorld σ :=
  { w with app := (callback w.app evt).2.2, events := w.events ++ [(evt, w.wire.length)] }

/-- One activation of `upload_thread`, from the return of `k_thread_suspend` to
the next `goto restart_and_suspend`: the fragment loop, then the postamble and
the final event. `fuel` bounds the number of fragment requests. -/
def upload_thread {σ : Type} (callback : upload_client_callback_t σ)
    (send : Nat → Nat → Int) (errno : Int) : Nat → UploadWorld σ → Run (UploadWorld σ)
  | 0, _ => Run.fault Fault.out_of_fuel
  | fuel + 1, w =>
    let r := callback w.app fragment_request
    let w1 : UploadWorld σ :=
      { w with app := r.2.2, events := w.events ++ [(fragment_request, w.wire.length)] }
    if r.1 = 0 then
      (socket_send send errno r.2.1.fragment w1.wire).andThen fun rc =>
      if rc.1 ≠ 0 then Run.done { w1 with wire := rc.2 }
      else upload_thread callback send errno fuel { w1 with wire := rc.2 }
    else
      let len := POST_HTTPS_TEMPLATE_POSTAMBLE.length
      if len > CONFIG_DOWNLOAD_CLIENT_BUF_SIZE then Run.done (w1.notify callback evt_err)
      else
        (socket_send send errno ((snprintf_buf POST_HTTPS_TEMPLATE_POSTAMBLE).take len)
          w1.wire).andThen fun rc =>
        if rc.1 ≠ 0 then
          Run.done (({ w1 with wire := rc.2 } : UploadWorld σ).notify callback evt_err)
        else Run.done (({ w1 with wire := rc.2 } : UploadWorld σ).notify callback evt_done)

/-- An upload: `upload_client_start` on a fresh wire, then, if it resumed the
thread, one activation of `upload_thread`. -/
def upload_run {σ : Type} (url_parse_host url_parse_file : String → Nat → Except Int String)
    (send : Nat → Nat → Int) (errno : Int) (callback : upload_client_callback_t σ)
    (client : upload_client) (file : String) (from_ file_size : Nat) (app : σ) (fuel : Nat) :
    Run (Int × UploadWorld σ) :=
  (upload_client_start url_parse_host url_parse_file send errno (some client) file from_
      file_size []).andThen fun r =>
    if r.resumed then
      (upload_thread callback send errno fuel
        { app := app, wire := r.wire, events := [] }).andThen fun w => Run.done (r.ret, w)
    else Run.done (r.ret, { app := app, wire := r.wire, events := [] })

/-- The answers of a callback to `n` successive fragment requests: each return
value with the fragment supplied. -/
def fragment_answers {σ : Type} (callback : upload_client_callback_t σ) :
    Nat → σ → List (Int × List Nat)
  | 0, _ => []
  | n + 1, app =>
    ((callback app fragment_request).1, (callback app fragment_request).2.1.fragment) ::
      fragment_answers callback n (callback app fragment_request).2.2

/-- The statics of `callback_upload`, the content of `scratch_buf` it hands out,
and what it prints and signals: `reported` lists the byte totals printed on
`Done`, `sem_given` counts `k_sem_give(&main_sem)`. -/
structure UploadApp where
  uploaded : Nat
  count : Nat
  scratch_buf : List Nat
  reported : List Nat
  sem_given : Nat
  deriving DecidableEq, Repr

/-- The function `callback_upload` of `main.c`. -/
def callback_upload : upload_client_callback_t UploadApp := fun s event =>
  let file_size := UPLOAD_FILE_SIZE
  match event.id with
  | upload_client_evt_id.UPLOAD_CLIENT_EVT_FRAGMENT =>
    if s.uploaded < file_size then
      let event1 : upload_client_evt := { event with fragment := s.scratch_buf.take 1024 }
      (0, event1, { s with uploaded := (s.uploaded + 1024) % SIZE_MAX_PLUS_ONE,
                           count := (s.count + 1) % SIZE_MAX_PLUS_ONE })
    else (1, event, { s with count := 0 })
  | upload_client_evt_id.UPLOAD_CLIENT_EVT_DONE =>
    (0, event, { s with reported := s.reported ++ [s.uploaded], sem_given := s.sem_given + 1,
                        uploaded := 0 })
  | upload_client_evt_id.UPLOAD_CLIENT_EVT_ERROR =>
    (-1, event, { s with uploaded := 0 })

/-- The state `callback_upload` starts from in `main`: zero counters, and
`scratch_buf` filled with `0x5A`. -/
def upload_app_init : UploadApp :=
  { uploaded := 0, count := 0,
    scratch_buf := List.replicate CONFIG_DOWNLOAD_CLIENT_BUF_SIZE 0x5A,
    reported := [], sem_given := 0 }

/-- The application state after `n` successive fragment requests. -/
def app_after_requests {σ : Type} (callback : upload_client_callback_t σ) : Nat → σ → σ
  | 0, app => app
  | n + 1, app => app_after_requests callback n (callback app fragment_request).2.2

/-- A callback over a counter that supplies the one-byte fragments `A`, `B` and
then answers non-zero. -/
def two_fragment_callback : upload_client_callback_t Nat := fun n event =>
  match event.id with
  | upload_client_evt_id.UPLOAD_CLIENT_EVT_FRAGMENT =>
    if n < 2 then (0, { event with fragment := [65 + n] }, n + 1) else (1, event, n)
  | _ => (0, event, n)

/-- A connected client over plain TCP, as `upload_client_connect` leaves it for
the upload URL of `main`. -/
def client_connected : upload_client :=
  { fd := 3, offset := 0, file_size := 0, progress := 0,
    host := "http://speedtest.ccvn.com/speedtest/upload.php", file := "",
    proto := Proto.IPPROTO_TCP, has_header := false,
    config := { apn := none, frag_size_override := 0, sec_tag_array_sz := 0,
                sec_tag_array := [0, 0] } }

/-- A stand-in for `url_parse_host` on the upload URL of `main`. -/
def url_parse_host_example : String → Nat → Except Int String :=
  fun _ _ => Except.ok "speedtest.ccvn.com"

/-- A stand-in for `url_parse_file` on the upload URL of `main`. -/
def url_parse_file_example : String → Nat → Except Int String :=
  fun _ _ => Except.ok "speedtest/upload.php"

/-- A `send` that accepts every byte offered. -/
def send_everything : Nat → Nat → Int := fun _ len => (len : Int)

/-! ### Connection set-up (`client_connect`) -/

/-- The socket options the client sets. -/
inductive SockOpt
  | SO_RCVTIMEO
  | SO_BINDTODEVICE
  | TLS_PEER_VERIFY
  | TLS_SEC_TAG_LIST
  deriving DecidableEq, Repr

/-- The calls made to the socket layer, in order. -/
inductive SockOp
  | socket (family : Family) (type : SockType) (proto : Proto) (fd : Int)
  | setsockopt (fd : Int) (opt : SockOpt)
  | connect (fd : Int) (port : Nat)
  | close (fd : Int)
  deriving DecidableEq, Repr

/-- What `client_connect` takes from outside `upload_client.c`: the URL helpers
`url_parse_proto` and `url_parse_port` (`none` is their error return), the
build option `CONFIG_COAP`, the constant `IFNAMSIZ`, and the results of the
socket calls with the `errno` they leave. -/
structure SocketEnv where
  url_parse_proto : String → Option (Proto × SockType)
  url_parse_port : String → Option Nat
  CONFIG_COAP : Bool
  IFNAMSIZ : Nat
  socket : Family → SockType → Proto → Int
  setsockopt : SockOpt → Int
  connect : Int
  errno : Int

/-- The test `dl->config.sec_tag_array != NULL` (`USE_SEC_TAG_ARRAY` is defined
in `upload_client.h`). The member is declared `int sec_tag_array[]`, an array
inside the struct: the expression is the address of a member of `*dl` and is
never null, whatever `sec_tag_array_sz` holds. -/
def sec_tag_array_not_null (_config : upload_client_cfg) : Bool := true

/-- The function `socket_sectag_set`: its return value and its socket calls. -/
def socket_sectag_set (env : SocketEnv) (fd : Int) : Int × List SockOp :=
  if env.setsockopt SockOpt.TLS_PEER_VERIFY ≠ 0 then
    (-env.errno, [SockOp.setsockopt fd SockOpt.TLS_PEER_VERIFY])
  else if env.setsockopt SockOpt.TLS_SEC_TAG_LIST ≠ 0 then
    (-env.errno, [SockOp.setsockopt fd SockOpt.TLS_PEER_VERIFY,
      SockOp.setsockopt fd SockOpt.TLS_SEC_TAG_LIST])
  else
    (0, [SockOp.setsockopt fd SockOpt.TLS_PEER_VERIFY,
      SockOp.setsockopt fd SockOpt.TLS_SEC_TAG_LIST])

/-- The function `socket_apn_set`: its return value and its socket calls. -/
def socket_apn_set (env : SocketEnv) (fd : Int) (apn : String) : Int × List SockOp :=
  if apn.length ≥ env.IFNAMSIZ then (-EINVAL, [])
  else if env.setsockopt SockOpt.SO_BINDTODEVICE ≠ 0 then
    (-ENETUNREACH, [SockOp.setsockopt fd SockOpt.SO_BINDTODEVICE])
  else (0, [SockOp.setsockopt fd SockOpt.SO_BINDTODEVICE])

/-- The default port of the `switch (dl->proto)` in `client_connect`. -/
def default_port (proto : Proto) : Nat :=
  match proto with
  | Proto.IPPROTO_TLS_1_2 => 443
  | Proto.IPPROTO_TCP => 80
  | Proto.IPPROTO_DTLS_1_2 => 5684
  | Proto.IPPROTO_UDP => 5683

/-- Outcome of `client_connect`: the return value, `*fd`, `dl->proto`, and the
socket calls made. -/
structure ConnectResult where
  err : Int
  fd : Int
  proto : Proto
  ops : List SockOp
  deriving DecidableEq, Repr

/-- The function `client_connect`; `family` is `sa->sa_family`, and `*fd` is
`dl.fd` on entry. -/
def client_connect (env : SocketEnv) (dl : upload_client) (host : String) (family : Family) :
    ConnectResult :=
  let pt : Proto × SockType :=
    match env.url_parse_proto host with
    | some pt => pt
    | none =>
      (if sec_tag_array_not_null dl.config then Proto.IPPROTO_TLS_1_2 else Proto.IPPROTO_TCP,
        SockType.SOCK_STREAM)
  let proto := pt.1
  let type := pt.2
  if (proto = Proto.IPPROTO_UDP ∨ proto = Proto.IPPROTO_DTLS_1_2) ∧ env.CONFIG_COAP = false then
    { err := -EPROTONOSUPPORT, fd := dl.fd, proto := proto, ops := [] }
  else if (proto = Proto.IPPROTO_TLS_1_2 ∨ proto = Proto.IPPROTO_DTLS_1_2) ∧
      sec_tag_array_not_null dl.config = false then
    { err := -EINVAL, fd := dl.fd, proto := proto, ops := [] }
  else
    let port : Nat :=
      match env.url_parse_port host with
      | some port => port
      | none => default_port proto
    if family = Family.AF_UNSPEC then
      { err := -EAFNOSUPPORT, fd := dl.fd, proto := proto, ops := [] }
    else
      let fd := env.socket family type proto
      let ops0 := [SockOp.socket family type proto fd]
      if fd < 0 then { err := -env.errno, fd := fd, proto := proto, ops := ops0 }
      else
        let r1 : Int × List SockOp :=
          match dl.config.apn with
          | some apn => if apn.length ≠ 0 then socket_apn_set env fd apn else (0, [])
          | none => (0, [])
        if r1.1 ≠ 0 then
          { err := r1.1, fd := -1, proto := proto, ops := ops0 ++ r1.2 ++ [SockOp.close fd] }
        else
          let r2 : Int × List SockOp :=
            if (proto = Proto.IPPROTO_TLS_1_2 ∨ proto = Proto.IPPROTO_DTLS_1_2) ∧
                sec_tag_array_not_null dl.config = true then
              socket_sectag_set env fd
            else (0, [])
          if r2.1 ≠ 0 then
            { err := r2.1, fd := -1, proto := proto,
              ops := ops0 ++ r1.2 ++ r2.2 ++ [SockOp.close fd] }
          else
            let err : Int := if env.connect ≠ 0 then -env.errno else 0
            let ops := ops0 ++ r1.2 ++ r2.2 ++ [SockOp.connect fd port]
            if err ≠ 0 then
              { err := err, fd := -1, proto := proto, ops := ops ++ [SockOp.close fd] }
            else { err := 0, fd := fd, proto := proto, ops := ops }

/-- A socket layer in which every call succeeds and a URL helper that finds
neither a scheme nor a port in the host. -/
def env_no_scheme : SocketEnv :=
  { url_parse_proto := fun _ => none, url_parse_port := fun _ => none, CONFIG_COAP := false,
    IFNAMSIZ := 64, socket := fun _ _ _ => 3, setsockopt := fun _ => 0, connect := 0,
    errno := 0 }

/-- A disconnected client whose configuration carries no security tag
(`sec_tag_array_sz = 0`), as `config_no_security_ul` of `main.c`. -/
def client_no_security : upload_client :=
  { fd := -1, offset := 0, file_size := 0, progress := 0, host := "speedtest.ccvn.com",
    file := "", proto := Proto.IPPROTO_TCP, has_header := false,
    config := { apn := none, frag_size_override := 0, sec_tag_array_sz := 0,
                sec_tag_array := [0, 0] } }

/-! ### Connecting and disconnecting (`upload_client_connect`, `upload_client_disconnect`) -/

/-- See `ENOMEM`. -/
def EHOSTUNREACH : Int := 118

/-- What `host_lookup` and `upload_client_connect` take from outside
`upload_client.c`: the URL helper `url_parse_host` (a non-zero error code, or
the host name), the resolver `getaddrinfo` (`none` is its error return,
otherwise the family of the address found), and the build option
`CONFIG_DOWNLOAD_CLIENT_IPV6`. -/
structure LookupEnv where
  url_parse_host : String → Nat → Except Int String
  getaddrinfo : String → Family → Option Family
  CONFIG_DOWNLOAD_CLIENT_IPV6 : Bool

/-- The function `host_lookup`: an error code, or the family left in `sa`. -/
def host_lookup (lenv : LookupEnv) (host : String) (family : Family) : Except Int Family :=
  match lenv.url_parse_host host HOSTNAME_SIZE with
  | Except.error err => Except.error err
  | Except.ok hostname =>
    match lenv.getaddrinfo hostname family with
    | none => Except.error (-EHOSTUNREACH)
    | some fam => Except.ok fam

/-- The function `socket_timeout_set`. `CONFIG_DOWNLOAD_CLIENT_SOCK_TIMEOUT_MS` is
4000, not `SYS_FOREVER_MS`, so the option is always set. -/
def socket_timeout_set (env : SocketEnv) (fd : Int) : Int × List SockOp :=
  if env.setsockopt SockOpt.SO_RCVTIMEO ≠ 0 then
    (-env.errno, [SockOp.setsockopt fd SockOpt.SO_RCVTIMEO])
  else (0, [SockOp.setsockopt fd SockOpt.SO_RCVTIMEO])

/-- Outcome of `upload_client_connect` and `upload_client_disconnect`: the return
value, the client afterwards, and the socket calls made. -/
structure ClientResult where
  ret : Int
  client : Option upload_client
  ops : List SockOp
  deriving DecidableEq, Repr

/-- The function `upload_client_connect`; a null `client`, `host` or `config` is
`none`. With IPv6 enabled the lookup is tried for `AF_INET6` first and falls
back to `AF_INET`; otherwise only `AF_INET` is tried. -/
def upload_client_connect (lenv : LookupEnv) (env : SocketEnv)
    (client : Option upload_client) (host : Option String)
    (config : Option upload_client_cfg) : ClientResult :=
  match client, host, config with
  | some c, some host, some config =>
    if c.fd ≠ -1 then { ret := 0, client := some c, ops := [] }
    else
      let looked : Except Int Family :=
        if lenv.CONFIG_DOWNLOAD_CLIENT_IPV6 then
          match host_lookup lenv host Family.AF_INET6 with
          | Except.ok fam => Except.ok fam
          | Except.error _ => host_lookup lenv host Family.AF_INET
        else host_lookup lenv host Family.AF_INET
      match looked with
      | Except.error err => { ret := err, client := some c, ops := [] }
      | Except.ok fam =>
        let c1 : upload_client := { c with config := config, host := host }
        let r := client_connect env c1 host fam
        let c2 : upload_client := { c1 with fd := r.fd, proto := r.proto }
        if r.fd < 0 then { ret := r.err, client := some c2, ops := r.ops }
        else
          let t := socket_timeout_set env r.fd
          if t.1 ≠ 0 then { ret := t.1, client := some c2, ops := r.ops ++ t.2 }
          else { ret := 0, client := some c2, ops := r.ops ++ t.2 }
  | _, _, _ => { ret := -EINVAL, client := client, ops := [] }

/-- The function `upload_client_disconnect`; a null `client` is `none`, `close_rc`
is the result of `close` and `errno` the error number it leaves. -/
def upload_client_disconnect (close_rc errno : Int) (client : Option upload_client) :
    ClientResult :=
  match client with
  | none => { ret := -EINVAL, client := none, ops := [] }
  | some c =>
    if c.fd < 0 then { ret := -EINVAL, client := some c, ops := [] }
    else if close_rc ≠ 0 then
      { ret := -errno, client := some c, ops := [SockOp.close c.fd] }
    else { ret := 0, client := some { c with fd := -1 }, ops := [SockOp.close c.fd] }

/-- A resolver that finds an IPv4 address for every host, with the URL helper of
`url_parse_host_example`. -/
def lookup_ipv4 : LookupEnv :=
  { url_parse_host := url_parse_host_example, getaddrinfo := fun _ _ => some Family.AF_INET,
    CONFIG_DOWNLOAD_CLIENT_IPV6 := false }

/-- A socket layer in which every call succeeds, with a URL helper that finds
the scheme `https` (TLS over a stream socket) and no port. -/
def env_https : SocketEnv :=
  { url_parse_proto := fun _ => some (Proto.IPPROTO_TLS_1_2, SockType.SOCK_STREAM),
    url_parse_port := fun _ => none, CONFIG_COAP := false, IFNAMSIZ := 64,
    socket := fun _ _ _ => 3, setsockopt := fun _ => 0, connect := 0, errno := 0 }

/-- A socket layer in which only setting the receive timeout fails (with `errno`
22), with a URL helper that finds the scheme `http` and no port. -/
def env_timeout_fails : SocketEnv :=
  { url_parse_proto := fun _ => some (Proto.IPPROTO_TCP, SockType.SOCK_STREAM),
    url_parse_port := fun _ => none, CONFIG_COAP := false, IFNAMSIZ := 64,
    socket := fun _ _ _ => 3,
    setsockopt := fun opt => if opt = SockOpt.SO_RCVTIMEO then -1 else 0,
    connect := 0, errno := 22 }

/-- A `send` that accepts whole buffers while the wire stays within `limit` bytes
and fails afterwards. -/
def send_up_to (limit : Nat) : Nat → Nat → Int :=
  fun w len => if w + len ≤ limit then (len : Int) else -1

/-- The number of bytes `upload_client_start` sends for the upload of `main`
(2 body bytes declared): the preamble and the midamble. -/
def request_length : Nat :=
  (lit (POST_HTTPS_TEMPLATE_PREAMBLE "speedtest/upload.php" "speedtest.ccvn.com"
    (content_length_arg 2))).length + (lit POST_HTTPS_TEMPLATE_MIDAMBLE).length

/-- The events a run delivered to the callback, in order, if it ran to its end. -/
def events_delivered {σ : Type} (r : Run (Int × UploadWorld σ)) :
    Option (List upload_client_evt) :=
  match r with
  | Run.fault _ => none
  | Run.done (_, w) => some (w.events.map Prod.fst)

/-! ### URL composition in `main` -/

/-- The URLs `main` composes for the two timed transfers, or `none` when it
returns on "Invalid data for nearest server". `closest_url` is
`closest_server_data.url`; its host is parsed into `scratch_buf` for printing.
The calls `url_parse_host(closest_server_data.url, p, ...)` that would copy this
host into the URL are commented out in the source (between `//temp` marks) and
`strcpy(p, "speedtest.ccvn.com")` stands in their place. -/
def speed_test_urls (url_parse_host : String → Nat → Except Int String)
    (closest_url : String) : Option (String × String) :=
  let composed : String × String :=
    ("http://" ++ "speedtest.ccvn.com" ++ "/speedtest/random3500x3500.jpg",
     "http://" ++ "speedtest.ccvn.com" ++ "/speedtest/upload.php")
  match url_parse_host closest_url CONFIG_DOWNLOAD_CLIENT_BUF_SIZE with
  | Except.error err => if err < 0 then none else some composed
  | Except.ok _ => some composed

/-- A stand-in for `url_parse_host` that finds the host `speedtest.example.net`. -/
def url_parse_host_other : String → Nat → Except Int String :=
  fun _ _ => Except.ok "speedtest.example.net"

/-! ### Client information (`save_client_info`) -/

/-- The function `save_client_info` of `main.c`, on the global `client_data`. The
library `atof` is a parameter; a null `name` or `val` is `none`. -/
def save_client_info {D : Type} (atof : List Nat → D) (type : xr_type_t)
    (name val : Option xr_str_t) (client_data : client_data_t D) : client_data_t D :=
  match name, val with
  | some name, some val =>
    if type ≠ xr_type_t.xr_type_attribute then client_data
    else if strncmp name.cstr (lit "ip") name.len = 0 then
      { client_data with ip := snprintf_s 512 val.len val.cstr }
    else if strncmp name.cstr (lit "lat") name.len = 0 then
      { client_data with latitude := atof val.cstr }
    else if strncmp name.cstr (lit "lon") name.len = 0 then
      { client_data with longitude := atof val.cstr }
    else if strncmp name.cstr (lit "isp") name.len = 0 then
      { client_data with isp := snprintf_s 128 val.len val.cstr }
    else client_data
  | _, _ => client_data

/-- Feeding a stream of events to `save_client_info`, in order. -/
def client_feed {D : Type} (atof : List Nat → D) (evs : List AttrEvent)
    (c : client_data_t D) : client_data_t D :=
  evs.foldl (fun st e => save_client_info atof e.type e.name e.val st) c

/-- The attribute event for `name="value"` in a line: the name pointer runs on
into `="value"`, the value pointer into the closing quote. -/
def attr_event (name value : String) : AttrEvent :=
  { type := xr_type_t.xr_type_attribute,
    name := some { cstr := lit name ++ lit "=\"" ++ lit value ++ lit "\"", len := name.length },
    val := some (xr_of value) }

/-- The zero-initialised `client_data` (`= {0}`). -/
def client_data_zero : client_data_t ℚ :=
  { ip := [], latitude := 0, longitude := 0, isp := [] }

/-- The events of the config response
`ip="203.0.113.5" lat="40.0" lon="-75.0" isp="ExampleNet"`. -/
def config_events : List AttrEvent :=
  [attr_event "ip" "203.0.113.5", attr_event "lat" "40.0", attr_event "lon" "-75.0",
   attr_event "isp" "ExampleNet"]

/-- The boundary token declared in the `Content-Type` header of
`POST_HTTPS_TEMPLATE_PREAMBLE` (the text after `boundary=`). -/
def BOUNDARY : String := "------------------------76a17771c6949e06"

/-! ### Server list cache (`callback_for_servers_file`) -/

/-- The results of the file system calls one call of the callback may make
(negative: failure). -/
structure FsResults where
  fs_open : Int
  fs_write : Int
  fs_sync : Int
  fs_unlink : Int
  deriving DecidableEq, Repr

/-- The statics of `callback_for_servers_file` and what it acts on:
`cache_exists` says whether the file `SAVED_SERVER_FILE` exists in the file
system and `cache_size` how many bytes were written to it, `handle_open` says
whether the global `file` is open, `processed` counts the calls of
`process_downloaded_servers_file`, `sem_given` those of `k_sem_give`. -/
structure ServersFile where
  downloaded : Nat
  file_size : Nat
  file_open : Bool
  cache_exists : Bool
  cache_size : Nat
  handle_open : Bool
  processed : Nat
  sem_given : Nat
  deriving DecidableEq, Repr

/-- State before the first download: no cache file, nothing open. -/
def servers_file_init : ServersFile :=
  { downloaded := 0, file_size := 0, file_open := false, cache_exists := false,
    cache_size := 0, handle_open := false, processed := 0, sem_given := 0 }

/-- The function `callback_for_servers_file`; `declared` is the size
`download_client_file_size_get` reports and `fs` holds the results of the file
system calls of this invocation. A successful `fs_open` with `FS_O_CREATE`
creates the file; a successful `fs_unlink` removes it. -/
def callback_for_servers_file (declared : Nat) (fs : FsResults) (event : download_client_evt)
    (s : ServersFile) : Int × ServersFile :=
  let s0 : ServersFile :=
    if s.downloaded = 0 then
      { s with file_size := declared, downloaded := (s.downloaded + 0) % SIZE_MAX_PLUS_ONE }
    else s
  if s0.file_open = false ∧ fs.fs_open < 0 then (-1, { s0 with file_open := false })
  else
    let s1 : ServersFile :=
      if s0.file_open = false then
        { s0 with file_open := true, cache_exists := true, handle_open := true }
      else s0
    match event with
    | download_client_evt.DOWNLOAD_CLIENT_EVT_FRAGMENT len =>
      let s2 : ServersFile := { s1 with downloaded := (s1.downloaded + len) % SIZE_MAX_PLUS_ONE }
      if fs.fs_write < 0 then (-1, s2)
      else (0, { s2 with cache_size := s2.cache_size + fs.fs_write.toNat })
    | download_client_evt.DOWNLOAD_CLIENT_EVT_DONE =>
      let s2 : ServersFile := { s1 with file_open := false, downloaded := 0 }
      if fs.fs_sync < 0 then (-1, s2)
      else (0, { s2 with processed := s2.processed + 1, handle_open := false,
                         sem_given := s2.sem_given + 1 })
    | download_client_evt.DOWNLOAD_CLIENT_EVT_ERROR _ =>
      let s2 : ServersFile := { s1 with downloaded := 0 }
      (-1, if fs.fs_unlink < 0 then s2 else { s2 with cache_exists := false })

/-- Delivering events one after the other, each with the file system results of
its invocation: the return values and the final state. -/
def servers_file_events (declared : Nat) :
    List (FsResults × download_client_evt) → ServersFile → List Int × ServersFile
  | [], s => ([], s)
  | (fs, event) :: rest, s =>
    let r := callback_for_servers_file declared fs event s
    let rs := servers_file_events declared rest r.2
    (r.1 :: rs.1, rs.2)

/-- File system results with every call succeeding (`fs_write` writing 1024
bytes). -/
def fs_ok : FsResults := { fs_open := 0, fs_write := 1024, fs_sync := 0, fs_unlink := 0 }

/-! ### Initialisation (`upload_client_init`) -/

/-- The function `upload_client_init`: a null `client` is `none`, `callback_null`
says whether the callback pointer is null. It sets `fd = -1`; the callback and
the thread it stores are not fields of the model. -/
def upload_client_init (client : Option upload_client) (callback_null : Bool) :
    Int × Option upload_client :=
  match client with
  | none => (-EINVAL, none)
  | some c => if callback_null then (-EINVAL, some c) else (0, some { c with fd := -1 })

/-! ### Great-circle distance (`calc_dist_haversine`) -/

/-- The constant `#define M_PI 3.14159265358979323846264338327950288`, as the
decimal fraction the literal denotes. -/
def M_PI : ℚ := 314159265358979323846264338327950288 / 100000000000000000000000000000000000

/-- The function `calc_dist_haversine` of `main.c` over a number type `D` standing
for `double`. The constant `M_PI` and the library functions `sin`, `cos`,
`sqrt`, `atan2` and `pow` are parameters; the integers `6371`, `180`, `2` and
`1` are converted to `D` as C converts them to `double`. -/
def calc_dist_haversine {D : Type} [Add D] [Sub D] [Mul D] [Div D] [NatCast D]
    (M_PI : D) (sin cos sqrt : D → D) (atan2 pow : D → D → D)
    (lat1 lon1 lat2 lon2 : D) : D :=
  let R : D := ((6371 : Nat) : D)
  let dlat := (lat2 - lat1) * M_PI / ((180 : Nat) : D)
  let dlon := (lon2 - lon1) * M_PI / ((180 : Nat) : D)
  let a := pow (sin (dlat / ((2 : Nat) : D))) ((2 : Nat) : D) +
    cos (lat1 * M_PI / ((180 : Nat) : D)) * cos (lat2 * M_PI / ((180 : Nat) : D)) *
      pow (sin (dlon / ((2 : Nat) : D))) ((2 : Nat) : D)
  let c := ((2 : Nat) : D) * atan2 (sqrt a) (sqrt (((1 : Nat) : D) - a))
  R * c

/-- A stand-in for the library `sin` on `double`, to instantiate the parameter
of `calc_dist_haversine`: NaN at NaN and at the infinities, and the first term
`x` of the series at a finite `x`. -/
def sin_stand_in (x : double) : double :=
  match x with
  | double.inf _ => double.nan
  | _ => x

/-- A stand-in for the library `cos` on `double`: NaN at NaN and at the
infinities, and the first terms `1 - x * x / 2` of the series at a finite `x`. -/
def cos_stand_in (x : double) : double :=
  match x with
  | double.inf _ => double.nan
  | _ => ((1 : Nat) : double) - x * x / ((2 : Nat) : double)

/-- A stand-in for the library `sqrt` on `double`: NaN at NaN and below zero, the
argument itself at a zero of either sign and at `+inf`, and the argument as a
first approximation elsewhere. -/
def sqrt_stand_in (x : double) : double :=
  match x with
  | double.inf true => double.nan
  | double.fin true m => if m = 0 then x else double.nan
  | _ => x

/-- A stand-in for the library `atan2` on `double`: the quotient `y / x`, NaN as
soon as one argument is NaN. -/
def atan2_stand_in (y x : double) : double := y / x

/-- A stand-in for the library `pow` on `double`: the square at the exponent `2`,
the only exponent `calc_dist_haversine` uses. -/
def pow_stand_in (x y : double) : double :=
  if y = ((2 : Nat) : double) then x * x else double.nan

/-! ### Config download (`callback_for_config_file`) -/

/-- The statics of `callback_for_config_file` and what it writes. `scratch_buf` is
the 2048-byte buffer; `stray_writes` lists the `memcpy` calls whose destination
lies outside it, each with its byte offset from the start of `scratch_buf` and
the bytes copied; `parsed` collects the lines handed to the parser on `Done`;
`sem_given` counts `k_sem_give(&main_sem)`. -/
structure ConfigFile where
  downloaded : Nat
  file_size : Nat
  saved_fragment_len : Nat
  scratch_buf : List Nat
  stray_writes : List (Nat × List Nat)
  parsed : List (List Nat)
  sem_given : Nat
  deriving DecidableEq, Repr

/-- State before the first fragment: zero counters, zero-filled `scratch_buf`. -/
def config_file_init : ConfigFile :=
  { downloaded := 0, file_size := 0, saved_fragment_len := 0, scratch_buf := scratch_zero,
    stray_writes := [], parsed := [], sem_given := 0 }

/-- The statement `memcpy(&scratch_buf+saved_fragment_len, event->fragment.buf, min)`.
The operand `&scratch_buf` has type `char (*)[2048]`, so adding
`saved_fragment_len` advances the destination by `saved_fragment_len` arrays,
that is `saved_fragment_len * 2048` bytes. A copy of no byte writes nothing; a
copy at offset `0` lands in `scratch_buf`; any other lands past it. -/
def config_file_memcpy (s : ConfigFile) (data : List Nat) : ConfigFile :=
  let offset := s.saved_fragment_len * CONFIG_DOWNLOAD_CLIENT_BUF_SIZE
  if data.length = 0 then s
  else if offset + data.length ≤ CONFIG_DOWNLOAD_CLIENT_BUF_SIZE then
    { s with scratch_buf :=
        s.scratch_buf.take offset ++ data ++ s.scratch_buf.drop (offset + data.length) }
  else { s with stray_writes := s.stray_writes ++ [(offset, data)] }

/-- The function `callback_for_config_file`; `declared` is the size
`download_client_file_size_get` reports and `buf` holds the bytes at
`event->fragment.buf`. -/
def callback_for_config_file (declared : Nat) (event : download_client_evt) (buf : List Nat)
    (s : ConfigFile) : Run (Int × ConfigFile) :=
  let s0 : ConfigFile :=
    if s.downloaded = 0 then
      { s with file_size := declared, downloaded := (s.downloaded + 0) % SIZE_MAX_PLUS_ONE }
    else s
  match event with
  | download_client_evt.DOWNLOAD_CLIENT_EVT_FRAGMENT len =>
    let s1 : ConfigFile := { s0 with downloaded := (s0.downloaded + len) % SIZE_MAX_PLUS_ONE }
    if s1.saved_fragment_len < CONFIG_DOWNLOAD_CLIENT_BUF_SIZE then
      let min := Nat.min len (CONFIG_DOWNLOAD_CLIENT_BUF_SIZE - s1.saved_fragment_len)
      let s2 := config_file_memcpy s1 (buf.take min)
      Run.done (0, { s2 with saved_fragment_len := s2.saved_fragment_len + min })
    else Run.done (0, s1)
  | download_client_evt.DOWNLOAD_CLIENT_EVT_DONE =>
    (process_downloaded_config_file s0.scratch_buf).andThen fun r =>
      Run.done (0, { s0 with parsed := s0.parsed ++ r.2.parsed, downloaded := 0,
                             saved_fragment_len := 0, sem_given := s0.sem_given + 1 })
  | download_client_evt.DOWNLOAD_CLIENT_EVT_ERROR _ =>
    Run.done (-1, { s0 with downloaded := 0 })

/-- Delivering fragments one after the other (each event carries the length of
its payload): the state before `Done` arrives. -/
def config_file_fragments (declared : Nat) : List (List Nat) → ConfigFile → Run ConfigFile
  | [], s => Run.done s
  | buf :: rest, s =>
    (callback_for_config_file declared
      (download_client_evt.DOWNLOAD_CLIENT_EVT_FRAGMENT buf.length) buf s).andThen
      fun r => config_file_fragments declared rest r.2

/-! ### Reported throughput (`speed` in `callback_for_speed_test` and `callback_upload`) -/

/-- The macro `MSEC_PER_SEC` of the kernel headers: `1000U`. -/
def MSEC_PER_SEC : Nat := 1000

/-- Rounding of a rational to the nearest integer, a tie going to the even one. -/
def round_half_even (m : ℚ) : ℤ :=
  if m - ⌊m⌋ < 1 / 2 then ⌊m⌋
  else if 1 / 2 < m - ⌊m⌋ then ⌊m⌋ + 1
  else if ⌊m⌋ % 2 = 0 then ⌊m⌋ else ⌊m⌋ + 1

/-- The binary exponent `float` gives a magnitude `x`: with `n = 253`, the largest
`e` among `-125 .. 127` with `2 ^ e ≤ x`, and `-126` (the exponent of the
smallest normal and of the subnormal values) when there is none. -/
def float_exponent (x : ℚ) : Nat → ℤ
  | 0 => -126
  | n + 1 =>
    if (2 : ℚ) ^ ((n : ℤ) - 125) ≤ x then (n : ℤ) - 125 else float_exponent x n

/-- The value of `x` in `float` (IEEE 754 single precision, as on the target):
the nearest multiple of `2 ^ (e - 23)`, `e` the exponent of `x`, that is 24
significant bits, a tie going to the even significand. Values beyond `FLT_MAX`
are left to the caller. -/
def float_round (x : ℚ) : ℚ :=
  round_half_even (x / 2 ^ (float_exponent |x| 253 - 23)) * 2 ^ (float_exponent |x| 253 - 23)

/-- The largest finite `float`: `(2 ^ 24 - 1) * 2 ^ 104`. -/
def FLT_MAX : ℚ := (2 ^ 24 - 1) * 2 ^ 104

/-- The value stored by `speed = ((float)downloaded / ms_elapsed) * MSEC_PER_SEC;`
and by the same statement over `uploaded`: `bytes` is the `size_t` counter,
`ms_elapsed` the `int64_t` time. The counter is converted to `float`, the time
and `MSEC_PER_SEC` are converted to `float` for the division and the product,
both of which round to `float`, and the result is truncated into the `uint32_t`
variable. The result is `none` where C leaves it undefined: division by zero,
a value outside `float`, or a product that does not fit `uint32_t`. -/
def speed (bytes : Nat) (ms_elapsed : Int) : Option Nat :=
  let a := float_round bytes
  let b := float_round ms_elapsed
  let q := float_round (a / b)
  let r := float_round (q * float_round MSEC_PER_SEC)
  if ms_elapsed ≠ 0 ∧ |a| ≤ FLT_MAX ∧ |b| ≤ FLT_MAX ∧ |q| ≤ FLT_MAX ∧ |r| ≤ FLT_MAX ∧
      -1 < r ∧ r < 2 ^ 32 then
    some ⌊r⌋.toNat
  else none

/-! ## Theorems -/

theorem strncmp_url (t : List Nat) : strncmp (lit "url" ++ t) (lit "url") 3 = 0 := by
  simp [strncmp, lit]

theorem strncmp_lat_url (t : List Nat) : strncmp (lit "lat" ++ t) (lit "url") 3 ≠ 0 := by
  simp [strncmp, lit]

theorem strncmp_lat (t : List Nat) : strncmp (lit "lat" ++ t) (lit "lat") 3 = 0 := by
  simp [strncmp, lit]

theorem strncmp_lon_url (t : List Nat) : strncmp (lit "lon" ++ t) (lit "url") 3 ≠ 0 := by
  simp [strncmp, lit]

theorem strncmp_lon_lat (t : List Nat) : strncmp (lit "lon" ++ t) (lit "lat") 3 ≠ 0 := by
  simp [strncmp, lit]

theorem strncmp_lon (t : List Nat) : strncmp (lit "lon" ++ t) (lit "lon") 3 = 0 := by
  simp [strncmp, lit]

theorem geo_feed_append {D : Type} [LT D] [DecidableRel (fun a b : D => a < b)]
    (atof : List Nat → D) (hav : D → D → D → D → D) (e1 e2 : List AttrEvent)
    (s : GeoState D) :
    geo_feed atof hav (e1 ++ e2) s = geo_feed atof hav e2 (geo_feed atof hav e1 s) := by
  simp [geo_feed, List.foldl_append]

/-- Effect of the three events of one record on a state whose pending record
still has its zeroed `name` and `country`. -/
theorem geo_feed_record {D : Type} [LT D] [DecidableRel (fun a b : D => a < b)]
    (atof : List Nat → D) (hav : D → D → D → D → D) (r : ServerRecord) (s : GeoState D)
    (hn : s.server_data_tmp.name = []) (hc : s.server_data_tmp.country = []) :
    geo_feed atof hav (record_events r) s =
      { client_data := s.client_data,
        closest_server_data :=
          if s.first_time then record_stored atof hav s.client_data r
          else if s.closest_server_data.distance > record_distance atof hav s.client_data r
            then record_stored atof hav s.client_data r
          else s.closest_server_data,
        first_time := false,
        server_data_tmp := record_stored atof hav s.client_data r } := by
  obtain ⟨c, best, ft, tmp⟩ := s
  obtain ⟨u, la, lo, nm, co, d⟩ := tmp
  simp only at hn hc
  subst hn hc
  simp only [geo_feed, record_events, List.foldl_cons, List.foldl_nil, calculate_distance,
    strncmp_url, strncmp_lat, strncmp_lon, strncmp_lat_url, strncmp_lon_url, strncmp_lon_lat,
    record_stored, record_distance, ne_eq, not_true_eq_false, if_false, if_true]
  cases ft
  · by_cases h : best.distance > hav c.latitude c.longitude (atof r.lat.cstr) (atof r.lon.cstr)
    · simp [h]
    · simp [h]
  · simp

/-- The relation `<` on `double` is the comparison `double.lt`. -/
theorem double_lt_iff (a b : double) : a < b ↔ double.lt a b = true := Iff.rfl

/-- The relation `≤` on `double` is the comparison `double.le`. -/
theorem double_le_iff (a b : double) : a ≤ b ↔ double.le a b = true := Iff.rfl

/-- Neither side of a true `<` is NaN. -/
theorem double_lt_not_nan (a b : double) (h : a < b) : a ≠ double.nan ∧ b ≠ double.nan := by
  rw [double_lt_iff] at h
  rcases a with _ | s1 | ⟨s1, m1⟩ <;> rcases b with _ | s2 | ⟨s2, m2⟩ <;>
    simp_all [double.lt]

/-- The comparison `<` of `double` is transitive. -/
theorem double_lt_trans (a b c : double) (h1 : a < b) (h2 : b < c) : a < c := by
  rw [double_lt_iff] at *
  rcases a with _ | s1 | ⟨s1, m1⟩ <;> rcases b with _ | s2 | ⟨s2, m2⟩ <;>
    rcases c with _ | s3 | ⟨s3, m3⟩ <;>
    simp only [double.lt, Bool.and_eq_true, Bool.not_eq_true', decide_eq_true_eq,
      Bool.false_eq_true] at * <;>
    first
      | exact lt_trans (α := ℚ) h1 h2
      | simp_all

/-- From `a < b` and `b <= c` follows `a < c`. -/
theorem double_lt_of_lt_of_le (a b c : double) (h1 : a < b) (h2 : b ≤ c) : a < c := by
  rw [double_lt_iff, double_le_iff] at *
  rcases a with _ | s1 | ⟨s1, m1⟩ <;> rcases b with _ | s2 | ⟨s2, m2⟩ <;>
    rcases c with _ | s3 | ⟨s3, m3⟩ <;>
    simp only [double.lt, double.le, Bool.and_eq_true, Bool.or_eq_true, Bool.not_eq_true',
      decide_eq_true_eq, Bool.false_eq_true] at * <;>
    first
      | exact lt_of_lt_of_le (α := ℚ) h1 h2
      | simp_all

/-- Between two values that are not NaN, `a <= b` holds when `b < a` fails. -/
theorem double_le_of_not_lt (a b : double) (ha : a ≠ double.nan) (hb : b ≠ double.nan)
    (h : ¬ (b < a)) : a ≤ b := by
  rw [double_lt_iff] at h
  rw [double_le_iff]
  rcases a with _ | s1 | ⟨s1, m1⟩ <;> rcases b with _ | s2 | ⟨s2, m2⟩ <;>
    simp only [double.lt, double.le, Bool.and_eq_true, Bool.or_eq_true, Bool.not_eq_true',
      decide_eq_true_eq, Bool.false_eq_true, ne_eq, not_true_eq_false, not_lt] at * <;>
    first
      | exact h
      | (cases s1 <;> cases s2 <;> simp_all)

/-- From `a < b` follows `a <= b`. -/
theorem double_le_of_lt (a b : double) (h : a < b) : a ≤ b := by
  rw [double_lt_iff] at h
  rw [double_le_iff]
  rcases a with _ | s1 | ⟨s1, m1⟩ <;> rcases b with _ | s2 | ⟨s2, m2⟩ <;>
    simp only [double.lt, double.le, Bool.and_eq_true, Bool.or_eq_true, Bool.not_eq_true',
      decide_eq_true_eq, Bool.false_eq_true] at * <;>
    first
      | exact le_of_lt (α := ℚ) h
      | simp_all

/-- A value that is not NaN satisfies `a <= a`. -/
theorem double_le_refl (a : double) (ha : a ≠ double.nan) : a ≤ a := by
  rw [double_le_iff]
  rcases a with _ | s1 | ⟨s1, m1⟩ <;>
    simp_all [double.le]

/-- The comparison `<=` of `double` is transitive. -/
theorem double_le_trans (a b c : double) (h1 : a ≤ b) (h2 : b ≤ c) : a ≤ c := by
  rw [double_le_iff] at *
  rcases a with _ | s1 | ⟨s1, m1⟩ <;> rcases b with _ | s2 | ⟨s2, m2⟩ <;>
    rcases c with _ | s3 | ⟨s3, m3⟩ <;>
    simp only [double.le, Bool.and_eq_true, Bool.or_eq_true, Bool.not_eq_true',
      decide_eq_true_eq, Bool.false_eq_true] at * <;>
    first
      | exact le_trans (α := ℚ) h1 h2
      | (cases s1 <;> cases s2 <;> cases s3 <;> simp_all)

/-- No comparison `<` with NaN holds. -/
theorem double_nan_not_lt (a : double) : ¬ (a < double.nan) ∧ ¬ (double.nan < a) := by
  rw [double_lt_iff, double_lt_iff]
  rcases a with _ | s1 | ⟨s1, m1⟩ <;> simp [double.lt]

/-- No comparison `<=` with NaN holds, NaN against itself included. -/
theorem double_nan_not_le (a : double) : ¬ (a ≤ double.nan) ∧ ¬ (double.nan ≤ a) := by
  rw [double_le_iff, double_le_iff]
  rcases a with _ | s1 | ⟨s1, m1⟩ <;> simp [double.le]

/-- Unfolding of the unary minus. -/
theorem double_neg_def (a : double) : -a = double.neg a := rfl

/-- Unfolding of the product. -/
theorem double_mul_def (a b : double) : a * b = double.mul a b := rfl

/-- Unfolding of the quotient. -/
theorem double_div_def (a b : double) : a / b = double.div a b := rfl

/-- Unfolding of the difference. -/
theorem double_sub_def (a b : double) : a - b = double.add a (double.neg b) := rfl

/-- The sign moves out of a product. -/
theorem double_neg_mul (a b : double) : (-a) * b = -(a * b) := by
  simp only [double_neg_def, double_mul_def]
  rcases a with _ | s1 | ⟨s1, m1⟩ <;> rcases b with _ | s2 | ⟨s2, m2⟩ <;>
    simp only [double.neg, double.mul] <;>
    (try split_ifs) <;> simp [double.neg]

/-- The sign moves out of a quotient. -/
theorem double_neg_div (a b : double) : (-a) / b = -(a / b) := by
  simp only [double_neg_def, double_div_def]
  rcases a with _ | s1 | ⟨s1, m1⟩ <;> rcases b with _ | s2 | ⟨s2, m2⟩ <;>
    simp only [double.neg, double.div] <;>
    (try split_ifs) <;> simp [double.neg]

/-- The product of `double` commutes. -/
theorem double_mul_comm (a b : double) : a * b = b * a := by
  simp only [double_mul_def]
  rcases a with _ | s1 | ⟨s1, m1⟩ <;> rcases b with _ | s2 | ⟨s2, m2⟩ <;>
    simp only [double.mul] <;>
    (try split_ifs) <;> simp [Bool.xor_comm, mul_comm]

/-- Swapping the operands of a difference flips its sign, for two different
operands; for `a - a`, which is `+0` either way, it does not. -/
theorem double_sub_antisymm (a b : double) (h : a ≠ b) : b - a = -(a - b) := by
  simp only [double_neg_def, double_sub_def]
  rcases a with _ | s1 | ⟨s1, m1⟩ <;> rcases b with _ | s2 | ⟨s2, m2⟩ <;>
    simp only [double.neg, double.add]
  all_goals (try (cases s1 <;> cases s2 <;> simp [double.neg, double.add] at *))
  all_goals first
    | exact add_comm _ _
    | (have h2 : ¬ m2 = m1 := fun e => h e.symm
       rcases lt_or_gt_of_ne h with hlt | hgt
       · have h3 : ¬ m2 < m1 := not_lt.mpr hlt.le
         simp [h, h2, hlt, h3]
       · have h3 : ¬ m1 < m2 := not_lt.mpr (le_of_lt hgt)
         simp [h, h2, hgt, h3])

/-- Invariant of the selection after a non-empty run of complete records, on
`double`: a first record whose distance is NaN is retained; otherwise the
retained record has a distance that is not NaN, earlier records are strictly
farther or have a NaN distance, later ones are at least as far or have a NaN
distance. -/
theorem geo_feed_records (atof : List Nat → double)
    (hav : double → double → double → double → double) (c : client_data_t double)
    (rs : List ServerRecord) (h : rs ≠ []) :
    ∃ pre r post, rs = pre ++ r :: post ∧
      geo_feed atof hav (rs.flatMap record_events) (geo_init c) =
        { client_data := c, closest_server_data := record_stored atof hav c r,
          first_time := false,
          server_data_tmp := record_stored atof hav c (rs.getLast h) } ∧
      ((pre = [] ∧ record_distance atof hav c r = double.nan) ∨
        (record_distance atof hav c r ≠ double.nan ∧
          (∀ x ∈ pre, record_distance atof hav c x ≠ double.nan →
            record_distance atof hav c r < record_distance atof hav c x) ∧
          (∀ x ∈ post, record_distance atof hav c x ≠ double.nan →
            record_distance atof hav c r ≤ record_distance atof hav c x))) := by
  induction rs using List.reverseRecOn with
  | nil => exact absurd rfl h
  | append_singleton rs a ih =>
    by_cases hrs : rs = []
    · subst hrs
      refine ⟨[], a, [], by simp, ?_, ?_⟩
      · simp only [List.nil_append, List.flatMap_cons, List.flatMap_nil, List.append_nil]
        rw [geo_feed_record atof hav a (geo_init c) rfl rfl]
        simp [geo_init]
      · by_cases hn : record_distance atof hav c a = double.nan
        · exact Or.inl ⟨rfl, hn⟩
        · exact Or.inr ⟨hn, by simp, by simp⟩
    · obtain ⟨pre, r, post, hsplit, hfeed, hcase⟩ := ih hrs
      rw [List.flatMap_append, geo_feed_append, hfeed]
      simp only [List.flatMap_cons, List.flatMap_nil, List.append_nil]
      rw [geo_feed_record atof hav a _ rfl rfl]
      simp only [Bool.false_eq_true, if_false, List.getLast_append_singleton]
      by_cases hgt : (record_stored atof hav c r).distance > record_distance atof hav c a
      · have hgt2 : record_distance atof hav c a < record_distance atof hav c r := hgt
        have hnn := double_lt_not_nan _ _ hgt2
        rcases hcase with ⟨_, hnan⟩ | ⟨_, hpre, hpost⟩
        · exact absurd hnan hnn.2
        · refine ⟨rs, a, [], by simp, by simp [hgt], Or.inr ⟨hnn.1, ?_, by simp⟩⟩
          intro x hx hxn
          rw [hsplit] at hx
          rcases List.mem_append.mp hx with hx | hx
          · exact double_lt_trans _ _ _ hgt2 (hpre x hx hxn)
          · rcases List.mem_cons.mp hx with hx | hx
            · subst hx; exact hgt2
            · exact double_lt_of_lt_of_le _ _ _ hgt2 (hpost x hx hxn)
      · refine ⟨pre, r, post ++ [a], by simp [hsplit], by simp [hgt], ?_⟩
        rcases hcase with ⟨hp, hnan⟩ | ⟨hrn, hpre, hpost⟩
        · exact Or.inl ⟨hp, hnan⟩
        · refine Or.inr ⟨hrn, hpre, ?_⟩
          intro x hx hxn
          rcases List.mem_append.mp hx with hx | hx
          · exact hpost x hx hxn
          · simp only [List.mem_singleton] at hx
            subst hx
            exact double_le_of_not_lt _ _ hrn hxn hgt

/-- The selection on a sequence none of whose distances is NaN: the retained
record is the first one whose distance is minimal, every earlier record is
strictly farther and every later record is at least as far. -/
theorem calculate_distance_first_minimum_of_numbers (atof : List Nat → double)
    (hav : double → double → double → double → double) (c : client_data_t double)
    (rs : List ServerRecord) (h : rs ≠ [])
    (hnum : ∀ x ∈ rs, record_distance atof hav c x ≠ double.nan) :
    ∃ pre r post, rs = pre ++ r :: post ∧
      (geo_feed atof hav (rs.flatMap record_events) (geo_init c)).closest_server_data =
        record_stored atof hav c r ∧
      (∀ x ∈ pre, record_distance atof hav c r < record_distance atof hav c x) ∧
      (∀ x ∈ post, record_distance atof hav c r ≤ record_distance atof hav c x) := by
  obtain ⟨pre, r, post, hsplit, hfeed, hcase⟩ := geo_feed_records atof hav c rs h
  refine ⟨pre, r, post, hsplit, by rw [hfeed], ?_⟩
  rcases hcase with ⟨_, hnan⟩ | ⟨_, hpre, hpost⟩
  · exact absurd hnan (hnum r (by rw [hsplit]; simp))
  · exact ⟨fun x hx => hpre x hx (hnum x (by rw [hsplit]; simp [hx])),
      fun x hx => hpost x hx (hnum x (by rw [hsplit]; simp [hx]))⟩

/-- On the records `a` then `b` the retained URL is `a`, in `double`: both
distances are numbers and that of `a` is the smaller one. -/
theorem example_nearest_url_double :
    (geo_feed atof_double planar_distance_double ([record_a, record_b].flatMap record_events)
      (geo_init client_example_double)).closest_server_data.url = lit "a" ∧
    record_distance atof_double planar_distance_double client_example_double record_a =
      double.fin false (1 / 50) ∧
    record_distance atof_double planar_distance_double client_example_double record_b =
      double.fin false 2 := by
  decide!

/-- On the records `a` then `b` the retained URL is `a`. -/
theorem example_nearest_url :
    (geo_feed atof_decimal planar_distance ([record_a, record_b].flatMap record_events)
      (geo_init client_example)).closest_server_data.url = lit "a" := by
  decide!

/-- Evaluation for C2: the source `"abc\ndefgh\n"` read in one piece hands the
parser its two lines, while the same bytes read as `"abc\n"`, `"def"`, `"gh\n"`
hand it `"abc\n"` and a spurious `"def\n"`: at the end of the second read `*p` is
the stale line feed left at `scratch_buf[3]` by the first one. -/
theorem servers_file_split_differs :
    parsed_lines (process_downloaded_servers_file
        (some (0, [lit "abc\ndefgh\n"])) scratch_zero) =
      some [lit "abc\n" ++ [0], lit "defgh\n" ++ [0]] ∧
    parsed_lines (process_downloaded_servers_file
        (some (0, [lit "abc\n", lit "def", lit "gh\n"])) scratch_zero) =
      some [lit "abc\n" ++ [0], lit "def\n" ++ [0]] := by
  decide!

theorem getD_of_drop_eq_cons (xs : List Nat) (p c : Nat) (t : List Nat)
    (h : xs.drop p = c :: t) : xs.getD p 0 = c ∧ xs.drop (p + 1) = t := by
  induction xs generalizing p with
  | nil => simp at h
  | cons x xs ih =>
    cases p with
    | zero =>
      simp only [List.drop_zero, List.cons.injEq] at h
      simp [h.1, h.2]
    | succ p =>
      simp only [List.drop_succ_cons] at h
      have := ih p h
      simpa using this

/-- The copy loop advances over bytes that are not line feeds while its three
bounds allow. -/
theorem copy_loop_advance (endp : Nat) (l : List Nat) :
    ∀ (fuel i : Nat) (s : Feeder) (rest : List Nat),
      s.scratch_buf.drop s.p = l ++ rest → 10 ∉ l →
      i + l.length ≤ LINE_BUF_SIZE - 2 → s.p + l.length ≤ endp →
      endp ≤ CONFIG_DOWNLOAD_CLIENT_BUF_SIZE → s.line.length + l.length ≤ LINE_BUF_SIZE →
      copy_loop endp (fuel + l.length) i s =
        copy_loop endp fuel (i + l.length)
          { s with line := s.line ++ l, p := s.p + l.length } := by
  induction l with
  | nil => intro fuel i s rest _ _ _ _ _ _; simp
  | cons c l ih =>
    intro fuel i s rest hd hnl hi hp he hl
    have hd2 : s.scratch_buf.drop s.p = c :: (l ++ rest) := by simpa using hd
    obtain ⟨hg, hd3⟩ := getD_of_drop_eq_cons _ _ _ _ hd2
    simp only [List.length_cons] at hi hp hl
    have hlt : s.p < CONFIG_DOWNLOAD_CLIENT_BUF_SIZE := by omega
    have hc : c ≠ 10 := fun h => hnl (by simp [h])
    have hnl2 : 10 ∉ l := fun h => hnl (by simp [h])
    have hi2 : i < LINE_BUF_SIZE - 2 := by omega
    have hp2 : s.p < endp := by omega
    have hl2 : s.line.length < LINE_BUF_SIZE := by omega
    have step := ih fuel (i + 1) { s with line := s.line ++ [c], p := s.p + 1 } rest
      (by simpa using hd3) hnl2 (by omega) (by simp only; omega) he
      (by simp only [List.length_append, List.length_cons, List.length_nil]; omega)
    rw [List.length_cons, ← Nat.add_assoc]
    simp only [copy_loop, Feeder.peek, hlt, if_true, hg, Run.andThen, ne_eq, hc,
      not_false_eq_true, hi2, hp2, and_self, Feeder.copy_byte, hl2, step]
    simp [Nat.add_assoc, Nat.add_comm 1]

/-- One chunk made of a line `l` of exactly 510 bytes and the line `x`: the
line `l` is handed to the parser, the line `x` is skipped. -/
theorem read_loop_full_line (l tail : List Nat) (hl : l.length = 510) (hnl : 10 ∉ l) :
    read_loop [l ++ [10, 120, 10]]
        { scratch_buf := tail, p := 0, line := [], parsed := [] } =
      Run.done { scratch_buf := l ++ [10, 120, 10] ++ tail.drop 513, p := 0, line := [],
                 parsed := [l ++ [10, 0]] } := by
  have hlen : (l ++ [10, 120, 10]).length = 513 := by simp [hl]
  have hne : ¬ ((l ++ [10, 120, 10]).length = 0) := by omega
  have hadv := copy_loop_advance 513 l 1 0
    { scratch_buf := l ++ [10, 120, 10] ++ tail.drop 513, p := 0, line := [], parsed := [] }
    ([10, 120, 10] ++ tail.drop 513) (by simp) hnl (by simp [hl, LINE_BUF_SIZE])
    (by simp [hl]) (by decide) (by simp [hl, LINE_BUF_SIZE])
  have hfuel : LINE_BUF_SIZE - 1 = 1 + l.length := by rw [hl]; rfl
  simp only [List.nil_append, Nat.zero_add, hl] at hadv
  have hdrop : (l ++ [10, 120, 10] ++ tail.drop 513).drop 510 =
      10 :: 120 :: 10 :: tail.drop 513 := by
    rw [List.append_assoc, ← hl, List.drop_left]
    rfl
  obtain ⟨hg0, hdrop1⟩ := getD_of_drop_eq_cons _ _ _ _ hdrop
  obtain ⟨hg1, hdrop2⟩ := getD_of_drop_eq_cons _ _ _ _ hdrop1
  obtain ⟨hg2, _⟩ := getD_of_drop_eq_cons _ _ _ _ hdrop2
  have hcopy : copy_loop 513 (LINE_BUF_SIZE - 1) 0
      { scratch_buf := l ++ [10, 120, 10] ++ tail.drop 513, p := 0, line := [], parsed := [] } =
      Run.done (510, { scratch_buf := l ++ [10, 120, 10] ++ tail.drop 513, p := 510,
                       line := l, parsed := [] }) := by
    rw [hfuel, hl, hadv, copy_loop]
    simp only [Feeder.peek, show (510 : Nat) < CONFIG_DOWNLOAD_CLIENT_BUF_SIZE by decide,
      if_true, hg0, Run.andThen, ne_eq, not_true_eq_false, false_and, if_false]
  have hskip : skip_loop 513 (513 + 1)
      { scratch_buf := l ++ [10, 120, 10] ++ tail.drop 513, p := 511, line := [],
        parsed := [l ++ [10, 0]] } =
      Run.done { scratch_buf := l ++ [10, 120, 10] ++ tail.drop 513, p := 513, line := [],
                 parsed := [l ++ [10, 0]] } := by
    rw [skip_loop]
    simp only [show (511 : Nat) < 513 by decide, if_true, Feeder.peek,
      show (511 : Nat) < CONFIG_DOWNLOAD_CLIENT_BUF_SIZE by decide, hg1, Run.andThen,
      show ¬ ((120 : Nat) = 10) by decide, ne_eq, not_false_eq_true, Nat.reduceAdd]
    rw [skip_loop]
    simp only [show (512 : Nat) < 513 by decide, if_true, Feeder.peek,
      show (512 : Nat) < CONFIG_DOWNLOAD_CLIENT_BUF_SIZE by decide, hg2, Run.andThen, ne_eq,
      not_true_eq_false, if_false, Nat.reduceAdd]
  simp only [read_loop, hlen, show ¬ ((513 : Nat) = 0) by decide, if_false]
  rw [feed_loop]
  simp only [Nat.zero_lt_succ, if_true, hcopy, Run.andThen, Feeder.peek,
    show (510 : Nat) < CONFIG_DOWNLOAD_CLIENT_BUF_SIZE by decide, hg0, Feeder.dispatch, hl,
    show (510 : Nat) + 1 < LINE_BUF_SIZE by decide,
    show LINE_BUF_SIZE - 2 = 510 by decide, List.nil_append, hskip, Nat.reduceAdd]

/-- Evaluation for C3: after a line of exactly 510 bytes, which fits the line
buffer and is handed to the parser, the next line `"x"` is skipped. -/
theorem servers_file_full_line_drops_next :
    parsed_lines (process_downloaded_servers_file
        (some (0, [List.replicate 510 97 ++ lit "\nx\n"])) scratch_zero) =
      some [List.replicate 510 97 ++ [10, 0]] := by
  have h := read_loop_full_line (List.replicate 510 97) scratch_zero
    (List.length_replicate _ _)
    (fun hm => absurd (List.eq_of_mem_replicate hm) (by decide))
  have hlit : lit "\nx\n" = [10, 120, 10] := by decide
  have hrun : process_downloaded_servers_file
      (some (0, [List.replicate 510 97 ++ lit "\nx\n"])) scratch_zero =
      (read_loop [List.replicate 510 97 ++ [10, 120, 10]]
        { scratch_buf := scratch_zero, p := 0, line := [], parsed := [] }).andThen
        fun s => Run.done (1, s) := by
    rw [hlit]
    rfl
  rw [hrun, h]
  rfl

/-- The copy loop run on a line that fits: it stops at the line feed, having
appended the line to the line buffer. -/
theorem copy_loop_line (endp : Nat) (l : List Nat) :
    ∀ (fuel i : Nat) (s : Feeder) (rest : List Nat),
      s.scratch_buf.drop s.p = l ++ 10 :: rest → 10 ∉ l →
      i + l.length < LINE_BUF_SIZE - 2 → l.length < fuel →
      s.p + l.length < endp → endp ≤ CONFIG_DOWNLOAD_CLIENT_BUF_SIZE →
      s.line.length + l.length < LINE_BUF_SIZE →
      copy_loop endp fuel i s =
        Run.done (i + l.length, { s with line := s.line ++ l, p := s.p + l.length }) := by
  induction l with
  | nil =>
    intro fuel i s rest hd _ _ hf hp he _
    obtain ⟨f, rfl⟩ : ∃ f, fuel = f + 1 := ⟨fuel - 1, by simp at hf; omega⟩
    have hg := (getD_of_drop_eq_cons _ _ _ _ hd).1
    have hlt : s.p < CONFIG_DOWNLOAD_CLIENT_BUF_SIZE := by simp at hp; omega
    simp only [copy_loop, Feeder.peek, hlt, if_true, Run.andThen, hg, ne_eq,
      not_true_eq_false, false_and, if_false, List.length_nil, Nat.add_zero,
      List.append_nil]
  | cons c l ih =>
    intro fuel i s rest hd hnl hi hf hp he hl
    obtain ⟨f, rfl⟩ : ∃ f, fuel = f + 1 := ⟨fuel - 1, by simp at hf; omega⟩
    have hd2 : s.scratch_buf.drop s.p = c :: (l ++ 10 :: rest) := by simpa using hd
    obtain ⟨hg, hd3⟩ := getD_of_drop_eq_cons _ _ _ _ hd2
    simp only [List.length_cons] at hi hf hp hl
    have hlt : s.p < CONFIG_DOWNLOAD_CLIENT_BUF_SIZE := by omega
    have hc : c ≠ 10 := fun h => hnl (by simp [h])
    have hnl2 : 10 ∉ l := fun h => hnl (by simp [h])
    have hi2 : i < LINE_BUF_SIZE - 2 := by omega
    have hp2 : s.p < endp := by omega
    have hl2 : s.line.length < LINE_BUF_SIZE := by omega
    have step := ih f (i + 1) { s with line := s.line ++ [c], p := s.p + 1 } rest
      (by simpa using hd3) hnl2 (by omega) (by omega) (by simp; omega) he
      (by simp; omega)
    simp only [copy_loop, Feeder.peek, hlt, if_true, hg, Run.andThen, ne_eq, hc,
      not_false_eq_true, hi2, hp2, and_self, Feeder.copy_byte, hl2, step]
    simp [Nat.add_assoc, Nat.add_comm 1]

/-- One pass of the feeding loop over a buffer region made of line-feed
terminated lines shorter than 510 bytes. -/
theorem feed_loop_lines (endp : Nat) (he : endp ≤ CONFIG_DOWNLOAD_CLIENT_BUF_SIZE)
    (lines : List (List Nat)) :
    ∀ (fuel : Nat) (s : Feeder) (tail : List Nat), lines ≠ [] →
      (∀ l ∈ lines, l.length < 510) → (∀ l ∈ lines, 10 ∉ l) →
      s.scratch_buf.drop s.p = lines.flatMap (fun l => l ++ [10]) ++ tail →
      s.p + (lines.flatMap (fun l => l ++ [10])).length = endp →
      s.line = [] → lines.length ≤ fuel →
      feed_loop endp fuel s =
        Run.done { s with p := 0, line := [],
                          parsed := s.parsed ++ lines.map (fun l => l ++ [10, 0]) } := by
  induction lines with
  | nil => intro _ _ _ h; exact absurd rfl h
  | cons l ls ih =>
    intro fuel s tail _ hlen hnl hd hp hline hf
    obtain ⟨f, rfl⟩ : ∃ f, fuel = f + 1 := ⟨fuel - 1, by simp at hf; omega⟩
    have hl : l.length < 510 := hlen l (by simp)
    have hn : 10 ∉ l := hnl l (by simp)
    simp only [List.flatMap_cons, List.length_append, List.length_cons, List.length_nil,
      List.append_assoc, List.singleton_append] at hd hp
    have hcopy := copy_loop_line endp l (LINE_BUF_SIZE - 1) 0 s
      (ls.flatMap (fun l => l ++ [10]) ++ tail) (by simpa using hd) hn
      (by simp [LINE_BUF_SIZE]; omega) (by simp [LINE_BUF_SIZE]; omega) (by omega) he
      (by simp [hline, LINE_BUF_SIZE]; omega)
    have hd1 : ({ s with line := s.line ++ l, p := s.p + l.length } : Feeder).scratch_buf.drop
        (s.p + l.length) = 10 :: (ls.flatMap (fun l => l ++ [10]) ++ tail) := by
      simp only
      rw [← List.drop_drop, hd]
      simp
    obtain ⟨hg, hd2⟩ := getD_of_drop_eq_cons _ _ _ _ hd1
    have hplt : s.p < endp := by omega
    have hlt : s.p + l.length < CONFIG_DOWNLOAD_CLIENT_BUF_SIZE := by omega
    have hne : ¬ (l.length = LINE_BUF_SIZE - 2) := by simp [LINE_BUF_SIZE]; omega
    have hdl : (s.line ++ l).length + 1 < LINE_BUF_SIZE := by
      simp [hline, LINE_BUF_SIZE]; omega
    simp only at hg hd2
    simp only [feed_loop, hplt, if_true, hcopy, Run.andThen, Feeder.peek, hlt, hg,
      Feeder.dispatch, hdl, Nat.zero_add, hne, if_false]
    by_cases hls : ls = []
    · subst hls
      simp only [List.flatMap_nil, List.length_nil, Nat.add_zero] at hp
      have : s.p + l.length + 1 = endp := by omega
      simp [this, hline]
    · have hpos : 0 < (ls.flatMap (fun l => l ++ [10])).length := by
        cases ls with
        | nil => exact absurd rfl hls
        | cons a as => simp
      have hnep : ¬ (s.p + l.length + 1 = endp) := by omega
      simp only [hnep, if_false]
      rw [ih f _ tail hls (fun x hx => hlen x (by simp [hx])) (fun x hx => hnl x (by simp [hx]))
        (by simpa using hd2) (by simp only; omega) rfl (by simp at hf; omega)]
      simp [hline]

theorem length_le_flatMap_lines (lines : List (List Nat)) :
    lines.length ≤ (lines.flatMap (fun l => l ++ [10])).length := by
  induction lines with
  | nil => simp
  | cons l ls ih => simp only [List.flatMap_cons, List.length_append, List.length_cons,
      List.length_nil]; omega

theorem length_flatMap_replicate_lines (n : Nat) (l : List Nat) :
    ((List.replicate n l).flatMap (fun l => l ++ [10])).length = n * (l.length + 1) := by
  induction n with
  | zero => simp
  | succ n ih =>
    simp only [List.replicate_succ, List.flatMap_cons, List.length_append, ih,
      List.length_cons, List.length_nil]
    ring

/-- C4: for every single chunk that consists only of line-feed-terminated lines
each shorter than 510 bytes, the line feeder hands the parser exactly the source
lines, once each and in source order, each followed by its line feed and a NUL,
and nothing else. This holds for `process_downloaded_servers_file` reading the
chunk in one `fs_read`, and for `process_downloaded_config_file` when the chunk
fills `scratch_buf`. -/
theorem line_feeder_dispatches_short_lines (lines : List (List Nat))
    (scratch0 : List Nat) (seek_rc : Int) (hseek : 0 ≤ seek_rc)
    (hlen : ∀ l ∈ lines, l.length < 510) (hnl : ∀ l ∈ lines, 10 ∉ l)
    (hfit : (lines.flatMap (fun l => l ++ [10])).length ≤ CONFIG_DOWNLOAD_CLIENT_BUF_SIZE) :
    parsed_lines (process_downloaded_servers_file
        (some (seek_rc, [lines.flatMap (fun l => l ++ [10])])) scratch0) =
      some (lines.map (fun l => l ++ [10, 0])) ∧
    ((lines.flatMap (fun l => l ++ [10])).length = CONFIG_DOWNLOAD_CLIENT_BUF_SIZE →
      parsed_lines (process_downloaded_config_file (lines.flatMap (fun l => l ++ [10]))) =
        some (lines.map (fun l => l ++ [10, 0]))) := by
  have hcount := length_le_flatMap_lines lines
  constructor
  · have hns : ¬ seek_rc < 0 := not_lt.mpr hseek
    by_cases hl : lines = []
    · subst hl
      simp [process_downloaded_servers_file, hns, read_loop, Run.andThen, parsed_lines]
    · have hpos : (lines.flatMap (fun l => l ++ [10])).length ≠ 0 := by
        cases lines with
        | nil => exact absurd rfl hl
        | cons a as => simp
      have hrun := feed_loop_lines (lines.flatMap (fun l => l ++ [10])).length hfit lines
        ((lines.flatMap (fun l => l ++ [10])).length + 1)
        { scratch_buf := lines.flatMap (fun l => l ++ [10]) ++
            scratch0.drop (lines.flatMap (fun l => l ++ [10])).length,
          p := 0, line := [], parsed := [] }
        (scratch0.drop (lines.flatMap (fun l => l ++ [10])).length) hl hlen hnl
        (by simp) (by simp) rfl (by omega)
      simp only [process_downloaded_servers_file, hns, if_false, read_loop, hpos, hrun,
        Run.andThen, parsed_lines, List.nil_append]
  · intro hfull
    have hl : lines ≠ [] := by
      intro h
      subst h
      simp [CONFIG_DOWNLOAD_CLIENT_BUF_SIZE] at hfull
    have hrun := feed_loop_lines CONFIG_DOWNLOAD_CLIENT_BUF_SIZE (le_refl _) lines
      (CONFIG_DOWNLOAD_CLIENT_BUF_SIZE + 1)
      { scratch_buf := lines.flatMap (fun l => l ++ [10]), p := 0, line := [], parsed := [] }
      [] hl hlen hnl (by simp) (by simp [hfull]) rfl (by omega)
    simp only [process_downloaded_config_file, hrun, Run.andThen, parsed_lines,
      List.nil_append]

/-- The line feeder run on eight lines of 255 bytes, which fill `scratch_buf`. -/
theorem line_feeder_dispatches_short_lines_witness :
    (∀ l ∈ List.replicate 8 (List.replicate 255 97), l.length < 510) ∧
    (∀ l ∈ List.replicate 8 (List.replicate 255 97), 10 ∉ l) ∧
    ((List.replicate 8 (List.replicate 255 97)).flatMap (fun l => l ++ [10])).length =
      CONFIG_DOWNLOAD_CLIENT_BUF_SIZE ∧
    parsed_lines (process_downloaded_servers_file
        (some (0, [(List.replicate 8 (List.replicate 255 97)).flatMap (fun l => l ++ [10])]))
        scratch_zero) =
      some ((List.replicate 8 (List.replicate 255 97)).map (fun l => l ++ [10, 0])) ∧
    parsed_lines (process_downloaded_config_file
        ((List.replicate 8 (List.replicate 255 97)).flatMap (fun l => l ++ [10]))) =
      some ((List.replicate 8 (List.replicate 255 97)).map (fun l => l ++ [10, 0])) :=
  have hlen : ∀ l ∈ List.replicate 8 (List.replicate 255 97), l.length < 510 :=
    fun l hl => by rw [List.eq_of_mem_replicate hl, List.length_replicate]; decide
  have hnl : ∀ l ∈ List.replicate 8 (List.replicate 255 97), 10 ∉ l :=
    fun l hl h => by
      rw [List.eq_of_mem_replicate hl] at h
      exact absurd (List.eq_of_mem_replicate h) (by decide)
  have hfull : ((List.replicate 8 (List.replicate 255 97)).flatMap
      (fun l => l ++ [10])).length = CONFIG_DOWNLOAD_CLIENT_BUF_SIZE := by
    rw [length_flatMap_replicate_lines, List.length_replicate]; decide
  have h := line_feeder_dispatches_short_lines (List.replicate 8 (List.replicate 255 97))
    scratch_zero 0 (le_refl 0) hlen hnl (le_of_eq hfull)
  ⟨hlen, hnl, hfull, h.1, h.2 hfull⟩

/-- Evaluation for C5: for a declared size of 51200 bytes the preamble announces
51408 bytes while midamble (155), body and postamble (46) make 51401; for no
declared size below `2 ^ 32` do the two agree. -/
theorem content_length_differs_from_bytes_sent :
    content_length_arg 51200 = 51408 ∧ bytes_after_preamble 51200 = 51401 ∧
    (lit POST_HTTPS_TEMPLATE_MIDAMBLE).length = 155 ∧
    (lit POST_HTTPS_TEMPLATE_POSTAMBLE).length = 46 ∧
    ∀ file_size : Nat, file_size < 2 ^ 32 →
      content_length_arg file_size ≠ (bytes_after_preamble file_size : Int) := by
  have hm : (lit POST_HTTPS_TEMPLATE_MIDAMBLE).length = 155 := by decide!
  have hp : (lit POST_HTTPS_TEMPLATE_POSTAMBLE).length = 46 := by decide!
  refine ⟨by decide, by simp [bytes_after_preamble, hm, hp], hm, hp, ?_⟩
  intro file_size hlt
  simp only [content_length_arg, bytes_after_preamble, hm, hp]
  split_ifs <;> omega

/-- Fragments that keep the running total within the limit are all answered
with `0`; the counter then holds the total and nothing has been reported. -/
theorem speed_test_fragments_within_limit (declared : Nat) (ls : List Nat) :
    ∀ s : SpeedTest, s.downloaded + ls.sum ≤ DOWNLOAD_LIMIT →
      (speed_test_fragments declared ls s).1 = List.replicate ls.length 0 ∧
      (speed_test_fragments declared ls s).2.downloaded = s.downloaded + ls.sum ∧
      (speed_test_fragments declared ls s).2.reported = s.reported := by
  induction ls with
  | nil => intro s _; simp [speed_test_fragments]
  | cons l ls ih =>
    intro s h
    simp only [List.sum_cons] at h
    have hlim : DOWNLOAD_LIMIT = 51200 := by decide
    have hmod : (s.downloaded + l) % SIZE_MAX_PLUS_ONE = s.downloaded + l := by
      apply Nat.mod_eq_of_lt
      simp only [SIZE_MAX_PLUS_ONE]
      omega
    have hmod0 : s.downloaded % SIZE_MAX_PLUS_ONE = s.downloaded := by
      apply Nat.mod_eq_of_lt
      simp only [SIZE_MAX_PLUS_ONE]
      omega
    have hle : ¬ (s.downloaded + l > DOWNLOAD_LIMIT) := by omega
    have hstep : callback_for_speed_test declared
        (download_client_evt.DOWNLOAD_CLIENT_EVT_FRAGMENT l) s =
        (0, { (if s.downloaded = 0 then
                ({ s with file_size := declared, downloaded := s.downloaded } : SpeedTest)
              else s) with downloaded := s.downloaded + l }) := by
      by_cases h0 : s.downloaded = 0
      · have hl : l % SIZE_MAX_PLUS_ONE = l := by simpa [h0] using hmod
        have hle0 : ¬ (DOWNLOAD_LIMIT < l) := by omega
        simp [callback_for_speed_test, h0, hl, hle0]
      · simp [callback_for_speed_test, h0, hmod, hle]
    have hrec := ih { (if s.downloaded = 0 then
                ({ s with file_size := declared, downloaded := s.downloaded } : SpeedTest)
              else s) with downloaded := s.downloaded + l } (by simp only; omega)
    simp only [speed_test_fragments, hstep, List.length_cons, List.replicate_succ,
      List.sum_cons]
    refine ⟨by rw [hrec.1], by rw [hrec.2.1]; simp only; omega, ?_⟩
    rw [hrec.2.2]
    split_ifs <;> rfl

theorem speed_test_fragments_append (declared : Nat) (l1 l2 : List Nat) :
    ∀ s : SpeedTest,
      speed_test_fragments declared (l1 ++ l2) s =
        ((speed_test_fragments declared l1 s).1 ++
          (speed_test_fragments declared l2 (speed_test_fragments declared l1 s).2).1,
         (speed_test_fragments declared l2 (speed_test_fragments declared l1 s).2).2) := by
  induction l1 with
  | nil => intro s; simp [speed_test_fragments]
  | cons a l1 ih => intro s; simp [speed_test_fragments, ih]

/-- The callback on a fragment that does not wrap the 32-bit counter, from a
state whose counter is within the limit. -/
theorem callback_for_speed_test_fragment (declared : Nat) (s : SpeedTest) (len : Nat)
    (hs : s.downloaded ≤ DOWNLOAD_LIMIT) (hlen : len + DOWNLOAD_LIMIT < SIZE_MAX_PLUS_ONE) :
    (callback_for_speed_test declared
        (download_client_evt.DOWNLOAD_CLIENT_EVT_FRAGMENT len) s).1 =
      (if s.downloaded + len > DOWNLOAD_LIMIT then 1 else 0) ∧
    (s.downloaded + len > DOWNLOAD_LIMIT →
      (callback_for_speed_test declared
        (download_client_evt.DOWNLOAD_CLIENT_EVT_FRAGMENT len) s).2.reported =
        s.reported ++ [s.downloaded + len]) := by
  have hmod : (s.downloaded + len) % SIZE_MAX_PLUS_ONE = s.downloaded + len := by
    apply Nat.mod_eq_of_lt
    omega
  have hmod0 : (0 + len) % SIZE_MAX_PLUS_ONE = len := by
    rw [Nat.zero_add]
    apply Nat.mod_eq_of_lt
    omega
  by_cases h0 : s.downloaded = 0
  · simp only [h0, Nat.zero_add] at hmod ⊢
    by_cases hgt : len > DOWNLOAD_LIMIT
    · simp [callback_for_speed_test, h0, hmod, hgt]
    · simp [callback_for_speed_test, h0, hmod, hgt]
  · by_cases hgt : s.downloaded + len > DOWNLOAD_LIMIT
    · simp [callback_for_speed_test, h0, hmod, hgt]
    · simp [callback_for_speed_test, h0, hmod, hgt]

/-- Counterexample for C8: 25 fragments of 2048 bytes sum to exactly
`DOWNLOAD_LIMIT`, yet the callback answers every one of them, the last included,
with `0` and reports no speed. -/
theorem callback_for_speed_test_exact_limit_counterexample :
    (List.replicate 25 2048).sum = DOWNLOAD_LIMIT ∧
    (speed_test_fragments 12250000 (List.replicate 25 2048) speed_test_init).1 =
      List.replicate 25 0 ∧
    (speed_test_fragments 12250000 (List.replicate 25 2048) speed_test_init).2.reported =
      [] := by
  decide!

/-- C8 (amended): for every sequence of download fragments whose lengths sum to
exactly `DOWNLOAD_LIMIT`, `callback_for_speed_test` answers `0` on every
fragment, the completing one included, and reports nothing; the stop signal
comes with the next non-empty fragment, and the byte count reported then is the
running total, which is above the ceiling. -/
theorem callback_for_speed_test_exact_limit (declared : Nat) (ls : List Nat) (next : Nat)
    (hsum : ls.sum = DOWNLOAD_LIMIT) (hpos : 0 < next)
    (hnext : next + DOWNLOAD_LIMIT < SIZE_MAX_PLUS_ONE) :
    (speed_test_fragments declared ls speed_test_init).1 = List.replicate ls.length 0 ∧
    (speed_test_fragments declared ls speed_test_init).2.downloaded = DOWNLOAD_LIMIT ∧
    (speed_test_fragments declared ls speed_test_init).2.reported = [] ∧
    (callback_for_speed_test declared (download_client_evt.DOWNLOAD_CLIENT_EVT_FRAGMENT next)
      (speed_test_fragments declared ls speed_test_init).2).1 = 1 ∧
    (callback_for_speed_test declared (download_client_evt.DOWNLOAD_CLIENT_EVT_FRAGMENT next)
      (speed_test_fragments declared ls speed_test_init).2).2.reported =
        [DOWNLOAD_LIMIT + next] := by
  obtain ⟨h1, h2, h3⟩ := speed_test_fragments_within_limit declared ls speed_test_init
    (by simp [speed_test_init, hsum])
  have hd : (speed_test_fragments declared ls speed_test_init).2.downloaded = DOWNLOAD_LIMIT := by
    rw [h2]; simp [speed_test_init, hsum]
  have hgt : (speed_test_fragments declared ls speed_test_init).2.downloaded + next >
      DOWNLOAD_LIMIT := by omega
  obtain ⟨h4, h5⟩ := callback_for_speed_test_fragment declared
    (speed_test_fragments declared ls speed_test_init).2 next (by omega) hnext
  refine ⟨h1, hd, by rw [h3]; rfl, by rw [h4, if_pos hgt], ?_⟩
  rw [h5 hgt, h3, hd]
  rfl

/-- The amended C8 on 25 fragments of 2048 bytes followed by one more. -/
theorem callback_for_speed_test_exact_limit_witness :
    (List.replicate 25 2048).sum = DOWNLOAD_LIMIT ∧ 0 < 2048 ∧
    2048 + DOWNLOAD_LIMIT < SIZE_MAX_PLUS_ONE ∧
    (speed_test_fragments 12250000 (List.replicate 25 2048) speed_test_init).1 =
      List.replicate (List.replicate 25 2048).length 0 ∧
    (speed_test_fragments 12250000 (List.replicate 25 2048) speed_test_init).2.downloaded =
      DOWNLOAD_LIMIT ∧
    (speed_test_fragments 12250000 (List.replicate 25 2048) speed_test_init).2.reported = [] ∧
    (callback_for_speed_test 12250000 (download_client_evt.DOWNLOAD_CLIENT_EVT_FRAGMENT 2048)
      (speed_test_fragments 12250000 (List.replicate 25 2048) speed_test_init).2).1 = 1 ∧
    (callback_for_speed_test 12250000 (download_client_evt.DOWNLOAD_CLIENT_EVT_FRAGMENT 2048)
      (speed_test_fragments 12250000 (List.replicate 25 2048) speed_test_init).2).2.reported =
        [DOWNLOAD_LIMIT + 2048] :=
  ⟨by decide, by decide, by decide,
    callback_for_speed_test_exact_limit 12250000 (List.replicate 25 2048) 2048
      (by decide) (by decide) (by decide)⟩

/-- C9: for every sequence of fragment events delivered to
`callback_for_speed_test` from a zero counter (fragment lengths that do not wrap
the 32-bit counter) and for every declared file size, the callback returns `0`
on each fragment while the cumulative byte count does not exceed
`DOWNLOAD_LIMIT` and returns `1` on the first fragment that makes the
cumulative count exceed it; the returned values are the same for any other
declared file size. -/
theorem callback_for_speed_test_stops_once_exceeded (declared declared2 : Nat)
    (pre : List Nat) (len : Nat) (hpre : pre.sum ≤ DOWNLOAD_LIMIT)
    (hlen : len + DOWNLOAD_LIMIT < SIZE_MAX_PLUS_ONE) :
    (speed_test_fragments declared (pre ++ [len]) speed_test_init).1 =
      List.replicate pre.length 0 ++ [if pre.sum + len > DOWNLOAD_LIMIT then 1 else 0] ∧
    (speed_test_fragments declared2 (pre ++ [len]) speed_test_init).1 =
      (speed_test_fragments declared (pre ++ [len]) speed_test_init).1 := by
  have key : ∀ d : Nat, (speed_test_fragments d (pre ++ [len]) speed_test_init).1 =
      List.replicate pre.length 0 ++ [if pre.sum + len > DOWNLOAD_LIMIT then 1 else 0] := by
    intro d
    obtain ⟨h1, h2, _⟩ := speed_test_fragments_within_limit d pre speed_test_init
      (by simpa [speed_test_init] using hpre)
    have hd : (speed_test_fragments d pre speed_test_init).2.downloaded = pre.sum := by
      rw [h2]; simp [speed_test_init]
    obtain ⟨h4, _⟩ := callback_for_speed_test_fragment d
      (speed_test_fragments d pre speed_test_init).2 len (by omega) hlen
    rw [speed_test_fragments_append, h1]
    simp only [speed_test_fragments, h4, hd]
  exact ⟨key declared, by rw [key declared2, key declared]⟩

/-- C9 on 25 fragments of 2048 bytes followed by a fragment of one byte. -/
theorem callback_for_speed_test_stops_once_exceeded_witness :
    (List.replicate 25 2048).sum ≤ DOWNLOAD_LIMIT ∧ 1 + DOWNLOAD_LIMIT < SIZE_MAX_PLUS_ONE ∧
    (speed_test_fragments 12250000 (List.replicate 25 2048 ++ [1]) speed_test_init).1 =
      List.replicate (List.replicate 25 2048).length 0 ++
        [if (List.replicate 25 2048).sum + 1 > DOWNLOAD_LIMIT then 1 else 0] ∧
    (speed_test_fragments 0 (List.replicate 25 2048 ++ [1]) speed_test_init).1 =
      (speed_test_fragments 12250000 (List.replicate 25 2048 ++ [1]) speed_test_init).1 :=
  ⟨by decide, by decide,
    callback_for_speed_test_stops_once_exceeded 12250000 0 (List.replicate 25 2048) 1
      (by decide) (by decide)⟩

/-- While the counter stays within the declared size, `callback_upload` answers
each request with `0` and the first 1024 bytes of `scratch_buf`. -/
theorem callback_upload_requests (k : Nat) :
    ∀ s : UploadApp, s.uploaded + 1024 * k ≤ UPLOAD_FILE_SIZE →
      fragment_answers callback_upload k s =
        List.replicate k (0, s.scratch_buf.take 1024) ∧
      (app_after_requests callback_upload k s).uploaded = s.uploaded + 1024 * k ∧
      (app_after_requests callback_upload k s).scratch_buf = s.scratch_buf ∧
      (app_after_requests callback_upload k s).reported = s.reported := by
  induction k with
  | zero => intro s _; simp [fragment_answers, app_after_requests]
  | succ k ih =>
    intro s h
    have hsz : UPLOAD_FILE_SIZE = 51200 := by decide
    have hlt : s.uploaded < UPLOAD_FILE_SIZE := by omega
    have hmod : (s.uploaded + 1024) % SIZE_MAX_PLUS_ONE = s.uploaded + 1024 := by
      apply Nat.mod_eq_of_lt
      simp only [SIZE_MAX_PLUS_ONE]
      omega
    have hstep : callback_upload s fragment_request =
        (0, { fragment_request with fragment := s.scratch_buf.take 1024 },
          { s with uploaded := s.uploaded + 1024,
                   count := (s.count + 1) % SIZE_MAX_PLUS_ONE }) := by
      simp [callback_upload, fragment_request, hlt, hmod]
    obtain ⟨h1, h2, h3, h4⟩ := ih
      ({ s with uploaded := s.uploaded + 1024, count := (s.count + 1) % SIZE_MAX_PLUS_ONE })
      (by simp only; omega)
    simp only [fragment_answers, app_after_requests, hstep, List.replicate_succ]
    refine ⟨by rw [h1], by rw [h2]; simp only; omega, by rw [h3], by rw [h4]⟩

theorem fragment_answers_add {σ : Type} (callback : upload_client_callback_t σ) (m n : Nat) :
    ∀ app : σ, fragment_answers callback (m + n) app =
      fragment_answers callback m app ++
        fragment_answers callback n (app_after_requests callback m app) := by
  induction m with
  | zero => intro app; simp [fragment_answers, app_after_requests]
  | succ m ih =>
    intro app
    rw [Nat.succ_add]
    simp [fragment_answers, app_after_requests, ih]

theorem app_after_requests_add {σ : Type} (callback : upload_client_callback_t σ)
    (m n : Nat) : ∀ app : σ, app_after_requests callback (m + n) app =
      app_after_requests callback n (app_after_requests callback m app) := by
  induction m with
  | zero => intro app; simp [app_after_requests]
  | succ m ih =>
    intro app
    rw [Nat.succ_add]
    simp [app_after_requests, ih]

/-- C7: starting from a zero byte counter, `callback_upload` answers successive
fragment requests with `0` and a 1024-byte fragment exactly 50 times and answers
the 51st request with `1`; the fragments supplied sum to `UPLOAD_FILE_SIZE`
(51200 bytes), which is the total printed on `Done`. -/
theorem callback_upload_supplies_declared_size (s : UploadApp) (h0 : s.uploaded = 0)
    (hbuf : 1024 ≤ s.scratch_buf.length) :
    fragment_answers callback_upload 51 s =
      List.replicate 50 (0, s.scratch_buf.take 1024) ++ [(1, [])] ∧
    (s.scratch_buf.take 1024).length = 1024 ∧
    ((List.replicate 50 (s.scratch_buf.take 1024)).map List.length).sum = UPLOAD_FILE_SIZE ∧
    UPLOAD_FILE_SIZE = 51200 ∧
    (callback_upload (app_after_requests callback_upload 51 s) evt_done).2.2.reported =
      s.reported ++ [UPLOAD_FILE_SIZE] := by
  have hsz : UPLOAD_FILE_SIZE = 51200 := by decide
  obtain ⟨h1, h2, h3, h4⟩ := callback_upload_requests 50 s (by omega)
  have hlen : (s.scratch_buf.take 1024).length = 1024 := by
    rw [List.length_take]; omega
  have hnot : ¬ ((app_after_requests callback_upload 50 s).uploaded < UPLOAD_FILE_SIZE) := by
    rw [h2]; omega
  have hlast : callback_upload (app_after_requests callback_upload 50 s) fragment_request =
      (1, fragment_request, { app_after_requests callback_upload 50 s with count := 0 }) := by
    simp [callback_upload, fragment_request, hnot]
  have h51 : app_after_requests callback_upload 51 s =
      { app_after_requests callback_upload 50 s with count := 0 } := by
    rw [show (51 : Nat) = 50 + 1 from rfl, app_after_requests_add]
    show (callback_upload (app_after_requests callback_upload 50 s) fragment_request).2.2 = _
    rw [hlast]
  refine ⟨?_, hlen, ?_, hsz, ?_⟩
  · rw [show (51 : Nat) = 50 + 1 from rfl, fragment_answers_add, h1]
    show _ ++ [((callback_upload (app_after_requests callback_upload 50 s) fragment_request).1,
      (callback_upload (app_after_requests callback_upload 50 s)
        fragment_request).2.1.fragment)] = _
    rw [hlast]
    rfl
  · simp [List.map_replicate, List.sum_replicate, hlen, hsz]
  · rw [h51]
    simp [callback_upload, evt_done, h2, h4, h0, hsz]

/-- C7 on the state `main` sets up: zero counters, `scratch_buf` filled with
`0x5A`. -/
theorem callback_upload_supplies_declared_size_witness :
    upload_app_init.uploaded = 0 ∧ 1024 ≤ upload_app_init.scratch_buf.length ∧
    fragment_answers callback_upload 51 upload_app_init =
      List.replicate 50 (0, upload_app_init.scratch_buf.take 1024) ++ [(1, [])] ∧
    (upload_app_init.scratch_buf.take 1024).length = 1024 ∧
    ((List.replicate 50 (upload_app_init.scratch_buf.take 1024)).map List.length).sum =
      UPLOAD_FILE_SIZE ∧
    UPLOAD_FILE_SIZE = 51200 ∧
    (callback_upload (app_after_requests callback_upload 51 upload_app_init)
      evt_done).2.2.reported = upload_app_init.reported ++ [UPLOAD_FILE_SIZE] :=
  ⟨rfl, by simp only [upload_app_init, List.length_replicate]; decide,
    callback_upload_supplies_declared_size upload_app_init rfl
      (by simp only [upload_app_init, List.length_replicate]; decide)⟩

/-- When every `send` accepts at least one byte, `socket_send` returns `0` having
put exactly the data on the wire. -/
theorem socket_send_loop_all (send : Nat → Nat → Int) (errno : Int)
    (hsend : ∀ w len : Nat, 0 < len → 0 < send w len) (fuel : Nat) :
    ∀ (data wire : List Nat), data.length ≤ fuel →
      socket_send_loop send errno fuel data wire = Run.done (0, wire ++ data) := by
  induction fuel with
  | zero =>
    intro data wire h
    have : data = [] := List.length_eq_zero.mp (Nat.le_zero.mp h)
    subst this
    simp [socket_send_loop]
  | succ fuel ih =>
    intro data wire h
    cases data with
    | nil => simp [socket_send_loop]
    | cons b bs =>
      have hpos := hsend wire.length (b :: bs).length (by simp)
      have hnot : ¬ (send wire.length (b :: bs).length ≤ 0) := not_le.mpr hpos
      have hn : 0 < (send wire.length (b :: bs).length).toNat := by omega
      simp only [socket_send_loop, hnot, if_false]
      rw [ih _ _ (by
        rw [List.length_drop]
        simp only [List.length_cons] at h hn ⊢
        omega)]
      rw [List.append_assoc, List.take_append_drop]

theorem socket_send_all (send : Nat → Nat → Int) (errno : Int)
    (hsend : ∀ w len : Nat, 0 < len → 0 < send w len) (data wire : List Nat) :
    socket_send send errno data wire = Run.done (0, wire ++ data) :=
  socket_send_loop_all send errno hsend data.length data wire (le_refl _)

theorem lit_length (text : String) : (lit text).length = text.length := by
  cases text
  simp only [lit, String.toList, List.length_map, String.length]

/-- A text shorter than the buffer is sent whole: the first `len` bytes of what
`snprintf` left are the text. -/
theorem snprintf_buf_take (text : String)
    (h : text.length < CONFIG_DOWNLOAD_CLIENT_BUF_SIZE) :
    (snprintf_buf text).take text.length = lit text := by
  have hl := lit_length text
  have h1 : (lit text).take (CONFIG_DOWNLOAD_CLIENT_BUF_SIZE - 1) = lit text :=
    List.take_of_length_le (by omega)
  rw [snprintf_buf, h1, ← hl, List.take_left']
  rfl

theorem midamble_length : POST_HTTPS_TEMPLATE_MIDAMBLE.length = 155 := by decide!

theorem postamble_length : POST_HTTPS_TEMPLATE_POSTAMBLE.length = 46 := by decide!

/-- One activation of `upload_thread` against a callback that supplies the
fragments `frags` and then answers non-zero, when every `send` succeeds. -/
theorem upload_thread_sends_fragments {σ : Type} (callback : upload_client_callback_t σ)
    (send : Nat → Nat → Int) (errno : Int)
    (hsend : ∀ w len : Nat, 0 < len → 0 < send w len) (frags : List (List Nat)) :
    ∀ (fuel : Nat) (w : UploadWorld σ) (rc : Int) (last : List Nat),
      fragment_answers callback (frags.length + 1) w.app =
        frags.map (fun f => ((0 : Int), f)) ++ [(rc, last)] →
      rc ≠ 0 → frags.length < fuel →
      ∃ reqs : List (upload_client_evt × Nat),
        upload_thread callback send errno fuel w =
          Run.done
            { app := (callback (app_after_requests callback (frags.length + 1) w.app)
                evt_done).2.2,
              wire := w.wire ++ frags.flatten ++ lit POST_HTTPS_TEMPLATE_POSTAMBLE,
              events := w.events ++ reqs ++
                [(evt_done,
                  (w.wire ++ frags.flatten ++ lit POST_HTTPS_TEMPLATE_POSTAMBLE).length)] } ∧
        reqs.length = frags.length + 1 ∧ ∀ e ∈ reqs, e.1 = fragment_request := by
  induction frags with
  | nil =>
    intro fuel w rc last hans hrc hfuel
    obtain ⟨f, rfl⟩ : ∃ f, fuel = f + 1 := ⟨fuel - 1, by simp at hfuel; omega⟩
    simp only [List.length_nil, Nat.zero_add, fragment_answers, List.map_nil, List.nil_append,
      List.cons.injEq, Prod.mk.injEq, and_true] at hans
    have hr : ¬ ((callback w.app fragment_request).1 = 0) := by rw [hans.1]; exact hrc
    have hlen : ¬ (POST_HTTPS_TEMPLATE_POSTAMBLE.length > CONFIG_DOWNLOAD_CLIENT_BUF_SIZE) := by
      rw [postamble_length]; decide
    have htake := snprintf_buf_take POST_HTTPS_TEMPLATE_POSTAMBLE
      (by rw [postamble_length]; decide)
    refine ⟨[(fragment_request, w.wire.length)], ?_, rfl, by simp⟩
    simp only [upload_thread, hr, if_false, hlen, htake, socket_send_all send errno hsend,
      Run.andThen, ne_eq, not_true_eq_false, UploadWorld.notify, List.flatten_nil,
      List.append_nil, List.length_nil, Nat.zero_add, app_after_requests, List.append_assoc]
  | cons f fs ih =>
    intro fuel w rc last hans hrc hfuel
    obtain ⟨k, rfl⟩ : ∃ k, fuel = k + 1 := ⟨fuel - 1, by simp at hfuel; omega⟩
    simp only [List.length_cons, fragment_answers, List.map_cons, List.cons_append,
      List.cons.injEq, Prod.mk.injEq] at hans
    obtain ⟨⟨hr, hf⟩, htail⟩ := hans
    obtain ⟨reqs, hrun, hcount, hreqs⟩ := ih k
      { app := (callback w.app fragment_request).2.2, wire := w.wire ++ f,
        events := w.events ++ [(fragment_request, w.wire.length)] } rc last htail hrc
      (by simp only [List.length_cons] at hfuel; omega)
    refine ⟨(fragment_request, w.wire.length) :: reqs, ?_, by simp [hcount], ?_⟩
    · simp only [upload_thread, hr, if_true, hf, socket_send_all send errno hsend,
        Run.andThen, ne_eq, not_true_eq_false, if_false, hrun, List.length_cons,
        app_after_requests, List.flatten_cons, List.append_assoc, List.singleton_append,
        List.cons_append, List.nil_append]
    · intro e he
      rcases List.mem_cons.mp he with he | he
      · rw [he]
      · exact hreqs e he

/-- C6: for every application callback that answers `n` fragment requests with
`0` (supplying the fragments `frags`) and then answers non-zero, on a connected
stream client whose request fits the buffer and when every send succeeds, the
bytes written to the socket by `upload_client_start` followed by the upload
thread are exactly preamble, midamble, the fragments in order, postamble; the
events delivered are the fragment requests followed by exactly one `Done`,
delivered when the whole postamble is on the wire. -/
theorem upload_run_sends_framed_body {σ : Type}
    (url_parse_host url_parse_file : String → Nat → Except Int String)
    (send : Nat → Nat → Int) (errno : Int) (callback : upload_client_callback_t σ)
    (client : upload_client) (file : String) (from_ file_size : Nat) (app : σ)
    (frags : List (List Nat)) (rc : Int) (last : List Nat) (host_text file_text : String)
    (fuel : Nat)
    (hfd : 0 ≤ client.fd)
    (hproto : client.proto = Proto.IPPROTO_TCP ∨ client.proto = Proto.IPPROTO_TLS_1_2)
    (hhost : url_parse_host client.host HOSTNAME_SIZE = Except.ok host_text)
    (hfile : url_parse_file file FILENAME_SIZE = Except.ok file_text)
    (hfit : (POST_HTTPS_TEMPLATE_PREAMBLE file_text host_text
      (content_length_arg file_size)).length < CONFIG_DOWNLOAD_CLIENT_BUF_SIZE)
    (hsend : ∀ w len : Nat, 0 < len → 0 < send w len)
    (hans : fragment_answers callback (frags.length + 1) app =
      frags.map (fun f => ((0 : Int), f)) ++ [(rc, last)])
    (hrc : rc ≠ 0) (hfuel : frags.length < fuel) :
    ∃ (reqs : List (upload_client_evt × Nat)) (app1 : σ),
      upload_run url_parse_host url_parse_file send errno callback client file from_
          file_size app fuel =
        Run.done (0,
          { app := app1,
            wire := lit (POST_HTTPS_TEMPLATE_PREAMBLE file_text host_text
                (content_length_arg file_size)) ++
              lit POST_HTTPS_TEMPLATE_MIDAMBLE ++ frags.flatten ++
              lit POST_HTTPS_TEMPLATE_POSTAMBLE,
            events := reqs ++
              [(evt_done,
                (lit (POST_HTTPS_TEMPLATE_PREAMBLE file_text host_text
                    (content_length_arg file_size)) ++
                  lit POST_HTTPS_TEMPLATE_MIDAMBLE ++ frags.flatten ++
                  lit POST_HTTPS_TEMPLATE_POSTAMBLE).length)] }) ∧
      reqs.length = frags.length + 1 ∧ ∀ e ∈ reqs, e.1 = fragment_request := by
  have hnfd : ¬ (client.fd < 0) := not_lt.mpr hfd
  have hlen1 : ¬ ((POST_HTTPS_TEMPLATE_PREAMBLE file_text host_text
      (content_length_arg file_size)).length > CONFIG_DOWNLOAD_CLIENT_BUF_SIZE) := by omega
  have hlen2 : ¬ (POST_HTTPS_TEMPLATE_MIDAMBLE.length > CONFIG_DOWNLOAD_CLIENT_BUF_SIZE) := by
    rw [midamble_length]; decide
  have htake1 := snprintf_buf_take _ hfit
  have htake2 := snprintf_buf_take POST_HTTPS_TEMPLATE_MIDAMBLE
    (by rw [midamble_length]; decide)
  have hpost : ∀ c : upload_client, c.host = client.host → c.file = file →
      c.file_size = file_size →
      http_post_request_send url_parse_host url_parse_file send errno c [] =
      Run.done (0, lit (POST_HTTPS_TEMPLATE_PREAMBLE file_text host_text
          (content_length_arg file_size)) ++ lit POST_HTTPS_TEMPLATE_MIDAMBLE) := by
    intro c h1 h2 h3
    unfold http_post_request_send
    rw [h1, h2, h3, hhost, hfile]
    dsimp only
    rw [if_neg hlen1, htake1, socket_send_all send errno hsend]
    dsimp only [Run.andThen]
    rw [if_neg (by simp), if_neg hlen2, htake2, socket_send_all send errno hsend]
    dsimp only [Run.andThen]
    rw [if_neg (by simp)]
    rfl
  have hreq : request_send url_parse_host url_parse_file send errno
      { client with file := file, file_size := file_size, progress := from_, offset := 0,
                    has_header := false } [] =
      Run.done (0, lit (POST_HTTPS_TEMPLATE_PREAMBLE file_text host_text
          (content_length_arg file_size)) ++ lit POST_HTTPS_TEMPLATE_MIDAMBLE) := by
    rcases hproto with hp | hp
    · simp only [request_send, hp]
      exact hpost _ rfl rfl rfl
    · simp only [request_send, hp]
      exact hpost _ rfl rfl rfl
  obtain ⟨reqs, hrun, hcount, hreqs⟩ := upload_thread_sends_fragments callback send errno
    hsend frags fuel
    { app := app,
      wire := lit (POST_HTTPS_TEMPLATE_PREAMBLE file_text host_text
          (content_length_arg file_size)) ++ lit POST_HTTPS_TEMPLATE_MIDAMBLE,
      events := [] } rc last hans hrc hfuel
  refine ⟨reqs, (callback (app_after_requests callback (frags.length + 1) app) evt_done).2.2,
    ?_, hcount, hreqs⟩
  simp only [upload_run, upload_client_start, hnfd, if_false, hreq, Run.andThen, ne_eq,
    not_true_eq_false, if_true, hrun, List.nil_append]

/-- C6 on a callback that supplies the fragments `A` and `B`. -/
theorem upload_run_sends_framed_body_witness :
    0 ≤ client_connected.fd ∧
    fragment_answers two_fragment_callback ([[65], [66]].length + 1) 0 =
      [[65], [66]].map (fun f => ((0 : Int), f)) ++ [(1, [])] ∧
    ∃ (reqs : List (upload_client_evt × Nat)) (app1 : Nat),
      upload_run url_parse_host_example url_parse_file_example send_everything 104
          two_fragment_callback client_connected
          "http://speedtest.ccvn.com/speedtest/upload.php" 0 2 0 3 =
        Run.done (0,
          { app := app1,
            wire := lit (POST_HTTPS_TEMPLATE_PREAMBLE "speedtest/upload.php"
                "speedtest.ccvn.com" (content_length_arg 2)) ++
              lit POST_HTTPS_TEMPLATE_MIDAMBLE ++ [[65], [66]].flatten ++
              lit POST_HTTPS_TEMPLATE_POSTAMBLE,
            events := reqs ++
              [(evt_done,
                (lit (POST_HTTPS_TEMPLATE_PREAMBLE "speedtest/upload.php"
                    "speedtest.ccvn.com" (content_length_arg 2)) ++
                  lit POST_HTTPS_TEMPLATE_MIDAMBLE ++ [[65], [66]].flatten ++
                  lit POST_HTTPS_TEMPLATE_POSTAMBLE).length)] }) ∧
      reqs.length = [[65], [66]].length + 1 ∧ ∀ e ∈ reqs, e.1 = fragment_request :=
  ⟨by decide, by decide,
    upload_run_sends_framed_body url_parse_host_example url_parse_file_example
      send_everything 104 two_fragment_callback client_connected
      "http://speedtest.ccvn.com/speedtest/upload.php" 0 2 0 [[65], [66]] 1 []
      "speedtest.ccvn.com" "speedtest/upload.php" 3
      (by decide) (Or.inl rfl) rfl rfl (by decide!)
      (fun _ _ h => Int.ofNat_pos.mpr h) (by decide) (by decide) (by decide)⟩

/-- Evaluation for C10: for the host `speedtest.ccvn.com`, which names neither a
scheme nor a port, and a configuration with `sec_tag_array_sz = 0`,
`client_connect` opens a TLS socket, installs the (empty) tag list and connects
to port 443; whenever no scheme is found the protocol chosen is TLS, whatever
the configuration. -/
theorem client_connect_no_scheme_is_tls :
    client_no_security.config.sec_tag_array_sz = 0 ∧
    client_connect env_no_scheme client_no_security "speedtest.ccvn.com" Family.AF_INET =
      { err := 0, fd := 3, proto := Proto.IPPROTO_TLS_1_2,
        ops := [SockOp.socket Family.AF_INET SockType.SOCK_STREAM Proto.IPPROTO_TLS_1_2 3,
                SockOp.setsockopt 3 SockOpt.TLS_PEER_VERIFY,
                SockOp.setsockopt 3 SockOpt.TLS_SEC_TAG_LIST,
                SockOp.connect 3 443] } ∧
    ∀ (env : SocketEnv) (dl : upload_client) (host : String) (family : Family),
      env.url_parse_proto host = none →
      (client_connect env dl host family).proto = Proto.IPPROTO_TLS_1_2 := by
  refine ⟨rfl, by decide!, ?_⟩
  intro env dl host family h
  simp only [client_connect, h, sec_tag_array_not_null, if_true,
    apply_ite ConnectResult.proto, ite_self]

/-- Evaluation for C11: for the host `https://speedtest.ccvn.com`, whose
transport is TLS, and a configuration with an empty tag list
(`sec_tag_array_sz = 0`), `upload_client_connect` returns `0`: it creates a TLS
socket, installs the empty list and connects to port 443. -/
theorem upload_client_connect_tls_without_tags :
    client_no_security.config.sec_tag_array_sz = 0 ∧
    upload_client_connect lookup_ipv4 env_https (some client_no_security)
        (some "https://speedtest.ccvn.com") (some client_no_security.config) =
      { ret := 0,
        client := some { client_no_security with
          fd := 3, proto := Proto.IPPROTO_TLS_1_2, host := "https://speedtest.ccvn.com" },
        ops := [SockOp.socket Family.AF_INET SockType.SOCK_STREAM Proto.IPPROTO_TLS_1_2 3,
                SockOp.setsockopt 3 SockOpt.TLS_PEER_VERIFY,
                SockOp.setsockopt 3 SockOpt.TLS_SEC_TAG_LIST,
                SockOp.connect 3 443,
                SockOp.setsockopt 3 SockOpt.SO_RCVTIMEO] } := by
  decide!

/-- Evaluation for C12: when only setting the receive timeout fails,
`upload_client_connect` returns the error `-22` and leaves the client with the
open socket `fd = 3`; the socket is not closed. -/
theorem upload_client_connect_timeout_failure_keeps_socket :
    client_no_security.fd = -1 ∧
    upload_client_connect lookup_ipv4 env_timeout_fails (some client_no_security)
        (some "http://speedtest.ccvn.com") (some client_no_security.config) =
      { ret := -22,
        client := some { client_no_security with
          fd := 3, proto := Proto.IPPROTO_TCP, host := "http://speedtest.ccvn.com" },
        ops := [SockOp.socket Family.AF_INET SockType.SOCK_STREAM Proto.IPPROTO_TCP 3,
                SockOp.connect 3 80,
                SockOp.setsockopt 3 SockOpt.SO_RCVTIMEO] } := by
  decide!

/-- Evaluation for C13: when the socket accepts the request and then fails on the
first fragment (`errno` 104), the only event the callback sees is the fragment
request; no `UPLOAD_CLIENT_EVT_ERROR` is delivered. When the socket fails on the
postamble instead, the error event is delivered with its `error` field `0`. -/
theorem upload_run_fragment_send_failure_is_silent :
    events_delivered (upload_run url_parse_host_example url_parse_file_example
        (send_up_to request_length) 104 two_fragment_callback client_connected
        "http://speedtest.ccvn.com/speedtest/upload.php" 0 2 0 3) =
      some [fragment_request] ∧
    events_delivered (upload_run url_parse_host_example url_parse_file_example
        (send_up_to (request_length + 2)) 104 two_fragment_callback client_connected
        "http://speedtest.ccvn.com/speedtest/upload.php" 0 2 0 3) =
      some [fragment_request, fragment_request, fragment_request, evt_err] ∧
    evt_err.error = 0 := by
  decide!

/-- Evaluation for C14: whatever server was selected (here one whose host is
`speedtest.example.net`), the two URLs `main` composes name the fixed host
`speedtest.ccvn.com`. -/
theorem speed_test_urls_ignore_selected_server :
    speed_test_urls url_parse_host_other
        "http://speedtest.example.net:8080/speedtest/upload.php" =
      some ("http://speedtest.ccvn.com/speedtest/random3500x3500.jpg",
            "http://speedtest.ccvn.com/speedtest/upload.php") ∧
    "http://speedtest.ccvn.com/speedtest/random3500x3500.jpg" ≠
      "http://" ++ "speedtest.example.net" ++ "/speedtest/random3500x3500.jpg" ∧
    ∀ (url_parse_host : String → Nat → Except Int String) (closest_url : String),
      speed_test_urls url_parse_host closest_url = none ∨
      speed_test_urls url_parse_host closest_url =
        some ("http://speedtest.ccvn.com/speedtest/random3500x3500.jpg",
              "http://speedtest.ccvn.com/speedtest/upload.php") := by
  have hurls : ("http://" ++ "speedtest.ccvn.com" ++ "/speedtest/random3500x3500.jpg",
      "http://" ++ "speedtest.ccvn.com" ++ "/speedtest/upload.php") =
      (("http://speedtest.ccvn.com/speedtest/random3500x3500.jpg",
        "http://speedtest.ccvn.com/speedtest/upload.php") : String × String) := by decide!
  refine ⟨by simp only [speed_test_urls, url_parse_host_other, hurls], by decide!, ?_⟩
  intro url_parse_host closest_url
  unfold speed_test_urls
  rw [hurls]
  cases url_parse_host closest_url CONFIG_DOWNLOAD_CLIENT_BUF_SIZE with
  | error err => by_cases h : err < 0 <;> simp [h]
  | ok _ => simp

/-- Evaluation for C15: an attribute named `l` (a proper prefix of `lat`) sets the
client latitude, an attribute with the empty name overwrites the client `ip`;
in `calculate_distance` an attribute named `u` or the empty name overwrites the
pending record's `url`. -/
theorem prefix_names_are_recognized :
    (save_client_info atof_decimal xr_type_t.xr_type_attribute
        (some { cstr := lit "l=\"7\"", len := 1 }) (some (xr_of "7")) client_example).latitude
      = 7 ∧ client_example.latitude = 40 ∧
    (save_client_info atof_decimal xr_type_t.xr_type_attribute
        (some { cstr := lit "=\"7\"", len := 0 }) (some (xr_of "7")) client_example).ip
      = lit "7" ∧ client_example.ip = lit "203.0.113.5" ∧
    (calculate_distance atof_decimal planar_distance xr_type_t.xr_type_attribute
        (some { cstr := lit "u=\"7\"", len := 1 }) (some (xr_of "7"))
        (geo_init client_example)).server_data_tmp.url = lit "7" ∧
    (calculate_distance atof_decimal planar_distance xr_type_t.xr_type_attribute
        (some { cstr := lit "=\"7\"", len := 0 }) (some (xr_of "7"))
        (geo_init client_example)).server_data_tmp.url = lit "7" ∧
    (geo_init client_example).server_data_tmp.url = [] := by
  decide!

/-- One event handled by `calculate_distance` after the first completed record,
over any type with a comparison: `closest_server_data` stays as it is or is
replaced by a record with a strictly smaller distance. -/
theorem calculate_distance_step {D : Type} [LT D] [DecidableRel (fun a b : D => a < b)]
    (atof : List Nat → D) (hav : D → D → D → D → D) (st : GeoState D)
    (hst : st.first_time = false) (type : xr_type_t) (name val : Option xr_str_t) :
    ((calculate_distance atof hav type name val st).closest_server_data =
        st.closest_server_data ∨
      (calculate_distance atof hav type name val st).closest_server_data.distance <
        st.closest_server_data.distance) ∧
    (calculate_distance atof hav type name val st).first_time = false := by
  cases name with
  | none => simp [calculate_distance, hst]
  | some name =>
    cases val with
    | none => simp [calculate_distance, hst]
    | some val =>
      simp only [calculate_distance, hst, Bool.false_eq_true, if_false]
      split_ifs with h1 h2 h3 h4 h5
      all_goals first
        | exact ⟨Or.inl rfl, hst⟩
        | exact ⟨Or.inl rfl, rfl⟩
        | exact ⟨Or.inr h5, rfl⟩

/-- Counterexample for C16: after the record `n`, whose distance is NaN, the
first record is complete and `closest_server_data.distance` is NaN; after the
three further events of the record `a` it is NaN again, and NaN is not less than
or equal to NaN. -/
theorem calculate_distance_nan_distance_counterexample :
    (geo_feed atof_double planar_distance_double (record_events record_nan)
      (geo_init client_example_double)).first_time = false ∧
    (geo_feed atof_double planar_distance_double (record_events record_nan)
      (geo_init client_example_double)).closest_server_data.distance = double.nan ∧
    (geo_feed atof_double planar_distance_double (record_events record_a)
      (geo_feed atof_double planar_distance_double (record_events record_nan)
        (geo_init client_example_double))).closest_server_data.distance = double.nan ∧
    ¬ ((geo_feed atof_double planar_distance_double (record_events record_a)
        (geo_feed atof_double planar_distance_double (record_events record_nan)
          (geo_init client_example_double))).closest_server_data.distance ≤
      (geo_feed atof_double planar_distance_double (record_events record_nan)
        (geo_init client_example_double)).closest_server_data.distance) := by
  decide!

/-- C16 (amended): once a first record has been completed (`first_time = false`,
which every `lon` event establishes), each further event handled by
`calculate_distance`, whatever its type, name and value, leaves
`closest_server_data` as it is or replaces it by a record whose distance is
strictly smaller. So a distance that is not NaN is, after every further run of
events, less than or equal to its value before and not NaN, while a distance
that is NaN stays with its record for ever. -/
theorem calculate_distance_distance_non_increasing (atof : List Nat → double)
    (hav : double → double → double → double → double) (s : GeoState double)
    (h : s.first_time = false) :
    (∀ (type : xr_type_t) (name val : Option xr_str_t),
      ((calculate_distance atof hav type name val s).closest_server_data =
          s.closest_server_data ∨
        (calculate_distance atof hav type name val s).closest_server_data.distance <
          s.closest_server_data.distance) ∧
      (calculate_distance atof hav type name val s).first_time = false) ∧
    (∀ evs : List AttrEvent, s.closest_server_data.distance ≠ double.nan →
      (geo_feed atof hav evs s).closest_server_data.distance ≤
        s.closest_server_data.distance ∧
      (geo_feed atof hav evs s).closest_server_data.distance ≠ double.nan) ∧
    (∀ evs : List AttrEvent, s.closest_server_data.distance = double.nan →
      (geo_feed atof hav evs s).closest_server_data = s.closest_server_data) ∧
    (∀ (s0 : GeoState double) (t : List Nat) (val : xr_str_t),
      (calculate_distance atof hav xr_type_t.xr_type_attribute
        (some { cstr := lit "lon" ++ t, len := 3 }) (some val) s0).first_time = false) := by
  refine ⟨calculate_distance_step atof hav s h, ?_, ?_, ?_⟩
  · intro evs
    induction evs generalizing s with
    | nil => intro hn; exact ⟨double_le_refl _ hn, hn⟩
    | cons e es ih =>
      intro hn
      obtain ⟨h1, h2⟩ := calculate_distance_step atof hav s h e.type e.name e.val
      have hstep : (calculate_distance atof hav e.type e.name e.val s).closest_server_data.distance
            ≤ s.closest_server_data.distance ∧
          (calculate_distance atof hav e.type e.name e.val s).closest_server_data.distance ≠
            double.nan := by
        rcases h1 with h1 | h1
        · rw [h1]; exact ⟨double_le_refl _ hn, hn⟩
        · exact ⟨double_le_of_lt _ _ h1, (double_lt_not_nan _ _ h1).1⟩
      obtain ⟨h3, h4⟩ := ih (calculate_distance atof hav e.type e.name e.val s) h2 hstep.2
      exact ⟨double_le_trans _ _ _ h3 hstep.1, h4⟩
  · intro evs
    induction evs generalizing s with
    | nil => intro _; rfl
    | cons e es ih =>
      intro hn
      obtain ⟨h1, h2⟩ := calculate_distance_step atof hav s h e.type e.name e.val
      have hkeep : (calculate_distance atof hav e.type e.name e.val s).closest_server_data =
          s.closest_server_data := by
        rcases h1 with h1 | h1
        · exact h1
        · rw [hn] at h1
          exact absurd h1 (double_nan_not_lt _).1
      have h3 := ih (calculate_distance atof hav e.type e.name e.val s) h2
        (by rw [hkeep]; exact hn)
      exact h3.trans hkeep
  · intro s0 t val
    simp only [calculate_distance, strncmp_lon, strncmp_lon_url, strncmp_lon_lat, ne_eq,
      not_true_eq_false, if_false, if_true]
    split_ifs with h1 h2
    · rfl
    · simpa using h1
    · simpa using h1

/-- C16 (amended) on the state reached after the record `a`, for the events of
the record `b`, in `double`. -/
theorem calculate_distance_distance_non_increasing_witness :
    (geo_feed atof_double planar_distance_double (record_events record_a)
      (geo_init client_example_double)).first_time = false ∧
    (geo_feed atof_double planar_distance_double (record_events record_b)
        (geo_feed atof_double planar_distance_double (record_events record_a)
          (geo_init client_example_double))).closest_server_data.distance ≤
      (geo_feed atof_double planar_distance_double (record_events record_a)
        (geo_init client_example_double)).closest_server_data.distance ∧
    (geo_feed atof_double planar_distance_double (record_events record_b)
        (geo_feed atof_double planar_distance_double (record_events record_a)
          (geo_init client_example_double))).closest_server_data.distance ≠ double.nan :=
  ⟨by decide!,
    (calculate_distance_distance_non_increasing atof_double planar_distance_double
      (geo_feed atof_double planar_distance_double (record_events record_a)
        (geo_init client_example_double)) (by decide!)).2.1 (record_events record_b)
      (by decide!)⟩

theorem strncmp_ip (t : List Nat) : strncmp (lit "ip" ++ t) (lit "ip") 2 = 0 := by
  simp [strncmp, lit]

theorem strncmp_lat_ip (t : List Nat) : strncmp (lit "lat" ++ t) (lit "ip") 3 ≠ 0 := by
  simp [strncmp, lit]

theorem strncmp_lon_ip (t : List Nat) : strncmp (lit "lon" ++ t) (lit "ip") 3 ≠ 0 := by
  simp [strncmp, lit]

theorem strncmp_isp_ip (t : List Nat) : strncmp (lit "isp" ++ t) (lit "ip") 3 ≠ 0 := by
  simp [strncmp, lit]

theorem strncmp_isp_lat (t : List Nat) : strncmp (lit "isp" ++ t) (lit "lat") 3 ≠ 0 := by
  simp [strncmp, lit]

theorem strncmp_isp_lon (t : List Nat) : strncmp (lit "isp" ++ t) (lit "lon") 3 ≠ 0 := by
  simp [strncmp, lit]

theorem strncmp_isp (t : List Nat) : strncmp (lit "isp" ++ t) (lit "isp") 3 = 0 := by
  simp [strncmp, lit]

/-- A value without a NUL among its `len` bytes is copied up to the capacity
less one. -/
theorem snprintf_s_no_nul (cap : Nat) (val : xr_str_t)
    (hnul : ∀ b ∈ val.cstr.take val.len, b ≠ 0) :
    snprintf_s cap val.len val.cstr = val.cstr.take (min val.len (cap - 1)) := by
  have hall : (val.cstr.take val.len).takeWhile (fun c => decide (c ≠ 0)) =
      val.cstr.take val.len := by
    rw [List.takeWhile_eq_self_iff]
    intro b hb
    simpa using hnul b hb
  rw [snprintf_s, hall, List.take_take, Nat.min_comm]

/-- C17: for every attribute event with a recognized name, `save_client_info`
stores the value in the matching field of `client_data` and leaves the other
three fields unchanged: `ip` receives the first `min(len, 511)` bytes of the
value, `isp` the first `min(len, 127)` bytes (the value holds no NUL),
`latitude` and `longitude` the conversion of the value by `atof`; the events
`ip="203.0.113.5"`, `lat="40.0"`, `lon="-75.0"`, `isp="ExampleNet"` yield
`{"203.0.113.5", 40, -75, "ExampleNet"}`. -/
theorem save_client_info_stores_recognized {D : Type} (atof : List Nat → D)
    (c : client_data_t D) (val : xr_str_t) (t : List Nat)
    (hnul : ∀ b ∈ val.cstr.take val.len, b ≠ 0) :
    save_client_info atof xr_type_t.xr_type_attribute
        (some { cstr := lit "ip" ++ t, len := 2 }) (some val) c =
      { c with ip := val.cstr.take (min val.len 511) } ∧
    save_client_info atof xr_type_t.xr_type_attribute
        (some { cstr := lit "lat" ++ t, len := 3 }) (some val) c =
      { c with latitude := atof val.cstr } ∧
    save_client_info atof xr_type_t.xr_type_attribute
        (some { cstr := lit "lon" ++ t, len := 3 }) (some val) c =
      { c with longitude := atof val.cstr } ∧
    save_client_info atof xr_type_t.xr_type_attribute
        (some { cstr := lit "isp" ++ t, len := 3 }) (some val) c =
      { c with isp := val.cstr.take (min val.len 127) } ∧
    (client_feed atof_decimal config_events client_data_zero).ip = lit "203.0.113.5" ∧
    (client_feed atof_decimal config_events client_data_zero).latitude = 40 ∧
    (client_feed atof_decimal config_events client_data_zero).longitude = -75 ∧
    (client_feed atof_decimal config_events client_data_zero).isp = lit "ExampleNet" := by
  have h512 := snprintf_s_no_nul 512 val hnul
  have h128 := snprintf_s_no_nul 128 val hnul
  refine ⟨?_, ?_, ?_, ?_, by decide!, by decide!, by decide!, by decide!⟩
  · simp only [save_client_info, strncmp_ip, ne_eq, not_true_eq_false, if_false, if_true,
      h512]
  · simp only [save_client_info, strncmp_lat_ip, strncmp_lat, ne_eq, not_true_eq_false,
      if_false, if_true]
  · simp only [save_client_info, strncmp_lon_ip, strncmp_lon_lat, strncmp_lon, ne_eq,
      not_true_eq_false, if_false, if_true]
  · simp only [save_client_info, strncmp_isp_ip, strncmp_isp_lat, strncmp_isp_lon,
      strncmp_isp, ne_eq, not_true_eq_false, if_false, if_true, h128]

/-- C17 on the value `203.0.113.5` and the client at `(40.0, -75.0)`. -/
theorem save_client_info_stores_recognized_witness :
    (∀ b ∈ (xr_of "203.0.113.5").cstr.take (xr_of "203.0.113.5").len, b ≠ 0) ∧
    save_client_info atof_decimal xr_type_t.xr_type_attribute
        (some { cstr := lit "ip" ++ lit "=", len := 2 }) (some (xr_of "203.0.113.5"))
        client_example =
      { client_example with
        ip := (xr_of "203.0.113.5").cstr.take (min (xr_of "203.0.113.5").len 511) } ∧
    (client_feed atof_decimal config_events client_data_zero).ip = lit "203.0.113.5" ∧
    (client_feed atof_decimal config_events client_data_zero).latitude = 40 ∧
    (client_feed atof_decimal config_events client_data_zero).longitude = -75 ∧
    (client_feed atof_decimal config_events client_data_zero).isp = lit "ExampleNet" :=
  have h := save_client_info_stores_recognized atof_decimal client_example
    (xr_of "203.0.113.5") (lit "=") (by decide!)
  ⟨by decide!, h.1, h.2.2.2.2⟩

/-- Evaluation for C18: the preamble declares the token `BOUNDARY`; the postamble
is `--`, the token, `--` and CRLF; the midamble begins with the bare token and
CRLF, without the leading `--`. -/
theorem midamble_delimiter_lacks_dashes :
    (∀ (file host : String) (content_length : Int),
      POST_HTTPS_TEMPLATE_PREAMBLE file host content_length =
        "POST /" ++ file ++ " HTTP/1.1\r\n" ++ "Host: " ++ host ++ "\r\n" ++
        "User-Agent: nRF91/0.1\r\n" ++ "Accept: */*\r\n" ++
        "Content-Length: " ++ toString content_length ++ "\r\n" ++
        "Content-Type: multipart/form-data; " ++ ("boundary=" ++ BOUNDARY ++ "\r\n\r\n")) ∧
    POST_HTTPS_TEMPLATE_POSTAMBLE = "--" ++ BOUNDARY ++ "--" ++ "\r\n" ∧
    (lit POST_HTTPS_TEMPLATE_MIDAMBLE).take (lit (BOUNDARY ++ "\r\n")).length =
      lit (BOUNDARY ++ "\r\n") ∧
    (lit POST_HTTPS_TEMPLATE_MIDAMBLE).take (lit ("--" ++ BOUNDARY ++ "\r\n")).length ≠
      lit ("--" ++ BOUNDARY ++ "\r\n") := by
  refine ⟨?_, by decide!, by decide!, by decide!⟩
  intro file host content_length
  have hb : "boundary=" ++ BOUNDARY ++ "\r\n\r\n" =
      "boundary=------------------------76a17771c6949e06\r\n\r\n" := by decide!
  rw [hb]
  rfl

/-- Counterexample for C19: on the disconnected client of `main` (`fd = -1`),
`upload_client_disconnect` returns `-EINVAL`, not zero. -/
theorem upload_client_disconnect_twice_counterexample :
    client_no_security.fd < 0 ∧
    (upload_client_disconnect 0 0 (some client_no_security)).ret = -EINVAL ∧
    (upload_client_disconnect 0 0 (some client_no_security)).ret ≠ 0 := by
  decide!

/-- C19 (amended): for every client with `fd < 0`, `upload_client_disconnect`
closes nothing, leaves every client field unchanged and returns `-EINVAL`;
disconnecting again has the same outcome. -/
theorem upload_client_disconnect_not_connected (close_rc errno : Int) (c : upload_client)
    (h : c.fd < 0) :
    upload_client_disconnect close_rc errno (some c) =
      { ret := -EINVAL, client := some c, ops := [] } ∧
    upload_client_disconnect close_rc errno
        (upload_client_disconnect close_rc errno (some c)).client =
      upload_client_disconnect close_rc errno (some c) := by
  have h1 : upload_client_disconnect close_rc errno (some c) =
      { ret := -EINVAL, client := some c, ops := [] } := by
    simp only [upload_client_disconnect, h, if_true]
  exact ⟨h1, by rw [h1]; exact h1⟩

/-- The amended C19 on the disconnected client of `main`. -/
theorem upload_client_disconnect_not_connected_witness :
    client_no_security.fd < 0 ∧
    upload_client_disconnect 0 0 (some client_no_security) =
      { ret := -EINVAL, client := some client_no_security, ops := [] } ∧
    upload_client_disconnect 0 0
        (upload_client_disconnect 0 0 (some client_no_security)).client =
      upload_client_disconnect 0 0 (some client_no_security) :=
  ⟨by decide, upload_client_disconnect_not_connected 0 0 client_no_security (by decide)⟩

/-- Evaluation for C20: after a fragment whose `fs_write` fails, and after a
`Done` whose `fs_sync` fails, the callback returns `-1` and the cache file
created by `fs_open` still exists; only the `Error` event removes it. -/
theorem servers_file_left_after_write_failure :
    servers_file_init.cache_exists = false ∧
    (servers_file_events 0
        [(fs_ok, download_client_evt.DOWNLOAD_CLIENT_EVT_FRAGMENT 1024),
         ({ fs_ok with fs_write := -5 }, download_client_evt.DOWNLOAD_CLIENT_EVT_FRAGMENT 1024)]
        servers_file_init).1 = [0, -1] ∧
    (servers_file_events 0
        [(fs_ok, download_client_evt.DOWNLOAD_CLIENT_EVT_FRAGMENT 1024),
         ({ fs_ok with fs_write := -5 }, download_client_evt.DOWNLOAD_CLIENT_EVT_FRAGMENT 1024)]
        servers_file_init).2.cache_exists = true ∧
    (servers_file_events 0
        [(fs_ok, download_client_evt.DOWNLOAD_CLIENT_EVT_FRAGMENT 1024),
         ({ fs_ok with fs_sync := -5 }, download_client_evt.DOWNLOAD_CLIENT_EVT_DONE)]
        servers_file_init).1 = [0, -1] ∧
    (servers_file_events 0
        [(fs_ok, download_client_evt.DOWNLOAD_CLIENT_EVT_FRAGMENT 1024),
         ({ fs_ok with fs_sync := -5 }, download_client_evt.DOWNLOAD_CLIENT_EVT_DONE)]
        servers_file_init).2.cache_exists = true ∧
    (servers_file_events 0
        [(fs_ok, download_client_evt.DOWNLOAD_CLIENT_EVT_FRAGMENT 1024),
         (fs_ok, download_client_evt.DOWNLOAD_CLIENT_EVT_ERROR (-104))]
        servers_file_init).2.cache_exists = false := by
  decide!

/-- C21: for every client that is not connected (`fd < 0`, as after
`upload_client_init` or after a successful `upload_client_disconnect`),
`upload_client_start` returns `-ENOTCONN`, sends no bytes, does not resume the
background thread and leaves every client field unchanged. -/
theorem upload_client_start_not_connected
    (url_parse_host url_parse_file : String → Nat → Except Int String)
    (send : Nat → Nat → Int) (errno : Int) (c : upload_client) (file : String)
    (from_ file_size : Nat) (wire : List Nat) (h : c.fd < 0) :
    upload_client_start url_parse_host url_parse_file send errno (some c) file from_
        file_size wire =
      Run.done { ret := -ENOTCONN, client := some c, wire := wire, resumed := false } ∧
    (∀ c0 : upload_client,
      upload_client_start url_parse_host url_parse_file send errno
          (upload_client_init (some c0) false).2 file from_ file_size wire =
        Run.done { ret := -ENOTCONN, client := (upload_client_init (some c0) false).2,
                   wire := wire, resumed := false }) ∧
    (∀ c0 : upload_client, 0 ≤ c0.fd →
      upload_client_start url_parse_host url_parse_file send errno
          (upload_client_disconnect 0 errno (some c0)).client file from_ file_size wire =
        Run.done { ret := -ENOTCONN, client := (upload_client_disconnect 0 errno (some c0)).client,
                   wire := wire, resumed := false }) := by
  refine ⟨?_, ?_, ?_⟩
  · simp only [upload_client_start, h, if_true]
  · intro c0
    simp only [upload_client_init, Bool.false_eq_true, if_false, upload_client_start,
      show ((-1 : Int) < 0) by decide, if_true]
  · intro c0 h0
    have hn : ¬ (c0.fd < 0) := not_lt.mpr h0
    simp only [upload_client_disconnect, hn, if_false, ne_eq, not_true_eq_false,
      upload_client_start, show ((-1 : Int) < 0) by decide, if_true]

/-- C21 on the disconnected client of `main` (`fd = -1`), with nothing on the wire. -/
theorem upload_client_start_not_connected_witness :
    client_no_security.fd < 0 ∧
    upload_client_start url_parse_host_example url_parse_file_example send_everything 0
        (some client_no_security) "http://speedtest.ccvn.com/speedtest/upload.php" 0
        UPLOAD_FILE_SIZE [] =
      Run.done { ret := -ENOTCONN, client := some client_no_security, wire := [],
                 resumed := false } :=
  ⟨by decide,
    (upload_client_start_not_connected url_parse_host_example url_parse_file_example
      send_everything 0 client_no_security
      "http://speedtest.ccvn.com/speedtest/upload.php" 0 UPLOAD_FILE_SIZE []
      (by decide)).1⟩

/-- A line of 511 bytes split over two chunks: the first chunk holds its first
509 bytes `l` and ends before any line feed, the second chunk holds its last
two bytes and the line feed. The second chunk is copied behind the 509 bytes
kept in the line buffer, although the count `i` restarts at zero, and the NUL
that ends the line is written at index 512. -/
theorem read_loop_split_line_overflows (l tail rest : List Nat) (c : Nat)
    (hl : l.length = 509) (hnl : 10 ∉ l) (htail : tail.drop 509 = c :: rest) (hc : c ≠ 10) :
    read_loop [l, [97, 97, 10]] { scratch_buf := tail, p := 0, line := [], parsed := [] } =
      Run.fault Fault.write_past_line_buf := by
  have hadv1 := copy_loop_advance 509 l 2 0
    { scratch_buf := l ++ tail.drop 509, p := 0, line := [], parsed := [] }
    (tail.drop 509) (by simp) hnl (by simp [hl, LINE_BUF_SIZE])
    (by simp [hl]) (by decide) (by simp [hl, LINE_BUF_SIZE])
  simp only [List.nil_append, Nat.zero_add, hl] at hadv1
  have hdrop : (l ++ tail.drop 509).drop 509 = c :: rest := by
    rw [← hl, List.drop_left, hl, htail]
  obtain ⟨hg0, _⟩ := getD_of_drop_eq_cons _ _ _ _ hdrop
  have hcopy1 : copy_loop 509 (LINE_BUF_SIZE - 1) 0
      { scratch_buf := l ++ tail.drop 509, p := 0, line := [], parsed := [] } =
      Run.done (509, { scratch_buf := l ++ tail.drop 509, p := 509, line := l,
                       parsed := [] }) := by
    rw [show LINE_BUF_SIZE - 1 = 2 + 509 by decide, hadv1, copy_loop]
    simp only [Feeder.peek, show (509 : Nat) < CONFIG_DOWNLOAD_CLIENT_BUF_SIZE by decide,
      if_true, hg0, Run.andThen, lt_self_iff_false, and_false, if_false]
  have hfeed1 : feed_loop 509 (509 + 1)
      { scratch_buf := l ++ tail.drop 509, p := 0, line := [], parsed := [] } =
      Run.done { scratch_buf := l ++ tail.drop 509, p := 0, line := l, parsed := [] } := by
    rw [feed_loop]
    simp only [show (0 : Nat) < 509 by decide, if_true, hcopy1, Run.andThen, Feeder.peek,
      show (509 : Nat) < CONFIG_DOWNLOAD_CLIENT_BUF_SIZE by decide, hg0, hc, if_false,
      show ¬ ((509 : Nat) = LINE_BUF_SIZE - 2) by decide]
  have hadv2 := copy_loop_advance 3 [97, 97] 509 0
    { scratch_buf := 97 :: 97 :: 10 :: (l ++ tail.drop 509).drop 3, p := 0, line := l,
      parsed := [] }
    (10 :: (l ++ tail.drop 509).drop 3) (by simp) (by decide) (by decide) (by simp)
    (by decide) (by simp [hl, LINE_BUF_SIZE])
  simp only [List.length_cons, List.length_nil, Nat.zero_add, Nat.reduceAdd] at hadv2
  have hcopy2 : copy_loop 3 (LINE_BUF_SIZE - 1) 0
      { scratch_buf := 97 :: 97 :: 10 :: (l ++ tail.drop 509).drop 3, p := 0, line := l,
        parsed := [] } =
      Run.done (2, { scratch_buf := 97 :: 97 :: 10 :: (l ++ tail.drop 509).drop 3, p := 2,
                     line := l ++ [97, 97], parsed := [] }) := by
    rw [show LINE_BUF_SIZE - 1 = 511 by decide, hadv2, copy_loop]
    simp only [Feeder.peek, show (2 : Nat) < CONFIG_DOWNLOAD_CLIENT_BUF_SIZE by decide,
      if_true, Run.andThen, ne_eq, List.cons_append, List.nil_append, List.getD_cons_succ,
      List.getD_cons_zero, not_true_eq_false, false_and, if_false]
  have hfeed2 : feed_loop 3 (3 + 1)
      { scratch_buf := 97 :: 97 :: 10 :: (l ++ tail.drop 509).drop 3, p := 0, line := l,
        parsed := [] } = Run.fault Fault.write_past_line_buf := by
    rw [feed_loop]
    simp only [show (0 : Nat) < 3 by decide, if_true, hcopy2, Run.andThen, Feeder.peek,
      show (2 : Nat) < CONFIG_DOWNLOAD_CLIENT_BUF_SIZE by decide, List.cons_append,
      List.nil_append, List.getD_cons_succ, List.getD_cons_zero, Feeder.dispatch,
      List.length_append, hl, List.length_cons, List.length_nil,
      show ¬ ((509 : Nat) + (0 + 1 + 1) + 1 < LINE_BUF_SIZE) by decide, if_false]
  simp only [read_loop, hl, show ¬ ((509 : Nat) = 0) by decide, if_false, hfeed1,
    Run.andThen, List.length_cons, List.length_nil, Nat.reduceAdd,
    show ¬ ((3 : Nat) = 0) by decide, List.cons_append, List.nil_append, hfeed2]

/-- C25: a file whose first read returns 509 bytes `a` and whose second read
returns `"aa\n"` makes `process_downloaded_servers_file` write outside
`line_buf`: after the second read the line buffer holds 511 bytes, the line
feed is stored at index 511 and the terminating NUL at index 512, one past the
last element of the 512-byte buffer. -/
theorem servers_file_split_line_overflows_line_buf :
    process_downloaded_servers_file
        (some (0, [List.replicate 509 97, [97, 97, 10]])) scratch_zero =
      Run.fault Fault.write_past_line_buf := by
  have h := read_loop_split_line_overflows (List.replicate 509 97) scratch_zero
    (List.replicate 1538 0) 0 (List.length_replicate _ _)
    (fun hm => absurd (List.eq_of_mem_replicate hm) (by decide))
    (by simp only [scratch_zero, CONFIG_DOWNLOAD_CLIENT_BUF_SIZE, List.drop_replicate]; rfl)
    (by decide)
  have hrun : process_downloaded_servers_file
      (some (0, [List.replicate 509 97, [97, 97, 10]])) scratch_zero =
      (read_loop [List.replicate 509 97, [97, 97, 10]]
        { scratch_buf := scratch_zero, p := 0, line := [], parsed := [] }).andThen
        fun s => Run.done (1, s) := rfl
  rw [hrun, h]
  rfl

/-- C26: two fragments `"ab"` and `"cd"` delivered to `callback_for_config_file`
from the initial state. The first is copied to the start of `scratch_buf`; the
second is copied `2 * 2048 = 4096` bytes after the start of `scratch_buf`, that
is outside the 2048-byte buffer, and the buffer keeps zeros where `"cd"`
belongs, while `saved_fragment_len` counts all four bytes. -/
theorem config_file_second_fragment_outside_scratch_buf :
    config_file_fragments 4 [lit "ab", lit "cd"] config_file_init =
      Run.done { downloaded := 4, file_size := 4, saved_fragment_len := 4,
                 scratch_buf := lit "ab" ++ List.replicate 2046 0,
                 stray_writes := [(4096, lit "cd")], parsed := [], sem_given := 0 } := by
  decide!

/-- The stand-in `sin` is odd. -/
theorem sin_stand_in_neg (a : double) : sin_stand_in (-a) = -(sin_stand_in a) := by
  rcases a with _ | s | ⟨s, m⟩ <;> rfl

/-- The unary minus of `double` is an involution. -/
theorem double_neg_neg (a : double) : -(-a) = a := by
  rcases a with _ | s | ⟨s, m⟩ <;> simp [double_neg_def, double.neg]

/-- The stand-in `pow` is even at the exponent `2`. -/
theorem pow_stand_in_neg (a : double) :
    pow_stand_in (-a) ((2 : Nat) : double) = pow_stand_in a ((2 : Nat) : double) := by
  simp only [pow_stand_in, if_true]
  rw [double_neg_mul, double_mul_comm a (-a), double_neg_mul, double_neg_neg]

/-- A `double` that is not NaN compares equal to itself. -/
theorem double_equal_self (a : double) (h : decide (a = double.nan) = false) :
    double.equal a a = true := by
  rcases a with _ | s | ⟨s, m⟩ <;> simp_all [double.equal]

/-- The law `b - a = -(a - b)` fails on `double` at `a = b`: `5 - 5` is `+0` and
its opposite is `-0`. -/
theorem double_sub_self_example :
    ((5 : Nat) : double) - ((5 : Nat) : double) = double.fin false 0 ∧
    -(((5 : Nat) : double) - ((5 : Nat) : double)) = double.fin true 0 ∧
    ((1 : Nat) : double) / double.fin false 0 = double.inf false ∧
    ((1 : Nat) : double) / double.fin true 0 = double.inf true ∧
    double.equal (double.fin false 0) (double.fin true 0) = true := by
  decide!

/-- Counterexample for C22: between `A = (NaN, 0)`, the point of a record whose
latitude reads `nan`, and `B = (0, 0)` the distance is NaN in both directions,
and the comparison `d(A, B) == d(B, A)` is false. -/
theorem calc_dist_haversine_nan_counterexample :
    calc_dist_haversine (double.ofRat M_PI) sin_stand_in cos_stand_in sqrt_stand_in
        atan2_stand_in pow_stand_in double.nan 0 0 0 = double.nan ∧
    calc_dist_haversine (double.ofRat M_PI) sin_stand_in cos_stand_in sqrt_stand_in
        atan2_stand_in pow_stand_in 0 0 double.nan 0 = double.nan ∧
    double.equal
      (calc_dist_haversine (double.ofRat M_PI) sin_stand_in cos_stand_in sqrt_stand_in
        atan2_stand_in pow_stand_in double.nan 0 0 0)
      (calc_dist_haversine (double.ofRat M_PI) sin_stand_in cos_stand_in sqrt_stand_in
        atan2_stand_in pow_stand_in 0 0 double.nan 0) = false := by
  decide!

/-- On `double`, a value above `1` taken from `1` leaves a value below zero. -/
theorem double_one_sub_neg (a : double) (h : ((1 : Nat) : double) < a) :
    ((1 : Nat) : double) - a < 0 := by
  rw [double_lt_iff] at *
  rcases a with _ | s | ⟨s, m⟩
  · simp [double.lt, NatCast.natCast] at h
  · cases s
    · rfl
    · simp [double.lt, NatCast.natCast] at h
  · have hv : (1 : ℚ) < double.value s m := by
      simpa [double.lt, NatCast.natCast, double.value] using h
    cases s
    · have hm : (1 : ℚ≥0) < m := by
        have : ((1 : ℚ≥0) : ℚ) < (m : ℚ) := by simpa [double.value] using hv
        exact_mod_cast this
      have h1 : ¬ ((1 : ℚ≥0) = m) := ne_of_lt hm
      have h2 : ¬ (m < (1 : ℚ≥0)) := not_lt.mpr hm.le
      have hpos : (0 : ℚ≥0) < m - 1 := tsub_pos_of_lt hm
      show double.lt (double.add (double.fin false ((1 : Nat) : ℚ≥0)) (double.neg
        (double.fin false m))) (double.fin false 0) = true
      simp only [double.neg, double.add, Bool.not_false, Nat.cast_one, h1, h2, if_false,
        Bool.false_eq_true, double.lt, double.value, if_true, decide_eq_true_eq]
      have : (0 : ℚ) < ((m - 1 : ℚ≥0) : ℚ) := by exact_mod_cast hpos
      simpa using this
    · have : double.value true m ≤ 0 := by simp [double.value]
      linarith

/-- The stand-in `sqrt` gives NaN below zero, and the stand-in `atan2` gives NaN on
a NaN argument. -/
theorem stand_in_nan_cases :
    (∀ x : double, x < 0 → sqrt_stand_in x = double.nan) ∧
    (∀ y : double, atan2_stand_in y double.nan = double.nan) := by
  constructor
  · intro x hx
    have hx2 : double.lt x (double.fin false 0) = true := hx
    rcases x with _ | s | ⟨s, m⟩
    · rfl
    · cases s
      · simp [double.lt] at hx2
      · rfl
    · cases s
      · have hm : ¬ ((m : ℚ) < 0) := not_lt.mpr m.2
        simp only [double.lt, double.value, Bool.false_eq_true, if_false, NNRat.coe_zero,
          decide_eq_true_eq] at hx2
        exact absurd hx2 hm
      · have hm : ¬ (m = 0) := by
          intro h0
          subst h0
          simp [double.lt, double.value] at hx2
        simp [sqrt_stand_in, hm]
  · intro y
    rcases y with _ | s | ⟨s, m⟩ <;> rfl

/-- When the value `a` that `calc_dist_haversine` computes exceeds `1`, as rounding
can make it for nearly antipodal points, `1 - a` is below zero and the result
is NaN, for every `sqrt` that gives NaN below zero and every `atan2` that
gives NaN on a NaN argument. -/
theorem calc_dist_haversine_nan_above_one (M_PI : double) (sin cos sqrt : double → double)
    (atan2 pow : double → double → double)
    (hsqrt : ∀ x : double, x < 0 → sqrt x = double.nan)
    (hatan2 : ∀ y : double, atan2 y double.nan = double.nan)
    (lat1 lon1 lat2 lon2 : double)
    (ha : ((1 : Nat) : double) <
      pow (sin ((lat2 - lat1) * M_PI / ((180 : Nat) : double) / ((2 : Nat) : double)))
          ((2 : Nat) : double) +
        cos (lat1 * M_PI / ((180 : Nat) : double)) *
          cos (lat2 * M_PI / ((180 : Nat) : double)) *
          pow (sin ((lon2 - lon1) * M_PI / ((180 : Nat) : double) / ((2 : Nat) : double)))
            ((2 : Nat) : double)) :
    calc_dist_haversine M_PI sin cos sqrt atan2 pow lat1 lon1 lat2 lon2 = double.nan := by
  simp only [calc_dist_haversine]
  rw [hsqrt _ (double_one_sub_neg _ ha), hatan2]
  rfl

/-- C22 (amended): `calc_dist_haversine` computes the same value from `A` to `B` as
from `B` to `A`, and the two compare equal with `==` whenever that value is not
NaN. This holds for every number type and library functions with the sign
symmetries of IEEE 754 arithmetic: the difference of two different operands
changes sign when they are swapped, the sign moves out of products and
quotients, the product commutes, `sin` is odd, the square by `pow` is even, and
a value that is not NaN compares equal to itself. -/
theorem calc_dist_haversine_symmetric {D : Type} [Add D] [Sub D] [Mul D] [Div D] [Neg D]
    [NatCast D] (M_PI : D) (sin cos sqrt : D → D) (atan2 pow : D → D → D)
    (isnan : D → Bool) (equal : D → D → Bool)
    (hsub : ∀ a b : D, a ≠ b → b - a = -(a - b))
    (hmul : ∀ a b : D, (-a) * b = -(a * b))
    (hdiv : ∀ a b : D, (-a) / b = -(a / b))
    (hcomm : ∀ a b : D, a * b = b * a)
    (hsin : ∀ a : D, sin (-a) = -(sin a))
    (hpow : ∀ a : D, pow (-a) ((2 : Nat) : D) = pow a ((2 : Nat) : D))
    (hequal : ∀ a : D, isnan a = false → equal a a = true)
    (lat1 lon1 lat2 lon2 : D) :
    calc_dist_haversine M_PI sin cos sqrt atan2 pow lat1 lon1 lat2 lon2 =
      calc_dist_haversine M_PI sin cos sqrt atan2 pow lat2 lon2 lat1 lon1 ∧
    (isnan (calc_dist_haversine M_PI sin cos sqrt atan2 pow lat1 lon1 lat2 lon2) = false →
      equal (calc_dist_haversine M_PI sin cos sqrt atan2 pow lat1 lon1 lat2 lon2)
        (calc_dist_haversine M_PI sin cos sqrt atan2 pow lat2 lon2 lat1 lon1) = true) := by
  have hlat : pow (sin ((lat1 - lat2) * M_PI / ((180 : Nat) : D) / ((2 : Nat) : D)))
        ((2 : Nat) : D) =
      pow (sin ((lat2 - lat1) * M_PI / ((180 : Nat) : D) / ((2 : Nat) : D)))
        ((2 : Nat) : D) := by
    by_cases h : lat2 = lat1
    · rw [h]
    · rw [hsub lat2 lat1 h, hmul, hdiv, hdiv, hsin, hpow]
  have hlon : pow (sin ((lon1 - lon2) * M_PI / ((180 : Nat) : D) / ((2 : Nat) : D)))
        ((2 : Nat) : D) =
      pow (sin ((lon2 - lon1) * M_PI / ((180 : Nat) : D) / ((2 : Nat) : D)))
        ((2 : Nat) : D) := by
    by_cases h : lon2 = lon1
    · rw [h]
    · rw [hsub lon2 lon1 h, hmul, hdiv, hdiv, hsin, hpow]
  have heq : calc_dist_haversine M_PI sin cos sqrt atan2 pow lat1 lon1 lat2 lon2 =
      calc_dist_haversine M_PI sin cos sqrt atan2 pow lat2 lon2 lat1 lon1 := by
    simp only [calc_dist_haversine]
    rw [hlat, hlon,
      hcomm (cos (lat1 * M_PI / ((180 : Nat) : D))) (cos (lat2 * M_PI / ((180 : Nat) : D)))]
  refine ⟨heq, fun hn => ?_⟩
  rw [← heq]
  exact hequal _ hn

/-- C22 (amended) between the points `(0, 0)` and `(0, 90)`, whose latitudes are
equal: in the arithmetic of `double`, with its two zeros and NaN, and in real
arithmetic with `atan2 y x` the argument of `x + y i`. -/
theorem calc_dist_haversine_symmetric_witness :
    (calc_dist_haversine (double.ofRat Speedtest.M_PI) sin_stand_in cos_stand_in
        sqrt_stand_in atan2_stand_in pow_stand_in 0 0 0 ((90 : Nat) : double) =
      calc_dist_haversine (double.ofRat Speedtest.M_PI) sin_stand_in cos_stand_in
        sqrt_stand_in atan2_stand_in pow_stand_in 0 ((90 : Nat) : double) 0 0) ∧
    (calc_dist_haversine ((Speedtest.M_PI : ℚ) : ℝ) Real.sin Real.cos Real.sqrt
        (fun y x => Complex.arg ⟨x, y⟩) (fun x y => x ^ y) 0 0 0 90 =
      calc_dist_haversine ((Speedtest.M_PI : ℚ) : ℝ) Real.sin Real.cos Real.sqrt
        (fun y x => Complex.arg ⟨x, y⟩) (fun x y => x ^ y) 0 90 0 0) :=
  ⟨(calc_dist_haversine_symmetric (double.ofRat Speedtest.M_PI) sin_stand_in cos_stand_in
      sqrt_stand_in atan2_stand_in pow_stand_in (fun a => decide (a = double.nan))
      double.equal double_sub_antisymm double_neg_mul double_neg_div double_mul_comm
      sin_stand_in_neg pow_stand_in_neg double_equal_self 0 0 0 ((90 : Nat) : double)).1,
    (calc_dist_haversine_symmetric ((Speedtest.M_PI : ℚ) : ℝ) Real.sin Real.cos Real.sqrt
      (fun y x => Complex.arg ⟨x, y⟩) (fun x y => x ^ y) (fun _ => false)
      (fun a b => decide (a = b))
      (fun a b _ => (neg_sub a b).symm) (fun a b => neg_mul a b) (fun a b => neg_div b a)
      (fun a b => mul_comm a b) (fun a => Real.sin_neg a)
      (fun a => by
        show (-a) ^ (((2 : Nat) : ℝ)) = a ^ (((2 : Nat) : ℝ))
        rw [Real.rpow_natCast, Real.rpow_natCast, neg_sq])
      (fun a _ => by simp) 0 0 0 90).1⟩

/-- A quarter of the constant `M_PI` lies strictly between `0` and `π / 2`. -/
theorem M_PI_quarter_bounds :
    0 < ((M_PI : ℚ) : ℝ) / 4 ∧ ((M_PI : ℚ) : ℝ) / 4 < Real.pi / 2 := by
  have h3 := Real.pi_gt_three
  have hq : ((M_PI : ℚ) : ℝ) =
      314159265358979323846264338327950288 / 100000000000000000000000000000000000 := by
    simp only [M_PI]; push_cast; rfl
  rw [hq]
  constructor
  · norm_num
  · have : (314159265358979323846264338327950288 /
        100000000000000000000000000000000000 : ℝ) / 4 < 1 := by norm_num
    linarith

/-- The argument of `cos θ + i sin θ` is `θ` in the first quadrant. -/
theorem arg_of_cos_sin (θ : ℝ) (h0 : 0 < θ) (h1 : θ < Real.pi / 2) :
    Complex.arg ⟨Real.cos θ, Real.sin θ⟩ = θ := by
  have h := Complex.arg_cos_add_sin_mul_I (θ := θ)
    ⟨by linarith [Real.pi_pos], by linarith [Real.pi_pos]⟩
  have e : (⟨Real.cos θ, Real.sin θ⟩ : ℂ) = Complex.cos θ + Complex.sin θ * Complex.I := by
    apply Complex.ext
    · simp [Complex.add_re, Complex.mul_re, ← Complex.ofReal_cos, ← Complex.ofReal_sin]
    · simp [Complex.add_im, Complex.mul_im, ← Complex.ofReal_cos, ← Complex.ofReal_sin]
  rw [e, h]

/-- In real arithmetic the distance from `(0, 0)` to `(0, 90)` is
`6371 * M_PI / 2`. -/
theorem calc_dist_haversine_quarter_turn :
    calc_dist_haversine ((M_PI : ℚ) : ℝ) Real.sin Real.cos Real.sqrt
        (fun y x => Complex.arg ⟨x, y⟩) (fun x y => x ^ y) 0 0 0 90 =
      6371 * ((M_PI : ℚ) : ℝ) / 2 := by
  obtain ⟨h0, h1⟩ := M_PI_quarter_bounds
  have hs : 0 ≤ Real.sin (((M_PI : ℚ) : ℝ) / 4) :=
    Real.sin_nonneg_of_nonneg_of_le_pi h0.le (by linarith [Real.pi_pos])
  have hc : 0 ≤ Real.cos (((M_PI : ℚ) : ℝ) / 4) :=
    Real.cos_nonneg_of_mem_Icc ⟨by linarith [Real.pi_pos], h1.le⟩
  have hdlon : ((90 : ℝ) - 0) * ((M_PI : ℚ) : ℝ) / ((180 : Nat) : ℝ) / ((2 : Nat) : ℝ) =
      ((M_PI : ℚ) : ℝ) / 4 := by
    push_cast; ring
  simp only [calc_dist_haversine]
  rw [hdlon]
  simp only [sub_self, zero_mul, zero_div, Real.sin_zero, Real.cos_zero, Real.rpow_natCast,
    mul_one, one_mul]
  have ha : (0 : ℝ) ^ 2 + Real.sin (((M_PI : ℚ) : ℝ) / 4) ^ 2 =
      Real.sin (((M_PI : ℚ) : ℝ) / 4) ^ 2 := by ring
  rw [ha]
  have h1a : ((1 : Nat) : ℝ) - Real.sin (((M_PI : ℚ) : ℝ) / 4) ^ 2 =
      Real.cos (((M_PI : ℚ) : ℝ) / 4) ^ 2 := by
    have := Real.sin_sq_add_cos_sq (((M_PI : ℚ) : ℝ) / 4)
    push_cast; linarith
  rw [h1a, Real.sqrt_sq hs, Real.sqrt_sq hc, arg_of_cos_sin _ h0 h1]
  push_cast; ring

/-- C23: in real arithmetic, with `atan2 y x` the argument of `x + y i`, the
distance `calc_dist_haversine` gives from `(0, 0)` to `(0, 90)` is
`6371 * M_PI / 2`; it lies within 0.1 km of 10007.5 km and within 0.1 km of
`6371 * π / 2`. -/
theorem calc_dist_haversine_reference_value :
    calc_dist_haversine ((M_PI : ℚ) : ℝ) Real.sin Real.cos Real.sqrt
        (fun y x => Complex.arg ⟨x, y⟩) (fun x y => x ^ y) 0 0 0 90 =
      6371 * ((M_PI : ℚ) : ℝ) / 2 ∧
    |calc_dist_haversine ((M_PI : ℚ) : ℝ) Real.sin Real.cos Real.sqrt
        (fun y x => Complex.arg ⟨x, y⟩) (fun x y => x ^ y) 0 0 0 90 - 10007.5| < 0.1 ∧
    |calc_dist_haversine ((M_PI : ℚ) : ℝ) Real.sin Real.cos Real.sqrt
        (fun y x => Complex.arg ⟨x, y⟩) (fun x y => x ^ y) 0 0 0 90 - 6371 * Real.pi / 2|
      < 0.1 := by
  have hq : ((M_PI : ℚ) : ℝ) =
      314159265358979323846264338327950288 / 100000000000000000000000000000000000 := by
    simp only [M_PI]; push_cast; rfl
  have hlo := Real.pi_gt_d6
  have hhi := Real.pi_lt_d6
  rw [calc_dist_haversine_quarter_turn, hq]
  refine ⟨rfl, ?_, ?_⟩
  · rw [abs_lt]; constructor <;> norm_num
  · rw [abs_lt]; constructor <;> linarith

/-- Rounding to the nearest integer moves a value by at most one half. -/
theorem round_half_even_error (m : ℚ) : |((round_half_even m : ℤ) : ℚ) - m| ≤ 1 / 2 := by
  have h1 := Int.floor_le m
  have h2 := Int.lt_floor_add_one m
  unfold round_half_even
  rw [abs_le]
  split_ifs with ha hb hc
  · constructor <;> linarith
  · push_cast; constructor <;> linarith
  · have : m - ⌊m⌋ = 1 / 2 := le_antisymm (not_lt.mp hb) (not_lt.mp ha)
    constructor <;> linarith
  · have : m - ⌊m⌋ = 1 / 2 := le_antisymm (not_lt.mp hb) (not_lt.mp ha)
    push_cast; constructor <;> linarith

/-- Rounding a non-negative value gives a non-negative integer. -/
theorem round_half_even_nonneg (m : ℚ) (h : 0 ≤ m) : 0 ≤ round_half_even m := by
  have h1 : 0 ≤ ⌊m⌋ := Int.floor_nonneg.mpr h
  unfold round_half_even
  split_ifs <;> omega

/-- The exponent of a value in the normal range is a lower bound of it. -/
theorem float_exponent_le (x : ℚ) (h : 2 ^ (-126 : ℤ) ≤ x) :
    ∀ n : Nat, (2 : ℚ) ^ (float_exponent x n) ≤ x := by
  intro n
  induction n with
  | zero => simpa [float_exponent] using h
  | succ n ih =>
    rw [float_exponent]
    split_ifs with h1
    · exact h1
    · exact ih

/-- Zero is a `float`. -/
theorem float_round_zero : float_round 0 = 0 := by
  simp [float_round, round_half_even]

/-- Rounding to `float` changes zero or a value in the normal range by at most
the fraction `2 ^ -24` of it. -/
theorem float_round_error (x : ℚ) (h : x = 0 ∨ 2 ^ (-126 : ℤ) ≤ x) :
    |float_round x - x| ≤ x / 2 ^ 24 := by
  rcases h with h | h
  · subst h; simp [float_round_zero]
  · have hx : 0 < x := lt_of_lt_of_le (by positivity) h
    have he := float_exponent_le |x| (by rwa [abs_of_pos hx]) 253
    rw [abs_of_pos hx] at he
    have hu : (0 : ℚ) < 2 ^ (float_exponent x 253 - 23) := by positivity
    have hr := round_half_even_error (x / 2 ^ (float_exponent x 253 - 23))
    unfold float_round
    rw [abs_of_pos hx]
    have e1 : ((round_half_even (x / 2 ^ (float_exponent x 253 - 23)) : ℤ) : ℚ) *
        2 ^ (float_exponent x 253 - 23) - x =
        (((round_half_even (x / 2 ^ (float_exponent x 253 - 23)) : ℤ) : ℚ) -
          x / 2 ^ (float_exponent x 253 - 23)) * 2 ^ (float_exponent x 253 - 23) := by
      field_simp
    rw [e1, abs_mul, abs_of_pos hu]
    have e2 : (2 : ℚ) ^ (float_exponent x 253 - 23) = 2 ^ (float_exponent x 253) / 2 ^ 23 := by
      rw [zpow_sub₀ (by norm_num)]; norm_num
    calc |((round_half_even (x / 2 ^ (float_exponent x 253 - 23)) : ℤ) : ℚ) -
          x / 2 ^ (float_exponent x 253 - 23)| * 2 ^ (float_exponent x 253 - 23)
        ≤ 1 / 2 * 2 ^ (float_exponent x 253 - 23) :=
          mul_le_mul_of_nonneg_right hr hu.le
      _ = 2 ^ (float_exponent x 253) / 2 ^ 24 := by rw [e2]; ring
      _ ≤ x / 2 ^ 24 := by
          apply div_le_div_of_nonneg_right he (by positivity)

/-- Rounding to `float` keeps a non-negative value non-negative. -/
theorem float_round_nonneg (x : ℚ) (h : 0 ≤ x) : 0 ≤ float_round x := by
  unfold float_round
  have hu : (0 : ℚ) < 2 ^ (float_exponent |x| 253 - 23) := by positivity
  have := round_half_even_nonneg (x / 2 ^ (float_exponent |x| 253 - 23)) (div_nonneg h hu.le)
  have h2 : (0 : ℚ) ≤ ((round_half_even (x / 2 ^ (float_exponent |x| 253 - 23)) : ℤ) : ℚ) := by
    exact_mod_cast this
  exact mul_nonneg h2 hu.le

/-- The relative error of rounding to `float`, as two bounds. -/
theorem float_round_bounds (x : ℚ) (h : x = 0 ∨ 2 ^ (-126 : ℤ) ≤ x) :
    x * (16777215 / 16777216) ≤ float_round x ∧ float_round x ≤ x * (16777217 / 16777216) := by
  have := float_round_error x h
  rw [abs_le] at this
  norm_num at this
  constructor <;> linarith [this.1, this.2]


/-- The constant `MSEC_PER_SEC` is a `float`. -/
theorem float_round_MSEC_PER_SEC : float_round (MSEC_PER_SEC : ℚ) = 1000 := by
  decide!

/-- The `float` computed for `speed` from a counter below `2 ^ 32` and a positive
time below `2 ^ 63`: it lies within the fraction `2 ^ -21` of the exact
quotient, and no intermediate value leaves the range of `float`. -/
theorem speed_float_bounds (bytes : Nat) (ms_elapsed : Int)
    (hb : bytes < 2 ^ 32) (h0 : 0 < ms_elapsed) (hm : ms_elapsed < 2 ^ 63) :
    ((bytes : ℚ) / ms_elapsed * 1000 * (1 - 1 / 2 ^ 21) ≤ float_round
        (float_round (float_round (bytes : ℚ) / float_round (ms_elapsed : ℚ)) * 1000) ∧
      float_round
        (float_round (float_round (bytes : ℚ) / float_round (ms_elapsed : ℚ)) * 1000) ≤
        (bytes : ℚ) / ms_elapsed * 1000 * (1 + 1 / 2 ^ 21)) ∧
    0 ≤ float_round
        (float_round (float_round (bytes : ℚ) / float_round (ms_elapsed : ℚ)) * 1000) ∧
    |float_round (bytes : ℚ)| ≤ FLT_MAX ∧ |float_round (ms_elapsed : ℚ)| ≤ FLT_MAX ∧
    |float_round (float_round (bytes : ℚ) / float_round (ms_elapsed : ℚ))| ≤ FLT_MAX := by
  have hB0 : (0 : ℚ) ≤ bytes := Nat.cast_nonneg _
  have hB1 : (bytes : ℚ) < 2 ^ 32 := by exact_mod_cast hb
  have hM1 : (1 : ℚ) ≤ ms_elapsed := by exact_mod_cast h0
  have hM2 : (ms_elapsed : ℚ) < 2 ^ 63 := by exact_mod_cast hm
  have hMpos : (0 : ℚ) < ms_elapsed := by linarith
  -- the two conversions
  have hBn : (bytes : ℚ) = 0 ∨ 2 ^ (-126 : ℤ) ≤ (bytes : ℚ) := by
    rcases Nat.eq_zero_or_pos bytes with h | h
    · left; exact_mod_cast h
    · right
      have : (1 : ℚ) ≤ bytes := by exact_mod_cast h
      exact le_trans (by norm_num) this
  have hMn : (ms_elapsed : ℚ) = 0 ∨ 2 ^ (-126 : ℤ) ≤ (ms_elapsed : ℚ) :=
    Or.inr (le_trans (by norm_num) hM1)
  obtain ⟨ha1, ha2⟩ := float_round_bounds _ hBn
  obtain ⟨hb1, hb2⟩ := float_round_bounds _ hMn
  have ha0 : 0 ≤ float_round (bytes : ℚ) := float_round_nonneg _ hB0
  have hbpos : 0 < float_round (ms_elapsed : ℚ) := by linarith
  -- the quotient
  have hq0 : 0 ≤ float_round (bytes : ℚ) / float_round (ms_elapsed : ℚ) :=
    div_nonneg ha0 hbpos.le
  have hqn : float_round (bytes : ℚ) / float_round (ms_elapsed : ℚ) = 0 ∨
      2 ^ (-126 : ℤ) ≤ float_round (bytes : ℚ) / float_round (ms_elapsed : ℚ) := by
    rcases Nat.eq_zero_or_pos bytes with h | h
    · left; subst h; simp [float_round_zero]
    · right
      have hB : (1 : ℚ) ≤ bytes := by exact_mod_cast h
      rw [le_div_iff₀ hbpos]
      have : (2 : ℚ) ^ (-126 : ℤ) * float_round (ms_elapsed : ℚ) ≤
          2 ^ (-126 : ℤ) * (2 ^ 63 * (16777217 / 16777216)) := by
        apply mul_le_mul_of_nonneg_left _ (by positivity)
        linarith
      have h3 : (2 : ℚ) ^ (-126 : ℤ) * (2 ^ 63 * (16777217 / 16777216)) ≤ 16777215 / 16777216 := by
        norm_num
      have h4 : (16777215 / 16777216 : ℚ) ≤ (bytes : ℚ) * (16777215 / 16777216) := by
        linarith
      exact le_trans this (le_trans h3 (le_trans h4 ha1))
  obtain ⟨hq1, hq2⟩ := float_round_bounds _ hqn
  have hqr0 : 0 ≤ float_round (float_round (bytes : ℚ) / float_round (ms_elapsed : ℚ)) :=
    float_round_nonneg _ hq0
  have hE0 : (0 : ℚ) ≤ (bytes : ℚ) / ms_elapsed := div_nonneg hB0 hMpos.le
  have hab2 : float_round (bytes : ℚ) / float_round (ms_elapsed : ℚ) ≤
      (bytes : ℚ) / ms_elapsed * (16777217 / 16777215) := by
    have := div_le_div₀ (by positivity : (0 : ℚ) ≤ (bytes : ℚ) * (16777217 / 16777216)) ha2
      (by positivity : (0 : ℚ) < (ms_elapsed : ℚ) * (16777215 / 16777216)) hb1
    have e : (bytes : ℚ) * (16777217 / 16777216) / ((ms_elapsed : ℚ) * (16777215 / 16777216)) =
        (bytes : ℚ) / ms_elapsed * (16777217 / 16777215) := by
      field_simp
    rwa [e] at this
  have hab1 : (bytes : ℚ) / ms_elapsed * (16777215 / 16777217) ≤
      float_round (bytes : ℚ) / float_round (ms_elapsed : ℚ) := by
    have := div_le_div₀ ha0 ha1 hbpos hb2
    have e : (bytes : ℚ) * (16777215 / 16777216) / ((ms_elapsed : ℚ) * (16777217 / 16777216)) =
        (bytes : ℚ) / ms_elapsed * (16777215 / 16777217) := by
      field_simp
    rwa [e] at this
  -- the product with `MSEC_PER_SEC`
  have hq1000 : float_round (float_round (bytes : ℚ) / float_round (ms_elapsed : ℚ)) * 1000 = 0 ∨
      2 ^ (-126 : ℤ) ≤
        float_round (float_round (bytes : ℚ) / float_round (ms_elapsed : ℚ)) * 1000 := by
    rcases hqn with h | h
    · left; rw [h, float_round_zero]; ring
    · right
      have h5 : (2 : ℚ) ^ (-126 : ℤ) ≤
          2 ^ (-126 : ℤ) * (16777215 / 16777216) * 1000 := by
        have : (0 : ℚ) < 2 ^ (-126 : ℤ) := by positivity
        linarith
      have h6 : (2 : ℚ) ^ (-126 : ℤ) * (16777215 / 16777216) ≤
          float_round (bytes : ℚ) / float_round (ms_elapsed : ℚ) * (16777215 / 16777216) :=
        mul_le_mul_of_nonneg_right h (by norm_num)
      linarith
  obtain ⟨hr1, hr2⟩ := float_round_bounds _ hq1000
  have hr0 : 0 ≤ float_round
      (float_round (float_round (bytes : ℚ) / float_round (ms_elapsed : ℚ)) * 1000) :=
    float_round_nonneg _ (mul_nonneg hqr0 (by norm_num))
  -- the result against the exact quotient
  have hhi : float_round
      (float_round (float_round (bytes : ℚ) / float_round (ms_elapsed : ℚ)) * 1000) ≤
      (bytes : ℚ) / ms_elapsed * 1000 * (1 + 1 / 2 ^ 21) := by
    have s1 : float_round (float_round (bytes : ℚ) / float_round (ms_elapsed : ℚ)) ≤
        (bytes : ℚ) / ms_elapsed * (16777217 / 16777215) * (16777217 / 16777216) :=
      le_trans hq2 (mul_le_mul_of_nonneg_right hab2 (by norm_num))
    have s2 : float_round
        (float_round (float_round (bytes : ℚ) / float_round (ms_elapsed : ℚ)) * 1000) ≤
        (bytes : ℚ) / ms_elapsed * (16777217 / 16777215) * (16777217 / 16777216) * 1000 *
          (16777217 / 16777216) :=
      le_trans hr2 (mul_le_mul_of_nonneg_right
        (mul_le_mul_of_nonneg_right s1 (by norm_num)) (by norm_num))
    have s3 : (bytes : ℚ) / ms_elapsed * (16777217 / 16777215) * (16777217 / 16777216) * 1000 *
          (16777217 / 16777216) =
        (bytes : ℚ) / ms_elapsed * 1000 *
          ((16777217 / 16777215) * (16777217 / 16777216) * (16777217 / 16777216)) := by ring
    rw [s3] at s2
    exact le_trans s2 (mul_le_mul_of_nonneg_left (by norm_num)
      (mul_nonneg hE0 (by norm_num)))
  have hlo : (bytes : ℚ) / ms_elapsed * 1000 * (1 - 1 / 2 ^ 21) ≤ float_round
      (float_round (float_round (bytes : ℚ) / float_round (ms_elapsed : ℚ)) * 1000) := by
    have s1 : (bytes : ℚ) / ms_elapsed * (16777215 / 16777217) * (16777215 / 16777216) ≤
        float_round (float_round (bytes : ℚ) / float_round (ms_elapsed : ℚ)) :=
      le_trans (mul_le_mul_of_nonneg_right hab1 (by norm_num)) hq1
    have s2 : (bytes : ℚ) / ms_elapsed * (16777215 / 16777217) * (16777215 / 16777216) * 1000 *
          (16777215 / 16777216) ≤ float_round
        (float_round (float_round (bytes : ℚ) / float_round (ms_elapsed : ℚ)) * 1000) :=
      le_trans (mul_le_mul_of_nonneg_right
        (mul_le_mul_of_nonneg_right s1 (by norm_num)) (by norm_num)) hr1
    have s3 : (bytes : ℚ) / ms_elapsed * (16777215 / 16777217) * (16777215 / 16777216) * 1000 *
          (16777215 / 16777216) =
        (bytes : ℚ) / ms_elapsed * 1000 *
          ((16777215 / 16777217) * (16777215 / 16777216) * (16777215 / 16777216)) := by ring
    rw [s3] at s2
    exact le_trans (mul_le_mul_of_nonneg_left (by norm_num)
      (mul_nonneg hE0 (by norm_num))) s2
  -- the guards of the conversion to `uint32_t`
  have hE0B : (bytes : ℚ) / ms_elapsed ≤ bytes := div_le_self hB0 hM1
  have hfa : |float_round (bytes : ℚ)| ≤ FLT_MAX := by
    rw [abs_of_nonneg ha0]
    have : (bytes : ℚ) * (16777217 / 16777216) ≤ FLT_MAX := by
      have : (2 : ℚ) ^ 32 * (16777217 / 16777216) ≤ FLT_MAX := by norm_num [FLT_MAX]
      linarith
    linarith
  have hfb : |float_round (ms_elapsed : ℚ)| ≤ FLT_MAX := by
    rw [abs_of_pos hbpos]
    have : (2 : ℚ) ^ 63 * (16777217 / 16777216) ≤ FLT_MAX := by norm_num [FLT_MAX]
    linarith
  have hfq : |float_round (float_round (bytes : ℚ) / float_round (ms_elapsed : ℚ))| ≤
      FLT_MAX := by
    rw [abs_of_nonneg hqr0]
    have h7 : float_round (bytes : ℚ) / float_round (ms_elapsed : ℚ) ≤
        2 ^ 32 * (16777217 / 16777215) :=
      le_trans hab2 (mul_le_mul_of_nonneg_right (by linarith) (by norm_num))
    have h8 : (2 : ℚ) ^ 32 * (16777217 / 16777215) * (16777217 / 16777216) ≤ FLT_MAX := by
      norm_num [FLT_MAX]
    exact le_trans hq2 (le_trans (mul_le_mul_of_nonneg_right h7 (by norm_num)) h8)
  exact ⟨⟨hlo, hhi⟩, hr0, hfa, hfb, hfq⟩

/-- Examples of `float_round`: one third, one tenth, integers next to `2 ^ 24`
and a negative tie. -/
theorem float_round_examples :
    float_round (1 / 3) = 11184811 / 33554432 ∧ float_round 16777217 = 16777216 ∧
    float_round (1 / 10) = 13421773 / 134217728 ∧ float_round 1000 = 1000 ∧
    float_round (-5 / 2) = -5 / 2 ∧ float_round 16777219 = 16777220 ∧
    float_round (2 ^ 127 + 2 ^ 103 + 1) = 2 ^ 127 + 2 ^ 104 ∧
    float_round (3 / 2 ^ 150) = 1 / 2 ^ 148 := by
  decide!

/-- Counterexample for C24: for the 51200 bytes of the upload and 207 ms the
value stored in `speed` is 247343, while `51200 / 207 * 1000` is not an integer
and its integer part is 247342. -/
theorem speed_not_exact_quotient_counterexample :
    speed 51200 207 = some 247343 ∧
    ((51200 : Nat) : ℚ) / ((207 : Int) : ℚ) * 1000 ≠ 247343 ∧
    ⌊((51200 : Nat) : ℚ) / ((207 : Int) : ℚ) * 1000⌋ = 247342 ∧
    speed 1 3 = some 333 := by
  decide!

/-- C24 (amended): for every byte count below `2 ^ 32` and every elapsed time
`0 < ms_elapsed < 2 ^ 63` whose exact throughput `bytes / ms_elapsed * 1000` is
below `2 ^ 31`, the statement that computes `speed` stores a defined value `v`,
and `v` differs from the exact throughput by less than `1` plus the fraction
`2 ^ -21` of it. -/
theorem speed_within_rounding (bytes : Nat) (ms_elapsed : Int)
    (hb : bytes < 2 ^ 32) (h0 : 0 < ms_elapsed) (hm : ms_elapsed < 2 ^ 63)
    (hr : (bytes : ℚ) / ms_elapsed * 1000 < 2 ^ 31) :
    ∃ v : Nat, speed bytes ms_elapsed = some v ∧
      |(v : ℚ) - (bytes : ℚ) / ms_elapsed * 1000| <
        1 + (bytes : ℚ) / ms_elapsed * 1000 / 2 ^ 21 := by
  obtain ⟨⟨hlo, hhi⟩, hr0, hfa, hfb, hfq⟩ := speed_float_bounds bytes ms_elapsed hb h0 hm
  have hr32 : float_round
      (float_round (float_round (bytes : ℚ) / float_round (ms_elapsed : ℚ)) * 1000) <
      2 ^ 32 := by
    have : (bytes : ℚ) / ms_elapsed * 1000 * (1 + 1 / 2 ^ 21) < 2 ^ 31 * (1 + 1 / 2 ^ 21) :=
      mul_lt_mul_of_pos_right hr (by norm_num)
    have h9 : (2 : ℚ) ^ 31 * (1 + 1 / 2 ^ 21) < 2 ^ 32 := by norm_num
    linarith
  have hfr : |float_round
      (float_round (float_round (bytes : ℚ) / float_round (ms_elapsed : ℚ)) * 1000)| ≤
      FLT_MAX := by
    rw [abs_of_nonneg hr0]
    have : (2 : ℚ) ^ 32 ≤ FLT_MAX := by norm_num [FLT_MAX]
    linarith
  have hfl0 : 0 ≤ ⌊float_round
      (float_round (float_round (bytes : ℚ) / float_round (ms_elapsed : ℚ)) * 1000)⌋ :=
    Int.floor_nonneg.mpr hr0
  have hcast : ((⌊float_round
      (float_round (float_round (bytes : ℚ) / float_round (ms_elapsed : ℚ)) * 1000)⌋.toNat : ℕ) :
        ℚ) = ((⌊float_round
      (float_round (float_round (bytes : ℚ) / float_round (ms_elapsed : ℚ)) * 1000)⌋ : ℤ) : ℚ) := by
    have := Int.toNat_of_nonneg hfl0
    exact_mod_cast congrArg (fun z : ℤ => (z : ℚ)) this
  have hf1 := Int.floor_le (float_round
      (float_round (float_round (bytes : ℚ) / float_round (ms_elapsed : ℚ)) * 1000))
  have hf2 := Int.lt_floor_add_one (float_round
      (float_round (float_round (bytes : ℚ) / float_round (ms_elapsed : ℚ)) * 1000))
  refine ⟨⌊float_round
      (float_round (float_round (bytes : ℚ) / float_round (ms_elapsed : ℚ)) * 1000)⌋.toNat,
    ?_, ?_⟩
  · simp only [speed, float_round_MSEC_PER_SEC]
    rw [if_pos ⟨ne_of_gt h0, hfa, hfb, hfq, hfr, by linarith, hr32⟩]
  · rw [hcast, abs_lt]
    constructor <;> linarith

/-- C24 (amended) on the 51200 bytes of the upload and 207 ms. -/
theorem speed_within_rounding_witness :
    ∃ v : Nat, speed 51200 207 = some v ∧
      |(v : ℚ) - ((51200 : Nat) : ℚ) / ((207 : Int) : ℚ) * 1000| <
        1 + ((51200 : Nat) : ℚ) / ((207 : Int) : ℚ) * 1000 / 2 ^ 21 :=
  speed_within_rounding 51200 207 (by decide) (by decide) (by decide) (by norm_num)

/-- Once `saved_fragment_len` is positive, the copy of a non-empty fragment leaves
`scratch_buf` as it is: its destination lies `saved_fragment_len * 2048` bytes
after the start of the buffer. -/
theorem config_file_memcpy_outside (s : ConfigFile) (data : List Nat)
    (h0 : 0 < s.saved_fragment_len) (hd : data ≠ []) :
    config_file_memcpy s data =
      { s with stray_writes := s.stray_writes ++
          [(s.saved_fragment_len * CONFIG_DOWNLOAD_CLIENT_BUF_SIZE, data)] } := by
  have hlen : 0 < data.length := List.length_pos.mpr hd
  have h1 : ¬ (data.length = 0) := by omega
  have h2 : ¬ (s.saved_fragment_len * CONFIG_DOWNLOAD_CLIENT_BUF_SIZE + data.length ≤
      CONFIG_DOWNLOAD_CLIENT_BUF_SIZE) := by
    have : CONFIG_DOWNLOAD_CLIENT_BUF_SIZE ≤
        s.saved_fragment_len * CONFIG_DOWNLOAD_CLIENT_BUF_SIZE :=
      Nat.le_mul_of_pos_left _ h0
    omega
  simp only [config_file_memcpy, h1, h2, if_false]

end Speedtest
